import Mathlib

/-!
Shallow embedding of `multiqc/core/update_config.py`: the `ClConfig` override
record, the process-wide configuration store, and the `update_config`
resolution pass.  External collaborators (built-in defaults, config-file
discovery and parsing, name-replacement file loaders, `os.path.realpath`)
live outside this file's source and are taken as parameters; per the spec,
the dedicated file loaders (`load_replace_names`, `load_sample_names`,
`load_show_hide`) each mutate only their dedicated store sub-section, which
the parameter types enforce.  Side-effecting collaborator calls and plugin
hooks are recorded in an event trace.
-/

namespace MultiQC

/-- A `module_order` / `top_modules` entry: in the source these lists hold
`Union[str, Dict]`; a bare module name or a dict of per-module options. -/
inductive ModuleEntry where
  | name (s : String)
  | dict (entries : List (String × List (String × String)))
deriving DecidableEq, Repr

/-- `use_filename_as_sample_name` is `Union[bool, List[str]]` in the source. -/
inductive UseFilenameAsSampleName where
  | asBool (b : Bool)
  | asList (l : List String)
deriving DecidableEq, Repr

/-- Side-effecting calls made during a resolution pass, in emission order:
logger re-initialisation, the intro banner callback, plugin-hook triggers
(`mqc_trigger`), and the Source Loader calls. -/
inductive Event where
  | initLog (log_to_file : Bool)
  | printIntro
  | hook (name : String)
  | findUserFiles
  | loadConfigFile (path : String) (is_explicit_config : Bool)
  | loadClConfig (strs : List String)
  | loadReplaceNames (path : String)
  | loadSampleNames (path : String)
  | loadShowHide (path : Option String)
deriving DecidableEq, Repr

/-- `True` exactly for the plugin-hook trigger events. -/
def Event.isHook : Event → Bool
  | .hook _ => true
  | _ => false

/-- The `RunError` exception raised by `update_config`. -/
structure RunError where
  message : String
deriving DecidableEq, Repr

/-- The process-wide configuration store (`multiqc.config` module globals),
restricted to the fields `update_config` reads or writes.  The field default
values given here are only used to build concrete instances in examples;
the built-in defaults of a pass are the `Collaborators.defaults` parameter,
since `config.load_defaults` lives outside the embedded source. -/
structure Config where
  quiet : Bool := false
  no_ansi : Bool := false
  verbose : Bool := false
  loaded_user_files : List String := []
  explicit_user_config_files : List String := []
  template : String := "default"
  title : Option String := none
  report_comment : Option String := none
  prepend_dirs : Bool := false
  prepend_dirs_depth : Int := 0
  output_dir : String := ""
  use_filename_as_sample_name : UseFilenameAsSampleName := .asBool false
  make_data_dir : Bool := true
  force : Bool := false
  ignore_symlinks : Bool := false
  zip_data_dir : Bool := false
  data_format : String := "tsv"
  export_plots : Bool := false
  make_report : Bool := true
  plots_force_flat : Bool := false
  plots_force_interactive : Bool := false
  strict : Bool := false
  lint : Bool := false
  development : Bool := false
  make_pdf : Bool := false
  simple_output : Bool := false
  filename : Option String := none
  megaqc_upload : Bool := false
  fn_clean_sample_names : Bool := true
  sample_names_replace : List (String × String) := []
  sample_names_rename : List (List String) := []
  show_hide_rules : List (String × String) := []
  run_modules : List String := []
  exclude_modules : List String := []
  require_logs : Bool := false
  profile_runtime : Bool := false
  profile_memory : Bool := false
  no_version_check : Bool := false
  custom_css_files : List String := []
  module_order : List ModuleEntry := []
  fn_clean_exts : List String := []
  fn_clean_trim : List String := []
  preserve_module_raw_data : Bool := false
  data_dump_file_write_raw : Bool := false
  ai_summary : Bool := false
  ai_summary_full : Bool := false
  ai_provider : String := ""
  ai_model : String := ""
  ai_custom_endpoint : String := ""
  ai_custom_context_window : Int := 0
  ai_prompt_short : Option String := none
  ai_prompt_full : Option String := none
  no_ai : Bool := false
  export_plot_formats : List String := []
  analysis_dir : List String := []
  file_list : Bool := false
  fn_ignore_files : List String := []
  fn_ignore_dirs : List String := []
  fn_ignore_paths : List String := []
  sample_names_ignore : List String := []
  sample_names_only_include : List String := []
  top_modules : List ModuleEntry := []
  kwargs : List (String × String) := []
deriving DecidableEq, Repr

/-- The override record (`ClConfig` pydantic model): every scalar field is
optional (`None` = unset), list fields default to empty. -/
structure ClConfig where
  file_list : Option Bool := none
  prepend_dirs : Option Bool := none
  dirs_depth : Option Int := none
  fn_clean_sample_names : Option Bool := none
  title : Option String := none
  report_comment : Option String := none
  template : Option String := none
  require_logs : Option Bool := none
  output_dir : Option String := none
  use_filename_as_sample_name : Option UseFilenameAsSampleName := none
  replace_names : Option String := none
  sample_names : Option String := none
  sample_filters : Option String := none
  filename : Option String := none
  make_data_dir : Option Bool := none
  data_format : Option String := none
  zip_data_dir : Option Bool := none
  force : Option Bool := none
  ignore_symlinks : Option Bool := none
  make_report : Option Bool := none
  export_plots : Option Bool := none
  plots_force_flat : Option Bool := none
  plots_force_interactive : Option Bool := none
  strict : Option Bool := none
  development : Option Bool := none
  make_pdf : Option Bool := none
  no_megaqc_upload : Option Bool := none
  quiet : Option Bool := none
  verbose : Option Bool := none
  no_ansi : Option Bool := none
  profile_runtime : Option Bool := none
  profile_memory : Option Bool := none
  no_version_check : Option Bool := none
  ignore : List String := []
  ignore_samples : List String := []
  only_samples : List String := []
  run_modules : List String := []
  exclude_modules : List String := []
  config_files : List String := []
  cl_config : List String := []
  custom_css_files : List String := []
  module_order : List ModuleEntry := []
  extra_fn_clean_exts : List String := []
  extra_fn_clean_trim : List String := []
  preserve_module_raw_data : Option Bool := none
  data_dump_file_write_raw : Option Bool := none
  ai_summary : Option Bool := none
  ai_summary_full : Option Bool := none
  ai_provider : Option String := none
  ai_model : Option String := none
  ai_custom_endpoint : Option String := none
  ai_custom_context_window : Option Int := none
  ai_prompt_short : Option String := none
  ai_prompt_full : Option String := none
  no_ai : Option Bool := none
  unknown_options : Option (List (String × String)) := none
  check_config : Option Bool := none
deriving DecidableEq, Repr

/-- External collaborators consumed by `update_config`, none of whose code is
part of the embedded source file: the built-in defaults (`config.load_defaults`),
file discovery and parsing (`find_user_files`, `load_config_file`,
`load_cl_config` mutate the store at large), the dedicated loaders
(`load_replace_names`, `load_sample_names`, `load_show_hide`, which per the
spec each mutate only their dedicated store sub-section, so they are modelled
as producing just that sub-section), and `os.path.realpath`. -/
structure Collaborators where
  defaults : Config
  find_user_files : Config → Config
  load_config_file : String → Bool → Config → Config
  load_cl_config : List String → Config → Config
  load_replace_names : String → List (String × String)
  load_sample_names : String → List (List String)
  load_show_hide : Option String → List (String × String)
  realpath : String → String

/-- The `multiqc.report` module globals written by `update_config`. -/
structure ReportState where
  top_modules : List ModuleEntry := []
  module_order : List ModuleEntry := []
deriving DecidableEq, Repr

/-- The process-wide mutable state a pass starts from: the config store plus
the report globals. -/
structure State where
  config : Config := {}
  report : ReportState := {}
deriving DecidableEq, Repr

/-- The outcome of one resolution pass: the store and report state when the
pass finished (or at the point the `RunError` was raised — partial
application is not rolled back), the emitted event trace, and the error,
if any. -/
structure RunResult where
  config : Config
  report : ReportState
  events : List Event
  error : Option RunError
deriving Repr

/-- The config/report part of a pass outcome, used as the starting state of a
subsequent pass. -/
def RunResult.toState (r : RunResult) : State :=
  { config := r.config, report := r.report }

/-- Python truthiness of an `Optional[str]`: `None` and `""` are falsy. -/
def strTruthy (o : Option String) : Bool :=
  o.any (fun s => s != "")

/-- Lines 97-98. -/
def avQuiet (cfg : ClConfig) (c : Config) : Config :=
  if cfg.quiet.isSome then { c with quiet := cfg.quiet.getD c.quiet } else c

/-- Lines 99-100. -/
def avNoAnsi (cfg : ClConfig) (c : Config) : Config :=
  if cfg.no_ansi.isSome then { c with no_ansi := cfg.no_ansi.getD c.no_ansi } else c

/-- Lines 101-102.  (`config.verbose = cfg.verbose > 0`: on a `bool`, `> 0`
is the value itself.) -/
def avVerbose (cfg : ClConfig) (c : Config) : Config :=
  if cfg.verbose.isSome then { c with verbose := cfg.verbose.getD c.verbose } else c

/-- Lines 97-102: apply the output-verbosity fields before re-initialising
the logger. -/
def applyVerbosity (cfg : ClConfig) (c : Config) : Config :=
  let c : Config := avQuiet cfg c
  let c : Config := avNoAnsi cfg c
  let c : Config := avVerbose cfg c
  c

/-- Lines 113-129: reset `loaded_user_files`, re-discover implicit config
files, reload the previously recorded explicit user config files
(`load_config_file` with its `is_explicit_config=True` default), load the
session config files passed in the record (`is_explicit_config=False`), and
apply inline command-line YAML.  Returns the mutated store and the loader
events in call order. -/
def loadPhase (co : Collaborators) (cfg : ClConfig) (c : Config) : Config × List Event :=
  let c : Config := { c with loaded_user_files := [] }
  let c : Config := co.find_user_files c
  let explicitFiles := c.explicit_user_config_files
  let c : Config := explicitFiles.foldl (fun acc p => co.load_config_file p true acc) c
  let c : Config := cfg.config_files.foldl (fun acc p => co.load_config_file p false acc) c
  let c : Config := if cfg.cl_config.length > 0 then co.load_cl_config cfg.cl_config c else c
  (c, [Event.findUserFiles]
      ++ explicitFiles.map (fun p => Event.loadConfigFile p true)
      ++ cfg.config_files.map (fun p => Event.loadConfigFile p false)
      ++ (if cfg.cl_config.length > 0 then [Event.loadClConfig cfg.cl_config] else []))

/- Per-statement steps of the key-variable block (source lines 132-234).
Each mirrors one guarded assignment of `update_config`. -/

/-- line 132. -/
def kfTemplate (_co : Collaborators) (cfg : ClConfig) (c : Config) : Config :=
  if cfg.template.isSome then { c with template := cfg.template.getD c.template } else c

/-- lines 134-136 (plus a log line). -/
def kfTitle (_co : Collaborators) (cfg : ClConfig) (c : Config) : Config :=
  if cfg.title.isSome then { c with title := cfg.title } else c

/-- line 137. -/
def kfReportComment (_co : Collaborators) (cfg : ClConfig) (c : Config) : Config :=
  if cfg.report_comment.isSome then { c with report_comment := cfg.report_comment } else c

/-- lines 139-141. -/
def kfPrependDirs (_co : Collaborators) (cfg : ClConfig) (c : Config) : Config :=
  if cfg.prepend_dirs.isSome then { c with prepend_dirs := cfg.prepend_dirs.getD c.prepend_dirs } else c

/-- lines 142-144. -/
def kfDirsDepth (_co : Collaborators) (cfg : ClConfig) (c : Config) : Config :=
  if cfg.dirs_depth.isSome then { c with prepend_dirs := true, prepend_dirs_depth := cfg.dirs_depth.getD c.prepend_dirs_depth } else c

/-- lines 145-146. -/
def kfOutputDir (co : Collaborators) (cfg : ClConfig) (c : Config) : Config :=
  if cfg.output_dir.isSome then { c with output_dir := co.realpath (cfg.output_dir.getD c.output_dir) } else c

/-- lines 147-150. -/
def kfUseFilenameAsSampleName (_co : Collaborators) (cfg : ClConfig) (c : Config) : Config :=
  if cfg.use_filename_as_sample_name.isSome then { c with use_filename_as_sample_name := cfg.use_filename_as_sample_name.getD c.use_filename_as_sample_name } else c

/-- lines 151-152. -/
def kfMakeDataDir (_co : Collaborators) (cfg : ClConfig) (c : Config) : Config :=
  if cfg.make_data_dir.isSome then { c with make_data_dir := cfg.make_data_dir.getD c.make_data_dir } else c

/-- lines 153-154. -/
def kfForce (_co : Collaborators) (cfg : ClConfig) (c : Config) : Config :=
  if cfg.force.isSome then { c with force := cfg.force.getD c.force } else c

/-- lines 155-156. -/
def kfIgnoreSymlinks (_co : Collaborators) (cfg : ClConfig) (c : Config) : Config :=
  if cfg.ignore_symlinks.isSome then { c with ignore_symlinks := cfg.ignore_symlinks.getD c.ignore_symlinks } else c

/-- lines 157-158. -/
def kfZipDataDir (_co : Collaborators) (cfg : ClConfig) (c : Config) : Config :=
  if cfg.zip_data_dir.isSome then { c with zip_data_dir := cfg.zip_data_dir.getD c.zip_data_dir } else c

/-- lines 159-160. -/
def kfDataFormat (_co : Collaborators) (cfg : ClConfig) (c : Config) : Config :=
  if cfg.data_format.isSome then { c with data_format := cfg.data_format.getD c.data_format } else c

/-- lines 161-162. -/
def kfExportPlots (_co : Collaborators) (cfg : ClConfig) (c : Config) : Config :=
  if cfg.export_plots.isSome then { c with export_plots := cfg.export_plots.getD c.export_plots } else c

/-- lines 163-164. -/
def kfMakeReport (_co : Collaborators) (cfg : ClConfig) (c : Config) : Config :=
  if cfg.make_report.isSome then { c with make_report := cfg.make_report.getD c.make_report } else c

/-- lines 165-166. -/
def kfPlotsForceFlat (_co : Collaborators) (cfg : ClConfig) (c : Config) : Config :=
  if cfg.plots_force_flat.isSome then { c with plots_force_flat := cfg.plots_force_flat.getD c.plots_force_flat } else c

/-- lines 167-168. -/
def kfPlotsForceInteractive (_co : Collaborators) (cfg : ClConfig) (c : Config) : Config :=
  if cfg.plots_force_interactive.isSome then { c with plots_force_interactive := cfg.plots_force_interactive.getD c.plots_force_interactive } else c

/-- lines 169-171 (strict also mirrored into deprecated lint). -/
def kfStrict (_co : Collaborators) (cfg : ClConfig) (c : Config) : Config :=
  if cfg.strict.isSome then { c with strict := cfg.strict.getD c.strict, lint := cfg.strict.getD c.lint } else c

/-- lines 172-173. -/
def kfDevelopment (_co : Collaborators) (cfg : ClConfig) (c : Config) : Config :=
  if cfg.development.isSome then { c with development := cfg.development.getD c.development } else c

/-- lines 174-176 (truthiness guard; forces the simple template). -/
def kfMakePdf (_co : Collaborators) (cfg : ClConfig) (c : Config) : Config :=
  if cfg.make_pdf.getD false then { c with make_pdf := cfg.make_pdf.getD c.make_pdf, template := "simple" } else c

/-- lines 177-179 (reads the store, not the record). -/
def kfTemplateSimple (_co : Collaborators) (_cfg : ClConfig) (c : Config) : Config :=
  if (c.template == "simple") then { c with plots_force_flat := true, simple_output := true } else c

/-- lines 180-181 (truthiness guard). -/
def kfFilename (_co : Collaborators) (cfg : ClConfig) (c : Config) : Config :=
  if strTruthy cfg.filename then { c with filename := cfg.filename } else c

/-- lines 182-183 (negated). -/
def kfNoMegaqcUpload (_co : Collaborators) (cfg : ClConfig) (c : Config) : Config :=
  if cfg.no_megaqc_upload.isSome then { c with megaqc_upload := !(cfg.no_megaqc_upload.getD false) } else c

/-- lines 184-186. -/
def kfFnCleanSampleNames (_co : Collaborators) (cfg : ClConfig) (c : Config) : Config :=
  if cfg.fn_clean_sample_names.isSome then { c with fn_clean_sample_names := cfg.fn_clean_sample_names.getD c.fn_clean_sample_names } else c

/-- lines 187-188 (truthiness guard; dedicated loader). -/
def kfReplaceNames (co : Collaborators) (cfg : ClConfig) (c : Config) : Config :=
  if strTruthy cfg.replace_names then { c with sample_names_replace := co.load_replace_names (cfg.replace_names.getD "") } else c

/-- lines 189-190 (truthiness guard; dedicated loader). -/
def kfSampleNames (co : Collaborators) (cfg : ClConfig) (c : Config) : Config :=
  if strTruthy cfg.sample_names then { c with sample_names_rename := co.load_sample_names (cfg.sample_names.getD "") } else c

/-- line 191 (called unconditionally). -/
def kfShowHide (co : Collaborators) (cfg : ClConfig) (c : Config) : Config :=
  { c with show_hide_rules := co.load_show_hide (if strTruthy cfg.sample_filters then cfg.sample_filters else none) }

/-- lines 192-193. -/
def kfRunModules (_co : Collaborators) (cfg : ClConfig) (c : Config) : Config :=
  if cfg.run_modules.length > 0 then { c with run_modules := cfg.run_modules } else c

/-- lines 194-195. -/
def kfExcludeModules (_co : Collaborators) (cfg : ClConfig) (c : Config) : Config :=
  if cfg.exclude_modules.length > 0 then { c with exclude_modules := cfg.exclude_modules } else c

/-- lines 196-197. -/
def kfRequireLogs (_co : Collaborators) (cfg : ClConfig) (c : Config) : Config :=
  if cfg.require_logs.isSome then { c with require_logs := cfg.require_logs.getD c.require_logs } else c

/-- lines 198-199. -/
def kfProfileRuntime (_co : Collaborators) (cfg : ClConfig) (c : Config) : Config :=
  if cfg.profile_runtime.isSome then { c with profile_runtime := cfg.profile_runtime.getD c.profile_runtime } else c

/-- lines 200-201 (chained assignment sets both). -/
def kfProfileMemory (_co : Collaborators) (cfg : ClConfig) (c : Config) : Config :=
  if cfg.profile_memory.isSome then { c with profile_runtime := cfg.profile_memory.getD c.profile_runtime, profile_memory := cfg.profile_memory.getD c.profile_memory } else c

/-- lines 202-203. -/
def kfNoVersionCheck (_co : Collaborators) (cfg : ClConfig) (c : Config) : Config :=
  if cfg.no_version_check.isSome then { c with no_version_check := cfg.no_version_check.getD c.no_version_check } else c

/-- lines 204-205 (extend). -/
def kfCustomCssFiles (_co : Collaborators) (cfg : ClConfig) (c : Config) : Config :=
  if cfg.custom_css_files.length > 0 then { c with custom_css_files := c.custom_css_files ++ cfg.custom_css_files } else c

/-- lines 206-207 (replace). -/
def kfModuleOrder (_co : Collaborators) (cfg : ClConfig) (c : Config) : Config :=
  if cfg.module_order.length > 0 then { c with module_order := cfg.module_order } else c

/-- lines 208-209 (prepend). -/
def kfExtraFnCleanExts (_co : Collaborators) (cfg : ClConfig) (c : Config) : Config :=
  if cfg.extra_fn_clean_exts.length > 0 then { c with fn_clean_exts := cfg.extra_fn_clean_exts ++ c.fn_clean_exts } else c

/-- lines 210-211 (prepend). -/
def kfExtraFnCleanTrim (_co : Collaborators) (cfg : ClConfig) (c : Config) : Config :=
  if cfg.extra_fn_clean_trim.length > 0 then { c with fn_clean_trim := cfg.extra_fn_clean_trim ++ c.fn_clean_trim } else c

/-- lines 212-213. -/
def kfPreserveModuleRawData (_co : Collaborators) (cfg : ClConfig) (c : Config) : Config :=
  if cfg.preserve_module_raw_data.isSome then { c with preserve_module_raw_data := cfg.preserve_module_raw_data.getD c.preserve_module_raw_data } else c

/-- lines 214-215. -/
def kfDataDumpFileWriteRaw (_co : Collaborators) (cfg : ClConfig) (c : Config) : Config :=
  if cfg.data_dump_file_write_raw.isSome then { c with data_dump_file_write_raw := cfg.data_dump_file_write_raw.getD c.data_dump_file_write_raw } else c

/-- lines 216-217. -/
def kfAiSummary (_co : Collaborators) (cfg : ClConfig) (c : Config) : Config :=
  if cfg.ai_summary.isSome then { c with ai_summary := cfg.ai_summary.getD c.ai_summary } else c

/-- lines 218-220 (sets ai_summary to the same value, not to True). -/
def kfAiSummaryFull (_co : Collaborators) (cfg : ClConfig) (c : Config) : Config :=
  if cfg.ai_summary_full.isSome then { c with ai_summary := cfg.ai_summary_full.getD c.ai_summary, ai_summary_full := cfg.ai_summary_full.getD c.ai_summary_full } else c

/-- lines 221-222. -/
def kfAiProvider (_co : Collaborators) (cfg : ClConfig) (c : Config) : Config :=
  if cfg.ai_provider.isSome then { c with ai_provider := cfg.ai_provider.getD c.ai_provider } else c

/-- lines 223-224. -/
def kfAiModel (_co : Collaborators) (cfg : ClConfig) (c : Config) : Config :=
  if cfg.ai_model.isSome then { c with ai_model := cfg.ai_model.getD c.ai_model } else c

/-- lines 225-226. -/
def kfAiCustomEndpoint (_co : Collaborators) (cfg : ClConfig) (c : Config) : Config :=
  if cfg.ai_custom_endpoint.isSome then { c with ai_custom_endpoint := cfg.ai_custom_endpoint.getD c.ai_custom_endpoint } else c

/-- lines 227-228. -/
def kfAiCustomContextWindow (_co : Collaborators) (cfg : ClConfig) (c : Config) : Config :=
  if cfg.ai_custom_context_window.isSome then { c with ai_custom_context_window := cfg.ai_custom_context_window.getD c.ai_custom_context_window } else c

/-- lines 229-230. -/
def kfAiPromptShort (_co : Collaborators) (cfg : ClConfig) (c : Config) : Config :=
  if cfg.ai_prompt_short.isSome then { c with ai_prompt_short := cfg.ai_prompt_short } else c

/-- lines 231-232. -/
def kfAiPromptFull (_co : Collaborators) (cfg : ClConfig) (c : Config) : Config :=
  if cfg.ai_prompt_full.isSome then { c with ai_prompt_full := cfg.ai_prompt_full } else c

/-- lines 233-234. -/
def kfNoAi (_co : Collaborators) (cfg : ClConfig) (c : Config) : Config :=
  if cfg.no_ai.isSome then { c with no_ai := cfg.no_ai.getD c.no_ai } else c

set_option maxHeartbeats 1000000 in
/-- Lines 132-234: apply each remaining field of the override record, in
source order ("overwrite config vars from command line"). -/
def applyKeyFields (co : Collaborators) (cfg : ClConfig) (c : Config) : Config :=
  let c : Config := kfTemplate co cfg c
  let c : Config := kfTitle co cfg c
  let c : Config := kfReportComment co cfg c
  let c : Config := kfPrependDirs co cfg c
  let c : Config := kfDirsDepth co cfg c
  let c : Config := kfOutputDir co cfg c
  let c : Config := kfUseFilenameAsSampleName co cfg c
  let c : Config := kfMakeDataDir co cfg c
  let c : Config := kfForce co cfg c
  let c : Config := kfIgnoreSymlinks co cfg c
  let c : Config := kfZipDataDir co cfg c
  let c : Config := kfDataFormat co cfg c
  let c : Config := kfExportPlots co cfg c
  let c : Config := kfMakeReport co cfg c
  let c : Config := kfPlotsForceFlat co cfg c
  let c : Config := kfPlotsForceInteractive co cfg c
  let c : Config := kfStrict co cfg c
  let c : Config := kfDevelopment co cfg c
  let c : Config := kfMakePdf co cfg c
  let c : Config := kfTemplateSimple co cfg c
  let c : Config := kfFilename co cfg c
  let c : Config := kfNoMegaqcUpload co cfg c
  let c : Config := kfFnCleanSampleNames co cfg c
  let c : Config := kfReplaceNames co cfg c
  let c : Config := kfSampleNames co cfg c
  let c : Config := kfShowHide co cfg c
  let c : Config := kfRunModules co cfg c
  let c : Config := kfExcludeModules co cfg c
  let c : Config := kfRequireLogs co cfg c
  let c : Config := kfProfileRuntime co cfg c
  let c : Config := kfProfileMemory co cfg c
  let c : Config := kfNoVersionCheck co cfg c
  let c : Config := kfCustomCssFiles co cfg c
  let c : Config := kfModuleOrder co cfg c
  let c : Config := kfExtraFnCleanExts co cfg c
  let c : Config := kfExtraFnCleanTrim co cfg c
  let c : Config := kfPreserveModuleRawData co cfg c
  let c : Config := kfDataDumpFileWriteRaw co cfg c
  let c : Config := kfAiSummary co cfg c
  let c : Config := kfAiSummaryFull co cfg c
  let c : Config := kfAiProvider co cfg c
  let c : Config := kfAiModel co cfg c
  let c : Config := kfAiCustomEndpoint co cfg c
  let c : Config := kfAiCustomContextWindow co cfg c
  let c : Config := kfAiPromptShort co cfg c
  let c : Config := kfAiPromptFull co cfg c
  let c : Config := kfNoAi co cfg c
  c

/-- The Source Loader calls made inside the key-field phase (lines 187-191):
`load_replace_names` and `load_sample_names` when their path field is truthy,
and `load_show_hide` unconditionally. -/
def keyFieldEvents (cfg : ClConfig) : List Event :=
  (if strTruthy cfg.replace_names then [Event.loadReplaceNames (cfg.replace_names.getD "")] else [])
  ++ (if strTruthy cfg.sample_names then [Event.loadSampleNames (cfg.sample_names.getD "")] else [])
  ++ [Event.loadShowHide (if strTruthy cfg.sample_filters then cfg.sample_filters else none)]

/-- Lines 236-237: development mode appends "png" to the export plot formats
when absent. -/
def pngStep (c : Config) : Config :=
  if c.development ∧ "png" ∉ c.export_plot_formats then
    { c with export_plot_formats := c.export_plot_formats ++ ["png"] }
  else c

/-- Lines 247-257: extend the ignore-pattern and sample-filter lists. -/
def ignoresPhase (cfg : ClConfig) (c : Config) : Config :=
  let c : Config := if cfg.ignore.length > 0 then
      { c with fn_ignore_files := c.fn_ignore_files ++ cfg.ignore,
               fn_ignore_dirs := c.fn_ignore_dirs ++ cfg.ignore,
               fn_ignore_paths := c.fn_ignore_paths ++ cfg.ignore } else c
  let c : Config := if cfg.ignore_samples.length > 0 then
      { c with sample_names_ignore := c.sample_names_ignore ++ cfg.ignore_samples } else c
  let c : Config := if cfg.only_samples.length > 0 then
      { c with sample_names_only_include := c.sample_names_only_include ++ cfg.only_samples } else c
  c

/-- Lines 259-260: a bare module name is normalised to a one-key dict with
empty options (`m if isinstance(m, dict) else \x7bm: \x7b\x7d\x7d`). -/
def normalizeModuleEntry : ModuleEntry → ModuleEntry
  | .name s => .dict [(s, [])]
  | .dict d => .dict d

/-- Lines 259-260: rebuild the report module-ordering globals from the store. -/
def reportPhase (c : Config) : ReportState :=
  { top_modules := c.top_modules.map normalizeModuleEntry,
    module_order := c.module_order.map normalizeModuleEntry }

/-- Lines 262-263: plug unknown command line options into `config.kwargs`
(a Python dict is truthy exactly when non-empty). -/
def kwargsPhase (cfg : ClConfig) (c : Config) : Config :=
  if (cfg.unknown_options.getD []).length > 0 then
    { c with kwargs := cfg.unknown_options.getD [] }
  else c

/-- The message of the `RunError` raised on line 244. -/
def fileListErrorMsg : String :=
  "If --file-list is given, analysis_dir should have only one plain text file."

/-- Lines 240-266 from the file-list validation onwards: raise `RunError`
when the file-list flag is set together with more than one analysis
directory; otherwise copy the flag, extend the ignore-pattern and
sample-filter lists, rebuild the report module-ordering globals, plug in the
passthrough kwargs, and emit the final lifecycle hooks.  `prevReport` is the
report state from before the pass; it remains visible in the outcome only
when the error aborts the pass before the report globals are rebuilt
(partial application is not rolled back). -/
def finishPass (prevReport : ReportState) (cfg : ClConfig) (evPre : List Event)
    (c : Config) : RunResult :=
  if cfg.file_list.isSome ∧ 1 < c.analysis_dir.length then
    { config := c, report := prevReport, events := evPre,
      error := some { message := fileListErrorMsg } }
  else
    let c : Config := if cfg.file_list.isSome then { c with file_list := cfg.file_list.getD c.file_list } else c
    let c : Config := ignoresPhase cfg c
    let rep := reportPhase c
    let c : Config := kwargsPhase cfg c
    { config := c, report := rep,
      events := evPre ++ [Event.hook "config_loaded", Event.hook "execution_start"],
      error := none }

/-- The store state after reset, verbosity, and all config-file loading —
the "pre-existing Store value" that resolution merges the record into. -/
def preFieldState (co : Collaborators) (cfg : ClConfig) : Config :=
  (loadPhase co cfg (applyVerbosity cfg co.defaults)).1

/-- The store state just before the development/png derivation (line 236). -/
def preDerivState (co : Collaborators) (cfg : ClConfig) : Config :=
  applyKeyFields co cfg (preFieldState co cfg)

/-- All Source Loader events of a pass, in order: they sit strictly between
the "before_config" hook and the final "config_loaded" / "execution_start"
hooks. -/
def middleEvents (co : Collaborators) (cfg : ClConfig) : List Event :=
  (loadPhase co cfg (applyVerbosity cfg co.defaults)).2 ++ keyFieldEvents cfg

/-- The events emitted before the file-list check: logger re-initialisation,
the optional intro banner, the "before_config" hook (line 111), then the
Source Loader calls. -/
def preEvents (log_to_file has_print_intro : Bool) (co : Collaborators) (cfg : ClConfig) : List Event :=
  [Event.initLog log_to_file]
    ++ (if has_print_intro then [Event.printIntro] else [])
    ++ [Event.hook "before_config"]
    ++ middleEvents co cfg

/-- The store at the point a pass reaches line 242: defaults, verbosity,
loaded files, key-field application, the development/png derivation
(lines 236-237), and the positional analysis-directory normalisation
(lines 240-241, `config.analysis_dir = [p for p in analysis_dir]`). -/
def resolvedStore (co : Collaborators) (cfg : ClConfig) (analysis_dir : List String) : Config :=
  let c : Config := pngStep (preDerivState co cfg)
  if analysis_dir.length > 0 then { c with analysis_dir := analysis_dir } else c

/-- One resolution pass (`update_config`).  `analysis_dir` holds the
positional path arguments; `cfg?` the optional override record
(`cfg = cfg or ClConfig()`); `log_to_file` and `has_print_intro` mirror the
remaining parameters.  The previous process state `prev` is discarded by the
initial `config.load_defaults()` reset; only the previous report globals can
survive, and only into an error outcome. -/
def update_config (prev : State) (co : Collaborators) (cfg? : Option ClConfig)
    (analysis_dir : List String) (log_to_file : Bool) (has_print_intro : Bool) : RunResult :=
  let cfg := cfg?.getD {}
  finishPass prev.report cfg (preEvents log_to_file has_print_intro co cfg)
    (resolvedStore co cfg analysis_dir)

/-- A trivial collaborator bundle for concrete instances: loaders that leave
the store unchanged and produce empty sub-sections. -/
def testCollab : Collaborators :=
  { defaults := {}
    find_user_files := id
    load_config_file := fun _ _ c => c
    load_cl_config := fun _ c => c
    load_replace_names := fun _ => []
    load_sample_names := fun _ => []
    load_show_hide := fun _ => []
    realpath := id }

/-- A collaborator bundle whose built-in defaults carry a pre-existing
`make_pdf`/`filename` store value, to observe whether explicitly-set falsy
record values overwrite them. -/
def coStore : Collaborators :=
  { testCollab with defaults := { make_pdf := true, filename := some "report" } }

/-- A collaborator bundle whose built-in defaults carry a pre-existing
ignore pattern in each ignore list. -/
def coBak : Collaborators :=
  { testCollab with
    defaults := { fn_ignore_files := ["*.bak"], fn_ignore_dirs := ["*.bak"],
                  fn_ignore_paths := ["*.bak"] } }

/-- A collaborator bundle whose built-in defaults carry a pre-existing
show-hide sub-section and whose `load_show_hide` rewrites it, to observe the
effect of the unconditional call on line 191. -/
def coShowHide : Collaborators :=
  { testCollab with
    defaults := { show_hide_rules := [("hide", "old")] }
    load_show_hide := fun _ => [] }

@[simp] theorem avQuiet_fields (cfg : ClConfig) (c : Config) :
    (avQuiet cfg c).quiet = (if cfg.quiet.isSome then cfg.quiet.getD c.quiet else c.quiet)
    ∧ (avQuiet cfg c).no_ansi = c.no_ansi
    ∧ (avQuiet cfg c).verbose = c.verbose
    ∧ (avQuiet cfg c).loaded_user_files = c.loaded_user_files
    ∧ (avQuiet cfg c).explicit_user_config_files = c.explicit_user_config_files
    ∧ (avQuiet cfg c).template = c.template
    ∧ (avQuiet cfg c).title = c.title
    ∧ (avQuiet cfg c).report_comment = c.report_comment
    ∧ (avQuiet cfg c).prepend_dirs = c.prepend_dirs
    ∧ (avQuiet cfg c).prepend_dirs_depth = c.prepend_dirs_depth
    ∧ (avQuiet cfg c).output_dir = c.output_dir
    ∧ (avQuiet cfg c).use_filename_as_sample_name = c.use_filename_as_sample_name
    ∧ (avQuiet cfg c).make_data_dir = c.make_data_dir
    ∧ (avQuiet cfg c).force = c.force
    ∧ (avQuiet cfg c).ignore_symlinks = c.ignore_symlinks
    ∧ (avQuiet cfg c).zip_data_dir = c.zip_data_dir
    ∧ (avQuiet cfg c).data_format = c.data_format
    ∧ (avQuiet cfg c).export_plots = c.export_plots
    ∧ (avQuiet cfg c).make_report = c.make_report
    ∧ (avQuiet cfg c).plots_force_flat = c.plots_force_flat
    ∧ (avQuiet cfg c).plots_force_interactive = c.plots_force_interactive
    ∧ (avQuiet cfg c).strict = c.strict
    ∧ (avQuiet cfg c).lint = c.lint
    ∧ (avQuiet cfg c).development = c.development
    ∧ (avQuiet cfg c).make_pdf = c.make_pdf
    ∧ (avQuiet cfg c).simple_output = c.simple_output
    ∧ (avQuiet cfg c).filename = c.filename
    ∧ (avQuiet cfg c).megaqc_upload = c.megaqc_upload
    ∧ (avQuiet cfg c).fn_clean_sample_names = c.fn_clean_sample_names
    ∧ (avQuiet cfg c).sample_names_replace = c.sample_names_replace
    ∧ (avQuiet cfg c).sample_names_rename = c.sample_names_rename
    ∧ (avQuiet cfg c).show_hide_rules = c.show_hide_rules
    ∧ (avQuiet cfg c).run_modules = c.run_modules
    ∧ (avQuiet cfg c).exclude_modules = c.exclude_modules
    ∧ (avQuiet cfg c).require_logs = c.require_logs
    ∧ (avQuiet cfg c).profile_runtime = c.profile_runtime
    ∧ (avQuiet cfg c).profile_memory = c.profile_memory
    ∧ (avQuiet cfg c).no_version_check = c.no_version_check
    ∧ (avQuiet cfg c).custom_css_files = c.custom_css_files
    ∧ (avQuiet cfg c).module_order = c.module_order
    ∧ (avQuiet cfg c).fn_clean_exts = c.fn_clean_exts
    ∧ (avQuiet cfg c).fn_clean_trim = c.fn_clean_trim
    ∧ (avQuiet cfg c).preserve_module_raw_data = c.preserve_module_raw_data
    ∧ (avQuiet cfg c).data_dump_file_write_raw = c.data_dump_file_write_raw
    ∧ (avQuiet cfg c).ai_summary = c.ai_summary
    ∧ (avQuiet cfg c).ai_summary_full = c.ai_summary_full
    ∧ (avQuiet cfg c).ai_provider = c.ai_provider
    ∧ (avQuiet cfg c).ai_model = c.ai_model
    ∧ (avQuiet cfg c).ai_custom_endpoint = c.ai_custom_endpoint
    ∧ (avQuiet cfg c).ai_custom_context_window = c.ai_custom_context_window
    ∧ (avQuiet cfg c).ai_prompt_short = c.ai_prompt_short
    ∧ (avQuiet cfg c).ai_prompt_full = c.ai_prompt_full
    ∧ (avQuiet cfg c).no_ai = c.no_ai
    ∧ (avQuiet cfg c).export_plot_formats = c.export_plot_formats
    ∧ (avQuiet cfg c).analysis_dir = c.analysis_dir
    ∧ (avQuiet cfg c).file_list = c.file_list
    ∧ (avQuiet cfg c).fn_ignore_files = c.fn_ignore_files
    ∧ (avQuiet cfg c).fn_ignore_dirs = c.fn_ignore_dirs
    ∧ (avQuiet cfg c).fn_ignore_paths = c.fn_ignore_paths
    ∧ (avQuiet cfg c).sample_names_ignore = c.sample_names_ignore
    ∧ (avQuiet cfg c).sample_names_only_include = c.sample_names_only_include
    ∧ (avQuiet cfg c).top_modules = c.top_modules
    ∧ (avQuiet cfg c).kwargs = c.kwargs := by
  by_cases h : cfg.quiet.isSome = true <;> simp [avQuiet, h]

@[simp] theorem avNoAnsi_fields (cfg : ClConfig) (c : Config) :
    (avNoAnsi cfg c).quiet = c.quiet
    ∧ (avNoAnsi cfg c).no_ansi = (if cfg.no_ansi.isSome then cfg.no_ansi.getD c.no_ansi else c.no_ansi)
    ∧ (avNoAnsi cfg c).verbose = c.verbose
    ∧ (avNoAnsi cfg c).loaded_user_files = c.loaded_user_files
    ∧ (avNoAnsi cfg c).explicit_user_config_files = c.explicit_user_config_files
    ∧ (avNoAnsi cfg c).template = c.template
    ∧ (avNoAnsi cfg c).title = c.title
    ∧ (avNoAnsi cfg c).report_comment = c.report_comment
    ∧ (avNoAnsi cfg c).prepend_dirs = c.prepend_dirs
    ∧ (avNoAnsi cfg c).prepend_dirs_depth = c.prepend_dirs_depth
    ∧ (avNoAnsi cfg c).output_dir = c.output_dir
    ∧ (avNoAnsi cfg c).use_filename_as_sample_name = c.use_filename_as_sample_name
    ∧ (avNoAnsi cfg c).make_data_dir = c.make_data_dir
    ∧ (avNoAnsi cfg c).force = c.force
    ∧ (avNoAnsi cfg c).ignore_symlinks = c.ignore_symlinks
    ∧ (avNoAnsi cfg c).zip_data_dir = c.zip_data_dir
    ∧ (avNoAnsi cfg c).data_format = c.data_format
    ∧ (avNoAnsi cfg c).export_plots = c.export_plots
    ∧ (avNoAnsi cfg c).make_report = c.make_report
    ∧ (avNoAnsi cfg c).plots_force_flat = c.plots_force_flat
    ∧ (avNoAnsi cfg c).plots_force_interactive = c.plots_force_interactive
    ∧ (avNoAnsi cfg c).strict = c.strict
    ∧ (avNoAnsi cfg c).lint = c.lint
    ∧ (avNoAnsi cfg c).development = c.development
    ∧ (avNoAnsi cfg c).make_pdf = c.make_pdf
    ∧ (avNoAnsi cfg c).simple_output = c.simple_output
    ∧ (avNoAnsi cfg c).filename = c.filename
    ∧ (avNoAnsi cfg c).megaqc_upload = c.megaqc_upload
    ∧ (avNoAnsi cfg c).fn_clean_sample_names = c.fn_clean_sample_names
    ∧ (avNoAnsi cfg c).sample_names_replace = c.sample_names_replace
    ∧ (avNoAnsi cfg c).sample_names_rename = c.sample_names_rename
    ∧ (avNoAnsi cfg c).show_hide_rules = c.show_hide_rules
    ∧ (avNoAnsi cfg c).run_modules = c.run_modules
    ∧ (avNoAnsi cfg c).exclude_modules = c.exclude_modules
    ∧ (avNoAnsi cfg c).require_logs = c.require_logs
    ∧ (avNoAnsi cfg c).profile_runtime = c.profile_runtime
    ∧ (avNoAnsi cfg c).profile_memory = c.profile_memory
    ∧ (avNoAnsi cfg c).no_version_check = c.no_version_check
    ∧ (avNoAnsi cfg c).custom_css_files = c.custom_css_files
    ∧ (avNoAnsi cfg c).module_order = c.module_order
    ∧ (avNoAnsi cfg c).fn_clean_exts = c.fn_clean_exts
    ∧ (avNoAnsi cfg c).fn_clean_trim = c.fn_clean_trim
    ∧ (avNoAnsi cfg c).preserve_module_raw_data = c.preserve_module_raw_data
    ∧ (avNoAnsi cfg c).data_dump_file_write_raw = c.data_dump_file_write_raw
    ∧ (avNoAnsi cfg c).ai_summary = c.ai_summary
    ∧ (avNoAnsi cfg c).ai_summary_full = c.ai_summary_full
    ∧ (avNoAnsi cfg c).ai_provider = c.ai_provider
    ∧ (avNoAnsi cfg c).ai_model = c.ai_model
    ∧ (avNoAnsi cfg c).ai_custom_endpoint = c.ai_custom_endpoint
    ∧ (avNoAnsi cfg c).ai_custom_context_window = c.ai_custom_context_window
    ∧ (avNoAnsi cfg c).ai_prompt_short = c.ai_prompt_short
    ∧ (avNoAnsi cfg c).ai_prompt_full = c.ai_prompt_full
    ∧ (avNoAnsi cfg c).no_ai = c.no_ai
    ∧ (avNoAnsi cfg c).export_plot_formats = c.export_plot_formats
    ∧ (avNoAnsi cfg c).analysis_dir = c.analysis_dir
    ∧ (avNoAnsi cfg c).file_list = c.file_list
    ∧ (avNoAnsi cfg c).fn_ignore_files = c.fn_ignore_files
    ∧ (avNoAnsi cfg c).fn_ignore_dirs = c.fn_ignore_dirs
    ∧ (avNoAnsi cfg c).fn_ignore_paths = c.fn_ignore_paths
    ∧ (avNoAnsi cfg c).sample_names_ignore = c.sample_names_ignore
    ∧ (avNoAnsi cfg c).sample_names_only_include = c.sample_names_only_include
    ∧ (avNoAnsi cfg c).top_modules = c.top_modules
    ∧ (avNoAnsi cfg c).kwargs = c.kwargs := by
  by_cases h : cfg.no_ansi.isSome = true <;> simp [avNoAnsi, h]

@[simp] theorem avVerbose_fields (cfg : ClConfig) (c : Config) :
    (avVerbose cfg c).quiet = c.quiet
    ∧ (avVerbose cfg c).no_ansi = c.no_ansi
    ∧ (avVerbose cfg c).verbose = (if cfg.verbose.isSome then cfg.verbose.getD c.verbose else c.verbose)
    ∧ (avVerbose cfg c).loaded_user_files = c.loaded_user_files
    ∧ (avVerbose cfg c).explicit_user_config_files = c.explicit_user_config_files
    ∧ (avVerbose cfg c).template = c.template
    ∧ (avVerbose cfg c).title = c.title
    ∧ (avVerbose cfg c).report_comment = c.report_comment
    ∧ (avVerbose cfg c).prepend_dirs = c.prepend_dirs
    ∧ (avVerbose cfg c).prepend_dirs_depth = c.prepend_dirs_depth
    ∧ (avVerbose cfg c).output_dir = c.output_dir
    ∧ (avVerbose cfg c).use_filename_as_sample_name = c.use_filename_as_sample_name
    ∧ (avVerbose cfg c).make_data_dir = c.make_data_dir
    ∧ (avVerbose cfg c).force = c.force
    ∧ (avVerbose cfg c).ignore_symlinks = c.ignore_symlinks
    ∧ (avVerbose cfg c).zip_data_dir = c.zip_data_dir
    ∧ (avVerbose cfg c).data_format = c.data_format
    ∧ (avVerbose cfg c).export_plots = c.export_plots
    ∧ (avVerbose cfg c).make_report = c.make_report
    ∧ (avVerbose cfg c).plots_force_flat = c.plots_force_flat
    ∧ (avVerbose cfg c).plots_force_interactive = c.plots_force_interactive
    ∧ (avVerbose cfg c).strict = c.strict
    ∧ (avVerbose cfg c).lint = c.lint
    ∧ (avVerbose cfg c).development = c.development
    ∧ (avVerbose cfg c).make_pdf = c.make_pdf
    ∧ (avVerbose cfg c).simple_output = c.simple_output
    ∧ (avVerbose cfg c).filename = c.filename
    ∧ (avVerbose cfg c).megaqc_upload = c.megaqc_upload
    ∧ (avVerbose cfg c).fn_clean_sample_names = c.fn_clean_sample_names
    ∧ (avVerbose cfg c).sample_names_replace = c.sample_names_replace
    ∧ (avVerbose cfg c).sample_names_rename = c.sample_names_rename
    ∧ (avVerbose cfg c).show_hide_rules = c.show_hide_rules
    ∧ (avVerbose cfg c).run_modules = c.run_modules
    ∧ (avVerbose cfg c).exclude_modules = c.exclude_modules
    ∧ (avVerbose cfg c).require_logs = c.require_logs
    ∧ (avVerbose cfg c).profile_runtime = c.profile_runtime
    ∧ (avVerbose cfg c).profile_memory = c.profile_memory
    ∧ (avVerbose cfg c).no_version_check = c.no_version_check
    ∧ (avVerbose cfg c).custom_css_files = c.custom_css_files
    ∧ (avVerbose cfg c).module_order = c.module_order
    ∧ (avVerbose cfg c).fn_clean_exts = c.fn_clean_exts
    ∧ (avVerbose cfg c).fn_clean_trim = c.fn_clean_trim
    ∧ (avVerbose cfg c).preserve_module_raw_data = c.preserve_module_raw_data
    ∧ (avVerbose cfg c).data_dump_file_write_raw = c.data_dump_file_write_raw
    ∧ (avVerbose cfg c).ai_summary = c.ai_summary
    ∧ (avVerbose cfg c).ai_summary_full = c.ai_summary_full
    ∧ (avVerbose cfg c).ai_provider = c.ai_provider
    ∧ (avVerbose cfg c).ai_model = c.ai_model
    ∧ (avVerbose cfg c).ai_custom_endpoint = c.ai_custom_endpoint
    ∧ (avVerbose cfg c).ai_custom_context_window = c.ai_custom_context_window
    ∧ (avVerbose cfg c).ai_prompt_short = c.ai_prompt_short
    ∧ (avVerbose cfg c).ai_prompt_full = c.ai_prompt_full
    ∧ (avVerbose cfg c).no_ai = c.no_ai
    ∧ (avVerbose cfg c).export_plot_formats = c.export_plot_formats
    ∧ (avVerbose cfg c).analysis_dir = c.analysis_dir
    ∧ (avVerbose cfg c).file_list = c.file_list
    ∧ (avVerbose cfg c).fn_ignore_files = c.fn_ignore_files
    ∧ (avVerbose cfg c).fn_ignore_dirs = c.fn_ignore_dirs
    ∧ (avVerbose cfg c).fn_ignore_paths = c.fn_ignore_paths
    ∧ (avVerbose cfg c).sample_names_ignore = c.sample_names_ignore
    ∧ (avVerbose cfg c).sample_names_only_include = c.sample_names_only_include
    ∧ (avVerbose cfg c).top_modules = c.top_modules
    ∧ (avVerbose cfg c).kwargs = c.kwargs := by
  by_cases h : cfg.verbose.isSome = true <;> simp [avVerbose, h]

/- Per-step characterisation lemmas: for every store field, each lemma
records either preservation or the written value of its step. -/

@[simp] theorem kfTemplate_fields (co : Collaborators) (cfg : ClConfig) (c : Config) :
    (kfTemplate co cfg c).quiet = c.quiet
    ∧ (kfTemplate co cfg c).no_ansi = c.no_ansi
    ∧ (kfTemplate co cfg c).verbose = c.verbose
    ∧ (kfTemplate co cfg c).loaded_user_files = c.loaded_user_files
    ∧ (kfTemplate co cfg c).explicit_user_config_files = c.explicit_user_config_files
    ∧ (kfTemplate co cfg c).template = (if cfg.template.isSome then cfg.template.getD c.template else c.template)
    ∧ (kfTemplate co cfg c).title = c.title
    ∧ (kfTemplate co cfg c).report_comment = c.report_comment
    ∧ (kfTemplate co cfg c).prepend_dirs = c.prepend_dirs
    ∧ (kfTemplate co cfg c).prepend_dirs_depth = c.prepend_dirs_depth
    ∧ (kfTemplate co cfg c).output_dir = c.output_dir
    ∧ (kfTemplate co cfg c).use_filename_as_sample_name = c.use_filename_as_sample_name
    ∧ (kfTemplate co cfg c).make_data_dir = c.make_data_dir
    ∧ (kfTemplate co cfg c).force = c.force
    ∧ (kfTemplate co cfg c).ignore_symlinks = c.ignore_symlinks
    ∧ (kfTemplate co cfg c).zip_data_dir = c.zip_data_dir
    ∧ (kfTemplate co cfg c).data_format = c.data_format
    ∧ (kfTemplate co cfg c).export_plots = c.export_plots
    ∧ (kfTemplate co cfg c).make_report = c.make_report
    ∧ (kfTemplate co cfg c).plots_force_flat = c.plots_force_flat
    ∧ (kfTemplate co cfg c).plots_force_interactive = c.plots_force_interactive
    ∧ (kfTemplate co cfg c).strict = c.strict
    ∧ (kfTemplate co cfg c).lint = c.lint
    ∧ (kfTemplate co cfg c).development = c.development
    ∧ (kfTemplate co cfg c).make_pdf = c.make_pdf
    ∧ (kfTemplate co cfg c).simple_output = c.simple_output
    ∧ (kfTemplate co cfg c).filename = c.filename
    ∧ (kfTemplate co cfg c).megaqc_upload = c.megaqc_upload
    ∧ (kfTemplate co cfg c).fn_clean_sample_names = c.fn_clean_sample_names
    ∧ (kfTemplate co cfg c).sample_names_replace = c.sample_names_replace
    ∧ (kfTemplate co cfg c).sample_names_rename = c.sample_names_rename
    ∧ (kfTemplate co cfg c).show_hide_rules = c.show_hide_rules
    ∧ (kfTemplate co cfg c).run_modules = c.run_modules
    ∧ (kfTemplate co cfg c).exclude_modules = c.exclude_modules
    ∧ (kfTemplate co cfg c).require_logs = c.require_logs
    ∧ (kfTemplate co cfg c).profile_runtime = c.profile_runtime
    ∧ (kfTemplate co cfg c).profile_memory = c.profile_memory
    ∧ (kfTemplate co cfg c).no_version_check = c.no_version_check
    ∧ (kfTemplate co cfg c).custom_css_files = c.custom_css_files
    ∧ (kfTemplate co cfg c).module_order = c.module_order
    ∧ (kfTemplate co cfg c).fn_clean_exts = c.fn_clean_exts
    ∧ (kfTemplate co cfg c).fn_clean_trim = c.fn_clean_trim
    ∧ (kfTemplate co cfg c).preserve_module_raw_data = c.preserve_module_raw_data
    ∧ (kfTemplate co cfg c).data_dump_file_write_raw = c.data_dump_file_write_raw
    ∧ (kfTemplate co cfg c).ai_summary = c.ai_summary
    ∧ (kfTemplate co cfg c).ai_summary_full = c.ai_summary_full
    ∧ (kfTemplate co cfg c).ai_provider = c.ai_provider
    ∧ (kfTemplate co cfg c).ai_model = c.ai_model
    ∧ (kfTemplate co cfg c).ai_custom_endpoint = c.ai_custom_endpoint
    ∧ (kfTemplate co cfg c).ai_custom_context_window = c.ai_custom_context_window
    ∧ (kfTemplate co cfg c).ai_prompt_short = c.ai_prompt_short
    ∧ (kfTemplate co cfg c).ai_prompt_full = c.ai_prompt_full
    ∧ (kfTemplate co cfg c).no_ai = c.no_ai
    ∧ (kfTemplate co cfg c).export_plot_formats = c.export_plot_formats
    ∧ (kfTemplate co cfg c).analysis_dir = c.analysis_dir
    ∧ (kfTemplate co cfg c).file_list = c.file_list
    ∧ (kfTemplate co cfg c).fn_ignore_files = c.fn_ignore_files
    ∧ (kfTemplate co cfg c).fn_ignore_dirs = c.fn_ignore_dirs
    ∧ (kfTemplate co cfg c).fn_ignore_paths = c.fn_ignore_paths
    ∧ (kfTemplate co cfg c).sample_names_ignore = c.sample_names_ignore
    ∧ (kfTemplate co cfg c).sample_names_only_include = c.sample_names_only_include
    ∧ (kfTemplate co cfg c).top_modules = c.top_modules
    ∧ (kfTemplate co cfg c).kwargs = c.kwargs := by
  by_cases h : cfg.template.isSome = true <;> simp [kfTemplate, h]

@[simp] theorem kfTitle_fields (co : Collaborators) (cfg : ClConfig) (c : Config) :
    (kfTitle co cfg c).quiet = c.quiet
    ∧ (kfTitle co cfg c).no_ansi = c.no_ansi
    ∧ (kfTitle co cfg c).verbose = c.verbose
    ∧ (kfTitle co cfg c).loaded_user_files = c.loaded_user_files
    ∧ (kfTitle co cfg c).explicit_user_config_files = c.explicit_user_config_files
    ∧ (kfTitle co cfg c).template = c.template
    ∧ (kfTitle co cfg c).title = (if cfg.title.isSome then cfg.title else c.title)
    ∧ (kfTitle co cfg c).report_comment = c.report_comment
    ∧ (kfTitle co cfg c).prepend_dirs = c.prepend_dirs
    ∧ (kfTitle co cfg c).prepend_dirs_depth = c.prepend_dirs_depth
    ∧ (kfTitle co cfg c).output_dir = c.output_dir
    ∧ (kfTitle co cfg c).use_filename_as_sample_name = c.use_filename_as_sample_name
    ∧ (kfTitle co cfg c).make_data_dir = c.make_data_dir
    ∧ (kfTitle co cfg c).force = c.force
    ∧ (kfTitle co cfg c).ignore_symlinks = c.ignore_symlinks
    ∧ (kfTitle co cfg c).zip_data_dir = c.zip_data_dir
    ∧ (kfTitle co cfg c).data_format = c.data_format
    ∧ (kfTitle co cfg c).export_plots = c.export_plots
    ∧ (kfTitle co cfg c).make_report = c.make_report
    ∧ (kfTitle co cfg c).plots_force_flat = c.plots_force_flat
    ∧ (kfTitle co cfg c).plots_force_interactive = c.plots_force_interactive
    ∧ (kfTitle co cfg c).strict = c.strict
    ∧ (kfTitle co cfg c).lint = c.lint
    ∧ (kfTitle co cfg c).development = c.development
    ∧ (kfTitle co cfg c).make_pdf = c.make_pdf
    ∧ (kfTitle co cfg c).simple_output = c.simple_output
    ∧ (kfTitle co cfg c).filename = c.filename
    ∧ (kfTitle co cfg c).megaqc_upload = c.megaqc_upload
    ∧ (kfTitle co cfg c).fn_clean_sample_names = c.fn_clean_sample_names
    ∧ (kfTitle co cfg c).sample_names_replace = c.sample_names_replace
    ∧ (kfTitle co cfg c).sample_names_rename = c.sample_names_rename
    ∧ (kfTitle co cfg c).show_hide_rules = c.show_hide_rules
    ∧ (kfTitle co cfg c).run_modules = c.run_modules
    ∧ (kfTitle co cfg c).exclude_modules = c.exclude_modules
    ∧ (kfTitle co cfg c).require_logs = c.require_logs
    ∧ (kfTitle co cfg c).profile_runtime = c.profile_runtime
    ∧ (kfTitle co cfg c).profile_memory = c.profile_memory
    ∧ (kfTitle co cfg c).no_version_check = c.no_version_check
    ∧ (kfTitle co cfg c).custom_css_files = c.custom_css_files
    ∧ (kfTitle co cfg c).module_order = c.module_order
    ∧ (kfTitle co cfg c).fn_clean_exts = c.fn_clean_exts
    ∧ (kfTitle co cfg c).fn_clean_trim = c.fn_clean_trim
    ∧ (kfTitle co cfg c).preserve_module_raw_data = c.preserve_module_raw_data
    ∧ (kfTitle co cfg c).data_dump_file_write_raw = c.data_dump_file_write_raw
    ∧ (kfTitle co cfg c).ai_summary = c.ai_summary
    ∧ (kfTitle co cfg c).ai_summary_full = c.ai_summary_full
    ∧ (kfTitle co cfg c).ai_provider = c.ai_provider
    ∧ (kfTitle co cfg c).ai_model = c.ai_model
    ∧ (kfTitle co cfg c).ai_custom_endpoint = c.ai_custom_endpoint
    ∧ (kfTitle co cfg c).ai_custom_context_window = c.ai_custom_context_window
    ∧ (kfTitle co cfg c).ai_prompt_short = c.ai_prompt_short
    ∧ (kfTitle co cfg c).ai_prompt_full = c.ai_prompt_full
    ∧ (kfTitle co cfg c).no_ai = c.no_ai
    ∧ (kfTitle co cfg c).export_plot_formats = c.export_plot_formats
    ∧ (kfTitle co cfg c).analysis_dir = c.analysis_dir
    ∧ (kfTitle co cfg c).file_list = c.file_list
    ∧ (kfTitle co cfg c).fn_ignore_files = c.fn_ignore_files
    ∧ (kfTitle co cfg c).fn_ignore_dirs = c.fn_ignore_dirs
    ∧ (kfTitle co cfg c).fn_ignore_paths = c.fn_ignore_paths
    ∧ (kfTitle co cfg c).sample_names_ignore = c.sample_names_ignore
    ∧ (kfTitle co cfg c).sample_names_only_include = c.sample_names_only_include
    ∧ (kfTitle co cfg c).top_modules = c.top_modules
    ∧ (kfTitle co cfg c).kwargs = c.kwargs := by
  by_cases h : cfg.title.isSome = true <;> simp [kfTitle, h]

@[simp] theorem kfReportComment_fields (co : Collaborators) (cfg : ClConfig) (c : Config) :
    (kfReportComment co cfg c).quiet = c.quiet
    ∧ (kfReportComment co cfg c).no_ansi = c.no_ansi
    ∧ (kfReportComment co cfg c).verbose = c.verbose
    ∧ (kfReportComment co cfg c).loaded_user_files = c.loaded_user_files
    ∧ (kfReportComment co cfg c).explicit_user_config_files = c.explicit_user_config_files
    ∧ (kfReportComment co cfg c).template = c.template
    ∧ (kfReportComment co cfg c).title = c.title
    ∧ (kfReportComment co cfg c).report_comment = (if cfg.report_comment.isSome then cfg.report_comment else c.report_comment)
    ∧ (kfReportComment co cfg c).prepend_dirs = c.prepend_dirs
    ∧ (kfReportComment co cfg c).prepend_dirs_depth = c.prepend_dirs_depth
    ∧ (kfReportComment co cfg c).output_dir = c.output_dir
    ∧ (kfReportComment co cfg c).use_filename_as_sample_name = c.use_filename_as_sample_name
    ∧ (kfReportComment co cfg c).make_data_dir = c.make_data_dir
    ∧ (kfReportComment co cfg c).force = c.force
    ∧ (kfReportComment co cfg c).ignore_symlinks = c.ignore_symlinks
    ∧ (kfReportComment co cfg c).zip_data_dir = c.zip_data_dir
    ∧ (kfReportComment co cfg c).data_format = c.data_format
    ∧ (kfReportComment co cfg c).export_plots = c.export_plots
    ∧ (kfReportComment co cfg c).make_report = c.make_report
    ∧ (kfReportComment co cfg c).plots_force_flat = c.plots_force_flat
    ∧ (kfReportComment co cfg c).plots_force_interactive = c.plots_force_interactive
    ∧ (kfReportComment co cfg c).strict = c.strict
    ∧ (kfReportComment co cfg c).lint = c.lint
    ∧ (kfReportComment co cfg c).development = c.development
    ∧ (kfReportComment co cfg c).make_pdf = c.make_pdf
    ∧ (kfReportComment co cfg c).simple_output = c.simple_output
    ∧ (kfReportComment co cfg c).filename = c.filename
    ∧ (kfReportComment co cfg c).megaqc_upload = c.megaqc_upload
    ∧ (kfReportComment co cfg c).fn_clean_sample_names = c.fn_clean_sample_names
    ∧ (kfReportComment co cfg c).sample_names_replace = c.sample_names_replace
    ∧ (kfReportComment co cfg c).sample_names_rename = c.sample_names_rename
    ∧ (kfReportComment co cfg c).show_hide_rules = c.show_hide_rules
    ∧ (kfReportComment co cfg c).run_modules = c.run_modules
    ∧ (kfReportComment co cfg c).exclude_modules = c.exclude_modules
    ∧ (kfReportComment co cfg c).require_logs = c.require_logs
    ∧ (kfReportComment co cfg c).profile_runtime = c.profile_runtime
    ∧ (kfReportComment co cfg c).profile_memory = c.profile_memory
    ∧ (kfReportComment co cfg c).no_version_check = c.no_version_check
    ∧ (kfReportComment co cfg c).custom_css_files = c.custom_css_files
    ∧ (kfReportComment co cfg c).module_order = c.module_order
    ∧ (kfReportComment co cfg c).fn_clean_exts = c.fn_clean_exts
    ∧ (kfReportComment co cfg c).fn_clean_trim = c.fn_clean_trim
    ∧ (kfReportComment co cfg c).preserve_module_raw_data = c.preserve_module_raw_data
    ∧ (kfReportComment co cfg c).data_dump_file_write_raw = c.data_dump_file_write_raw
    ∧ (kfReportComment co cfg c).ai_summary = c.ai_summary
    ∧ (kfReportComment co cfg c).ai_summary_full = c.ai_summary_full
    ∧ (kfReportComment co cfg c).ai_provider = c.ai_provider
    ∧ (kfReportComment co cfg c).ai_model = c.ai_model
    ∧ (kfReportComment co cfg c).ai_custom_endpoint = c.ai_custom_endpoint
    ∧ (kfReportComment co cfg c).ai_custom_context_window = c.ai_custom_context_window
    ∧ (kfReportComment co cfg c).ai_prompt_short = c.ai_prompt_short
    ∧ (kfReportComment co cfg c).ai_prompt_full = c.ai_prompt_full
    ∧ (kfReportComment co cfg c).no_ai = c.no_ai
    ∧ (kfReportComment co cfg c).export_plot_formats = c.export_plot_formats
    ∧ (kfReportComment co cfg c).analysis_dir = c.analysis_dir
    ∧ (kfReportComment co cfg c).file_list = c.file_list
    ∧ (kfReportComment co cfg c).fn_ignore_files = c.fn_ignore_files
    ∧ (kfReportComment co cfg c).fn_ignore_dirs = c.fn_ignore_dirs
    ∧ (kfReportComment co cfg c).fn_ignore_paths = c.fn_ignore_paths
    ∧ (kfReportComment co cfg c).sample_names_ignore = c.sample_names_ignore
    ∧ (kfReportComment co cfg c).sample_names_only_include = c.sample_names_only_include
    ∧ (kfReportComment co cfg c).top_modules = c.top_modules
    ∧ (kfReportComment co cfg c).kwargs = c.kwargs := by
  by_cases h : cfg.report_comment.isSome = true <;> simp [kfReportComment, h]

@[simp] theorem kfPrependDirs_fields (co : Collaborators) (cfg : ClConfig) (c : Config) :
    (kfPrependDirs co cfg c).quiet = c.quiet
    ∧ (kfPrependDirs co cfg c).no_ansi = c.no_ansi
    ∧ (kfPrependDirs co cfg c).verbose = c.verbose
    ∧ (kfPrependDirs co cfg c).loaded_user_files = c.loaded_user_files
    ∧ (kfPrependDirs co cfg c).explicit_user_config_files = c.explicit_user_config_files
    ∧ (kfPrependDirs co cfg c).template = c.template
    ∧ (kfPrependDirs co cfg c).title = c.title
    ∧ (kfPrependDirs co cfg c).report_comment = c.report_comment
    ∧ (kfPrependDirs co cfg c).prepend_dirs = (if cfg.prepend_dirs.isSome then cfg.prepend_dirs.getD c.prepend_dirs else c.prepend_dirs)
    ∧ (kfPrependDirs co cfg c).prepend_dirs_depth = c.prepend_dirs_depth
    ∧ (kfPrependDirs co cfg c).output_dir = c.output_dir
    ∧ (kfPrependDirs co cfg c).use_filename_as_sample_name = c.use_filename_as_sample_name
    ∧ (kfPrependDirs co cfg c).make_data_dir = c.make_data_dir
    ∧ (kfPrependDirs co cfg c).force = c.force
    ∧ (kfPrependDirs co cfg c).ignore_symlinks = c.ignore_symlinks
    ∧ (kfPrependDirs co cfg c).zip_data_dir = c.zip_data_dir
    ∧ (kfPrependDirs co cfg c).data_format = c.data_format
    ∧ (kfPrependDirs co cfg c).export_plots = c.export_plots
    ∧ (kfPrependDirs co cfg c).make_report = c.make_report
    ∧ (kfPrependDirs co cfg c).plots_force_flat = c.plots_force_flat
    ∧ (kfPrependDirs co cfg c).plots_force_interactive = c.plots_force_interactive
    ∧ (kfPrependDirs co cfg c).strict = c.strict
    ∧ (kfPrependDirs co cfg c).lint = c.lint
    ∧ (kfPrependDirs co cfg c).development = c.development
    ∧ (kfPrependDirs co cfg c).make_pdf = c.make_pdf
    ∧ (kfPrependDirs co cfg c).simple_output = c.simple_output
    ∧ (kfPrependDirs co cfg c).filename = c.filename
    ∧ (kfPrependDirs co cfg c).megaqc_upload = c.megaqc_upload
    ∧ (kfPrependDirs co cfg c).fn_clean_sample_names = c.fn_clean_sample_names
    ∧ (kfPrependDirs co cfg c).sample_names_replace = c.sample_names_replace
    ∧ (kfPrependDirs co cfg c).sample_names_rename = c.sample_names_rename
    ∧ (kfPrependDirs co cfg c).show_hide_rules = c.show_hide_rules
    ∧ (kfPrependDirs co cfg c).run_modules = c.run_modules
    ∧ (kfPrependDirs co cfg c).exclude_modules = c.exclude_modules
    ∧ (kfPrependDirs co cfg c).require_logs = c.require_logs
    ∧ (kfPrependDirs co cfg c).profile_runtime = c.profile_runtime
    ∧ (kfPrependDirs co cfg c).profile_memory = c.profile_memory
    ∧ (kfPrependDirs co cfg c).no_version_check = c.no_version_check
    ∧ (kfPrependDirs co cfg c).custom_css_files = c.custom_css_files
    ∧ (kfPrependDirs co cfg c).module_order = c.module_order
    ∧ (kfPrependDirs co cfg c).fn_clean_exts = c.fn_clean_exts
    ∧ (kfPrependDirs co cfg c).fn_clean_trim = c.fn_clean_trim
    ∧ (kfPrependDirs co cfg c).preserve_module_raw_data = c.preserve_module_raw_data
    ∧ (kfPrependDirs co cfg c).data_dump_file_write_raw = c.data_dump_file_write_raw
    ∧ (kfPrependDirs co cfg c).ai_summary = c.ai_summary
    ∧ (kfPrependDirs co cfg c).ai_summary_full = c.ai_summary_full
    ∧ (kfPrependDirs co cfg c).ai_provider = c.ai_provider
    ∧ (kfPrependDirs co cfg c).ai_model = c.ai_model
    ∧ (kfPrependDirs co cfg c).ai_custom_endpoint = c.ai_custom_endpoint
    ∧ (kfPrependDirs co cfg c).ai_custom_context_window = c.ai_custom_context_window
    ∧ (kfPrependDirs co cfg c).ai_prompt_short = c.ai_prompt_short
    ∧ (kfPrependDirs co cfg c).ai_prompt_full = c.ai_prompt_full
    ∧ (kfPrependDirs co cfg c).no_ai = c.no_ai
    ∧ (kfPrependDirs co cfg c).export_plot_formats = c.export_plot_formats
    ∧ (kfPrependDirs co cfg c).analysis_dir = c.analysis_dir
    ∧ (kfPrependDirs co cfg c).file_list = c.file_list
    ∧ (kfPrependDirs co cfg c).fn_ignore_files = c.fn_ignore_files
    ∧ (kfPrependDirs co cfg c).fn_ignore_dirs = c.fn_ignore_dirs
    ∧ (kfPrependDirs co cfg c).fn_ignore_paths = c.fn_ignore_paths
    ∧ (kfPrependDirs co cfg c).sample_names_ignore = c.sample_names_ignore
    ∧ (kfPrependDirs co cfg c).sample_names_only_include = c.sample_names_only_include
    ∧ (kfPrependDirs co cfg c).top_modules = c.top_modules
    ∧ (kfPrependDirs co cfg c).kwargs = c.kwargs := by
  by_cases h : cfg.prepend_dirs.isSome = true <;> simp [kfPrependDirs, h]

@[simp] theorem kfDirsDepth_fields (co : Collaborators) (cfg : ClConfig) (c : Config) :
    (kfDirsDepth co cfg c).quiet = c.quiet
    ∧ (kfDirsDepth co cfg c).no_ansi = c.no_ansi
    ∧ (kfDirsDepth co cfg c).verbose = c.verbose
    ∧ (kfDirsDepth co cfg c).loaded_user_files = c.loaded_user_files
    ∧ (kfDirsDepth co cfg c).explicit_user_config_files = c.explicit_user_config_files
    ∧ (kfDirsDepth co cfg c).template = c.template
    ∧ (kfDirsDepth co cfg c).title = c.title
    ∧ (kfDirsDepth co cfg c).report_comment = c.report_comment
    ∧ (kfDirsDepth co cfg c).prepend_dirs = (if cfg.dirs_depth.isSome then true else c.prepend_dirs)
    ∧ (kfDirsDepth co cfg c).prepend_dirs_depth = (if cfg.dirs_depth.isSome then cfg.dirs_depth.getD c.prepend_dirs_depth else c.prepend_dirs_depth)
    ∧ (kfDirsDepth co cfg c).output_dir = c.output_dir
    ∧ (kfDirsDepth co cfg c).use_filename_as_sample_name = c.use_filename_as_sample_name
    ∧ (kfDirsDepth co cfg c).make_data_dir = c.make_data_dir
    ∧ (kfDirsDepth co cfg c).force = c.force
    ∧ (kfDirsDepth co cfg c).ignore_symlinks = c.ignore_symlinks
    ∧ (kfDirsDepth co cfg c).zip_data_dir = c.zip_data_dir
    ∧ (kfDirsDepth co cfg c).data_format = c.data_format
    ∧ (kfDirsDepth co cfg c).export_plots = c.export_plots
    ∧ (kfDirsDepth co cfg c).make_report = c.make_report
    ∧ (kfDirsDepth co cfg c).plots_force_flat = c.plots_force_flat
    ∧ (kfDirsDepth co cfg c).plots_force_interactive = c.plots_force_interactive
    ∧ (kfDirsDepth co cfg c).strict = c.strict
    ∧ (kfDirsDepth co cfg c).lint = c.lint
    ∧ (kfDirsDepth co cfg c).development = c.development
    ∧ (kfDirsDepth co cfg c).make_pdf = c.make_pdf
    ∧ (kfDirsDepth co cfg c).simple_output = c.simple_output
    ∧ (kfDirsDepth co cfg c).filename = c.filename
    ∧ (kfDirsDepth co cfg c).megaqc_upload = c.megaqc_upload
    ∧ (kfDirsDepth co cfg c).fn_clean_sample_names = c.fn_clean_sample_names
    ∧ (kfDirsDepth co cfg c).sample_names_replace = c.sample_names_replace
    ∧ (kfDirsDepth co cfg c).sample_names_rename = c.sample_names_rename
    ∧ (kfDirsDepth co cfg c).show_hide_rules = c.show_hide_rules
    ∧ (kfDirsDepth co cfg c).run_modules = c.run_modules
    ∧ (kfDirsDepth co cfg c).exclude_modules = c.exclude_modules
    ∧ (kfDirsDepth co cfg c).require_logs = c.require_logs
    ∧ (kfDirsDepth co cfg c).profile_runtime = c.profile_runtime
    ∧ (kfDirsDepth co cfg c).profile_memory = c.profile_memory
    ∧ (kfDirsDepth co cfg c).no_version_check = c.no_version_check
    ∧ (kfDirsDepth co cfg c).custom_css_files = c.custom_css_files
    ∧ (kfDirsDepth co cfg c).module_order = c.module_order
    ∧ (kfDirsDepth co cfg c).fn_clean_exts = c.fn_clean_exts
    ∧ (kfDirsDepth co cfg c).fn_clean_trim = c.fn_clean_trim
    ∧ (kfDirsDepth co cfg c).preserve_module_raw_data = c.preserve_module_raw_data
    ∧ (kfDirsDepth co cfg c).data_dump_file_write_raw = c.data_dump_file_write_raw
    ∧ (kfDirsDepth co cfg c).ai_summary = c.ai_summary
    ∧ (kfDirsDepth co cfg c).ai_summary_full = c.ai_summary_full
    ∧ (kfDirsDepth co cfg c).ai_provider = c.ai_provider
    ∧ (kfDirsDepth co cfg c).ai_model = c.ai_model
    ∧ (kfDirsDepth co cfg c).ai_custom_endpoint = c.ai_custom_endpoint
    ∧ (kfDirsDepth co cfg c).ai_custom_context_window = c.ai_custom_context_window
    ∧ (kfDirsDepth co cfg c).ai_prompt_short = c.ai_prompt_short
    ∧ (kfDirsDepth co cfg c).ai_prompt_full = c.ai_prompt_full
    ∧ (kfDirsDepth co cfg c).no_ai = c.no_ai
    ∧ (kfDirsDepth co cfg c).export_plot_formats = c.export_plot_formats
    ∧ (kfDirsDepth co cfg c).analysis_dir = c.analysis_dir
    ∧ (kfDirsDepth co cfg c).file_list = c.file_list
    ∧ (kfDirsDepth co cfg c).fn_ignore_files = c.fn_ignore_files
    ∧ (kfDirsDepth co cfg c).fn_ignore_dirs = c.fn_ignore_dirs
    ∧ (kfDirsDepth co cfg c).fn_ignore_paths = c.fn_ignore_paths
    ∧ (kfDirsDepth co cfg c).sample_names_ignore = c.sample_names_ignore
    ∧ (kfDirsDepth co cfg c).sample_names_only_include = c.sample_names_only_include
    ∧ (kfDirsDepth co cfg c).top_modules = c.top_modules
    ∧ (kfDirsDepth co cfg c).kwargs = c.kwargs := by
  by_cases h : cfg.dirs_depth.isSome = true <;> simp [kfDirsDepth, h]

@[simp] theorem kfOutputDir_fields (co : Collaborators) (cfg : ClConfig) (c : Config) :
    (kfOutputDir co cfg c).quiet = c.quiet
    ∧ (kfOutputDir co cfg c).no_ansi = c.no_ansi
    ∧ (kfOutputDir co cfg c).verbose = c.verbose
    ∧ (kfOutputDir co cfg c).loaded_user_files = c.loaded_user_files
    ∧ (kfOutputDir co cfg c).explicit_user_config_files = c.explicit_user_config_files
    ∧ (kfOutputDir co cfg c).template = c.template
    ∧ (kfOutputDir co cfg c).title = c.title
    ∧ (kfOutputDir co cfg c).report_comment = c.report_comment
    ∧ (kfOutputDir co cfg c).prepend_dirs = c.prepend_dirs
    ∧ (kfOutputDir co cfg c).prepend_dirs_depth = c.prepend_dirs_depth
    ∧ (kfOutputDir co cfg c).output_dir = (if cfg.output_dir.isSome then co.realpath (cfg.output_dir.getD c.output_dir) else c.output_dir)
    ∧ (kfOutputDir co cfg c).use_filename_as_sample_name = c.use_filename_as_sample_name
    ∧ (kfOutputDir co cfg c).make_data_dir = c.make_data_dir
    ∧ (kfOutputDir co cfg c).force = c.force
    ∧ (kfOutputDir co cfg c).ignore_symlinks = c.ignore_symlinks
    ∧ (kfOutputDir co cfg c).zip_data_dir = c.zip_data_dir
    ∧ (kfOutputDir co cfg c).data_format = c.data_format
    ∧ (kfOutputDir co cfg c).export_plots = c.export_plots
    ∧ (kfOutputDir co cfg c).make_report = c.make_report
    ∧ (kfOutputDir co cfg c).plots_force_flat = c.plots_force_flat
    ∧ (kfOutputDir co cfg c).plots_force_interactive = c.plots_force_interactive
    ∧ (kfOutputDir co cfg c).strict = c.strict
    ∧ (kfOutputDir co cfg c).lint = c.lint
    ∧ (kfOutputDir co cfg c).development = c.development
    ∧ (kfOutputDir co cfg c).make_pdf = c.make_pdf
    ∧ (kfOutputDir co cfg c).simple_output = c.simple_output
    ∧ (kfOutputDir co cfg c).filename = c.filename
    ∧ (kfOutputDir co cfg c).megaqc_upload = c.megaqc_upload
    ∧ (kfOutputDir co cfg c).fn_clean_sample_names = c.fn_clean_sample_names
    ∧ (kfOutputDir co cfg c).sample_names_replace = c.sample_names_replace
    ∧ (kfOutputDir co cfg c).sample_names_rename = c.sample_names_rename
    ∧ (kfOutputDir co cfg c).show_hide_rules = c.show_hide_rules
    ∧ (kfOutputDir co cfg c).run_modules = c.run_modules
    ∧ (kfOutputDir co cfg c).exclude_modules = c.exclude_modules
    ∧ (kfOutputDir co cfg c).require_logs = c.require_logs
    ∧ (kfOutputDir co cfg c).profile_runtime = c.profile_runtime
    ∧ (kfOutputDir co cfg c).profile_memory = c.profile_memory
    ∧ (kfOutputDir co cfg c).no_version_check = c.no_version_check
    ∧ (kfOutputDir co cfg c).custom_css_files = c.custom_css_files
    ∧ (kfOutputDir co cfg c).module_order = c.module_order
    ∧ (kfOutputDir co cfg c).fn_clean_exts = c.fn_clean_exts
    ∧ (kfOutputDir co cfg c).fn_clean_trim = c.fn_clean_trim
    ∧ (kfOutputDir co cfg c).preserve_module_raw_data = c.preserve_module_raw_data
    ∧ (kfOutputDir co cfg c).data_dump_file_write_raw = c.data_dump_file_write_raw
    ∧ (kfOutputDir co cfg c).ai_summary = c.ai_summary
    ∧ (kfOutputDir co cfg c).ai_summary_full = c.ai_summary_full
    ∧ (kfOutputDir co cfg c).ai_provider = c.ai_provider
    ∧ (kfOutputDir co cfg c).ai_model = c.ai_model
    ∧ (kfOutputDir co cfg c).ai_custom_endpoint = c.ai_custom_endpoint
    ∧ (kfOutputDir co cfg c).ai_custom_context_window = c.ai_custom_context_window
    ∧ (kfOutputDir co cfg c).ai_prompt_short = c.ai_prompt_short
    ∧ (kfOutputDir co cfg c).ai_prompt_full = c.ai_prompt_full
    ∧ (kfOutputDir co cfg c).no_ai = c.no_ai
    ∧ (kfOutputDir co cfg c).export_plot_formats = c.export_plot_formats
    ∧ (kfOutputDir co cfg c).analysis_dir = c.analysis_dir
    ∧ (kfOutputDir co cfg c).file_list = c.file_list
    ∧ (kfOutputDir co cfg c).fn_ignore_files = c.fn_ignore_files
    ∧ (kfOutputDir co cfg c).fn_ignore_dirs = c.fn_ignore_dirs
    ∧ (kfOutputDir co cfg c).fn_ignore_paths = c.fn_ignore_paths
    ∧ (kfOutputDir co cfg c).sample_names_ignore = c.sample_names_ignore
    ∧ (kfOutputDir co cfg c).sample_names_only_include = c.sample_names_only_include
    ∧ (kfOutputDir co cfg c).top_modules = c.top_modules
    ∧ (kfOutputDir co cfg c).kwargs = c.kwargs := by
  by_cases h : cfg.output_dir.isSome = true <;> simp [kfOutputDir, h]

@[simp] theorem kfUseFilenameAsSampleName_fields (co : Collaborators) (cfg : ClConfig) (c : Config) :
    (kfUseFilenameAsSampleName co cfg c).quiet = c.quiet
    ∧ (kfUseFilenameAsSampleName co cfg c).no_ansi = c.no_ansi
    ∧ (kfUseFilenameAsSampleName co cfg c).verbose = c.verbose
    ∧ (kfUseFilenameAsSampleName co cfg c).loaded_user_files = c.loaded_user_files
    ∧ (kfUseFilenameAsSampleName co cfg c).explicit_user_config_files = c.explicit_user_config_files
    ∧ (kfUseFilenameAsSampleName co cfg c).template = c.template
    ∧ (kfUseFilenameAsSampleName co cfg c).title = c.title
    ∧ (kfUseFilenameAsSampleName co cfg c).report_comment = c.report_comment
    ∧ (kfUseFilenameAsSampleName co cfg c).prepend_dirs = c.prepend_dirs
    ∧ (kfUseFilenameAsSampleName co cfg c).prepend_dirs_depth = c.prepend_dirs_depth
    ∧ (kfUseFilenameAsSampleName co cfg c).output_dir = c.output_dir
    ∧ (kfUseFilenameAsSampleName co cfg c).use_filename_as_sample_name = (if cfg.use_filename_as_sample_name.isSome then cfg.use_filename_as_sample_name.getD c.use_filename_as_sample_name else c.use_filename_as_sample_name)
    ∧ (kfUseFilenameAsSampleName co cfg c).make_data_dir = c.make_data_dir
    ∧ (kfUseFilenameAsSampleName co cfg c).force = c.force
    ∧ (kfUseFilenameAsSampleName co cfg c).ignore_symlinks = c.ignore_symlinks
    ∧ (kfUseFilenameAsSampleName co cfg c).zip_data_dir = c.zip_data_dir
    ∧ (kfUseFilenameAsSampleName co cfg c).data_format = c.data_format
    ∧ (kfUseFilenameAsSampleName co cfg c).export_plots = c.export_plots
    ∧ (kfUseFilenameAsSampleName co cfg c).make_report = c.make_report
    ∧ (kfUseFilenameAsSampleName co cfg c).plots_force_flat = c.plots_force_flat
    ∧ (kfUseFilenameAsSampleName co cfg c).plots_force_interactive = c.plots_force_interactive
    ∧ (kfUseFilenameAsSampleName co cfg c).strict = c.strict
    ∧ (kfUseFilenameAsSampleName co cfg c).lint = c.lint
    ∧ (kfUseFilenameAsSampleName co cfg c).development = c.development
    ∧ (kfUseFilenameAsSampleName co cfg c).make_pdf = c.make_pdf
    ∧ (kfUseFilenameAsSampleName co cfg c).simple_output = c.simple_output
    ∧ (kfUseFilenameAsSampleName co cfg c).filename = c.filename
    ∧ (kfUseFilenameAsSampleName co cfg c).megaqc_upload = c.megaqc_upload
    ∧ (kfUseFilenameAsSampleName co cfg c).fn_clean_sample_names = c.fn_clean_sample_names
    ∧ (kfUseFilenameAsSampleName co cfg c).sample_names_replace = c.sample_names_replace
    ∧ (kfUseFilenameAsSampleName co cfg c).sample_names_rename = c.sample_names_rename
    ∧ (kfUseFilenameAsSampleName co cfg c).show_hide_rules = c.show_hide_rules
    ∧ (kfUseFilenameAsSampleName co cfg c).run_modules = c.run_modules
    ∧ (kfUseFilenameAsSampleName co cfg c).exclude_modules = c.exclude_modules
    ∧ (kfUseFilenameAsSampleName co cfg c).require_logs = c.require_logs
    ∧ (kfUseFilenameAsSampleName co cfg c).profile_runtime = c.profile_runtime
    ∧ (kfUseFilenameAsSampleName co cfg c).profile_memory = c.profile_memory
    ∧ (kfUseFilenameAsSampleName co cfg c).no_version_check = c.no_version_check
    ∧ (kfUseFilenameAsSampleName co cfg c).custom_css_files = c.custom_css_files
    ∧ (kfUseFilenameAsSampleName co cfg c).module_order = c.module_order
    ∧ (kfUseFilenameAsSampleName co cfg c).fn_clean_exts = c.fn_clean_exts
    ∧ (kfUseFilenameAsSampleName co cfg c).fn_clean_trim = c.fn_clean_trim
    ∧ (kfUseFilenameAsSampleName co cfg c).preserve_module_raw_data = c.preserve_module_raw_data
    ∧ (kfUseFilenameAsSampleName co cfg c).data_dump_file_write_raw = c.data_dump_file_write_raw
    ∧ (kfUseFilenameAsSampleName co cfg c).ai_summary = c.ai_summary
    ∧ (kfUseFilenameAsSampleName co cfg c).ai_summary_full = c.ai_summary_full
    ∧ (kfUseFilenameAsSampleName co cfg c).ai_provider = c.ai_provider
    ∧ (kfUseFilenameAsSampleName co cfg c).ai_model = c.ai_model
    ∧ (kfUseFilenameAsSampleName co cfg c).ai_custom_endpoint = c.ai_custom_endpoint
    ∧ (kfUseFilenameAsSampleName co cfg c).ai_custom_context_window = c.ai_custom_context_window
    ∧ (kfUseFilenameAsSampleName co cfg c).ai_prompt_short = c.ai_prompt_short
    ∧ (kfUseFilenameAsSampleName co cfg c).ai_prompt_full = c.ai_prompt_full
    ∧ (kfUseFilenameAsSampleName co cfg c).no_ai = c.no_ai
    ∧ (kfUseFilenameAsSampleName co cfg c).export_plot_formats = c.export_plot_formats
    ∧ (kfUseFilenameAsSampleName co cfg c).analysis_dir = c.analysis_dir
    ∧ (kfUseFilenameAsSampleName co cfg c).file_list = c.file_list
    ∧ (kfUseFilenameAsSampleName co cfg c).fn_ignore_files = c.fn_ignore_files
    ∧ (kfUseFilenameAsSampleName co cfg c).fn_ignore_dirs = c.fn_ignore_dirs
    ∧ (kfUseFilenameAsSampleName co cfg c).fn_ignore_paths = c.fn_ignore_paths
    ∧ (kfUseFilenameAsSampleName co cfg c).sample_names_ignore = c.sample_names_ignore
    ∧ (kfUseFilenameAsSampleName co cfg c).sample_names_only_include = c.sample_names_only_include
    ∧ (kfUseFilenameAsSampleName co cfg c).top_modules = c.top_modules
    ∧ (kfUseFilenameAsSampleName co cfg c).kwargs = c.kwargs := by
  by_cases h : cfg.use_filename_as_sample_name.isSome = true <;> simp [kfUseFilenameAsSampleName, h]

@[simp] theorem kfMakeDataDir_fields (co : Collaborators) (cfg : ClConfig) (c : Config) :
    (kfMakeDataDir co cfg c).quiet = c.quiet
    ∧ (kfMakeDataDir co cfg c).no_ansi = c.no_ansi
    ∧ (kfMakeDataDir co cfg c).verbose = c.verbose
    ∧ (kfMakeDataDir co cfg c).loaded_user_files = c.loaded_user_files
    ∧ (kfMakeDataDir co cfg c).explicit_user_config_files = c.explicit_user_config_files
    ∧ (kfMakeDataDir co cfg c).template = c.template
    ∧ (kfMakeDataDir co cfg c).title = c.title
    ∧ (kfMakeDataDir co cfg c).report_comment = c.report_comment
    ∧ (kfMakeDataDir co cfg c).prepend_dirs = c.prepend_dirs
    ∧ (kfMakeDataDir co cfg c).prepend_dirs_depth = c.prepend_dirs_depth
    ∧ (kfMakeDataDir co cfg c).output_dir = c.output_dir
    ∧ (kfMakeDataDir co cfg c).use_filename_as_sample_name = c.use_filename_as_sample_name
    ∧ (kfMakeDataDir co cfg c).make_data_dir = (if cfg.make_data_dir.isSome then cfg.make_data_dir.getD c.make_data_dir else c.make_data_dir)
    ∧ (kfMakeDataDir co cfg c).force = c.force
    ∧ (kfMakeDataDir co cfg c).ignore_symlinks = c.ignore_symlinks
    ∧ (kfMakeDataDir co cfg c).zip_data_dir = c.zip_data_dir
    ∧ (kfMakeDataDir co cfg c).data_format = c.data_format
    ∧ (kfMakeDataDir co cfg c).export_plots = c.export_plots
    ∧ (kfMakeDataDir co cfg c).make_report = c.make_report
    ∧ (kfMakeDataDir co cfg c).plots_force_flat = c.plots_force_flat
    ∧ (kfMakeDataDir co cfg c).plots_force_interactive = c.plots_force_interactive
    ∧ (kfMakeDataDir co cfg c).strict = c.strict
    ∧ (kfMakeDataDir co cfg c).lint = c.lint
    ∧ (kfMakeDataDir co cfg c).development = c.development
    ∧ (kfMakeDataDir co cfg c).make_pdf = c.make_pdf
    ∧ (kfMakeDataDir co cfg c).simple_output = c.simple_output
    ∧ (kfMakeDataDir co cfg c).filename = c.filename
    ∧ (kfMakeDataDir co cfg c).megaqc_upload = c.megaqc_upload
    ∧ (kfMakeDataDir co cfg c).fn_clean_sample_names = c.fn_clean_sample_names
    ∧ (kfMakeDataDir co cfg c).sample_names_replace = c.sample_names_replace
    ∧ (kfMakeDataDir co cfg c).sample_names_rename = c.sample_names_rename
    ∧ (kfMakeDataDir co cfg c).show_hide_rules = c.show_hide_rules
    ∧ (kfMakeDataDir co cfg c).run_modules = c.run_modules
    ∧ (kfMakeDataDir co cfg c).exclude_modules = c.exclude_modules
    ∧ (kfMakeDataDir co cfg c).require_logs = c.require_logs
    ∧ (kfMakeDataDir co cfg c).profile_runtime = c.profile_runtime
    ∧ (kfMakeDataDir co cfg c).profile_memory = c.profile_memory
    ∧ (kfMakeDataDir co cfg c).no_version_check = c.no_version_check
    ∧ (kfMakeDataDir co cfg c).custom_css_files = c.custom_css_files
    ∧ (kfMakeDataDir co cfg c).module_order = c.module_order
    ∧ (kfMakeDataDir co cfg c).fn_clean_exts = c.fn_clean_exts
    ∧ (kfMakeDataDir co cfg c).fn_clean_trim = c.fn_clean_trim
    ∧ (kfMakeDataDir co cfg c).preserve_module_raw_data = c.preserve_module_raw_data
    ∧ (kfMakeDataDir co cfg c).data_dump_file_write_raw = c.data_dump_file_write_raw
    ∧ (kfMakeDataDir co cfg c).ai_summary = c.ai_summary
    ∧ (kfMakeDataDir co cfg c).ai_summary_full = c.ai_summary_full
    ∧ (kfMakeDataDir co cfg c).ai_provider = c.ai_provider
    ∧ (kfMakeDataDir co cfg c).ai_model = c.ai_model
    ∧ (kfMakeDataDir co cfg c).ai_custom_endpoint = c.ai_custom_endpoint
    ∧ (kfMakeDataDir co cfg c).ai_custom_context_window = c.ai_custom_context_window
    ∧ (kfMakeDataDir co cfg c).ai_prompt_short = c.ai_prompt_short
    ∧ (kfMakeDataDir co cfg c).ai_prompt_full = c.ai_prompt_full
    ∧ (kfMakeDataDir co cfg c).no_ai = c.no_ai
    ∧ (kfMakeDataDir co cfg c).export_plot_formats = c.export_plot_formats
    ∧ (kfMakeDataDir co cfg c).analysis_dir = c.analysis_dir
    ∧ (kfMakeDataDir co cfg c).file_list = c.file_list
    ∧ (kfMakeDataDir co cfg c).fn_ignore_files = c.fn_ignore_files
    ∧ (kfMakeDataDir co cfg c).fn_ignore_dirs = c.fn_ignore_dirs
    ∧ (kfMakeDataDir co cfg c).fn_ignore_paths = c.fn_ignore_paths
    ∧ (kfMakeDataDir co cfg c).sample_names_ignore = c.sample_names_ignore
    ∧ (kfMakeDataDir co cfg c).sample_names_only_include = c.sample_names_only_include
    ∧ (kfMakeDataDir co cfg c).top_modules = c.top_modules
    ∧ (kfMakeDataDir co cfg c).kwargs = c.kwargs := by
  by_cases h : cfg.make_data_dir.isSome = true <;> simp [kfMakeDataDir, h]

@[simp] theorem kfForce_fields (co : Collaborators) (cfg : ClConfig) (c : Config) :
    (kfForce co cfg c).quiet = c.quiet
    ∧ (kfForce co cfg c).no_ansi = c.no_ansi
    ∧ (kfForce co cfg c).verbose = c.verbose
    ∧ (kfForce co cfg c).loaded_user_files = c.loaded_user_files
    ∧ (kfForce co cfg c).explicit_user_config_files = c.explicit_user_config_files
    ∧ (kfForce co cfg c).template = c.template
    ∧ (kfForce co cfg c).title = c.title
    ∧ (kfForce co cfg c).report_comment = c.report_comment
    ∧ (kfForce co cfg c).prepend_dirs = c.prepend_dirs
    ∧ (kfForce co cfg c).prepend_dirs_depth = c.prepend_dirs_depth
    ∧ (kfForce co cfg c).output_dir = c.output_dir
    ∧ (kfForce co cfg c).use_filename_as_sample_name = c.use_filename_as_sample_name
    ∧ (kfForce co cfg c).make_data_dir = c.make_data_dir
    ∧ (kfForce co cfg c).force = (if cfg.force.isSome then cfg.force.getD c.force else c.force)
    ∧ (kfForce co cfg c).ignore_symlinks = c.ignore_symlinks
    ∧ (kfForce co cfg c).zip_data_dir = c.zip_data_dir
    ∧ (kfForce co cfg c).data_format = c.data_format
    ∧ (kfForce co cfg c).export_plots = c.export_plots
    ∧ (kfForce co cfg c).make_report = c.make_report
    ∧ (kfForce co cfg c).plots_force_flat = c.plots_force_flat
    ∧ (kfForce co cfg c).plots_force_interactive = c.plots_force_interactive
    ∧ (kfForce co cfg c).strict = c.strict
    ∧ (kfForce co cfg c).lint = c.lint
    ∧ (kfForce co cfg c).development = c.development
    ∧ (kfForce co cfg c).make_pdf = c.make_pdf
    ∧ (kfForce co cfg c).simple_output = c.simple_output
    ∧ (kfForce co cfg c).filename = c.filename
    ∧ (kfForce co cfg c).megaqc_upload = c.megaqc_upload
    ∧ (kfForce co cfg c).fn_clean_sample_names = c.fn_clean_sample_names
    ∧ (kfForce co cfg c).sample_names_replace = c.sample_names_replace
    ∧ (kfForce co cfg c).sample_names_rename = c.sample_names_rename
    ∧ (kfForce co cfg c).show_hide_rules = c.show_hide_rules
    ∧ (kfForce co cfg c).run_modules = c.run_modules
    ∧ (kfForce co cfg c).exclude_modules = c.exclude_modules
    ∧ (kfForce co cfg c).require_logs = c.require_logs
    ∧ (kfForce co cfg c).profile_runtime = c.profile_runtime
    ∧ (kfForce co cfg c).profile_memory = c.profile_memory
    ∧ (kfForce co cfg c).no_version_check = c.no_version_check
    ∧ (kfForce co cfg c).custom_css_files = c.custom_css_files
    ∧ (kfForce co cfg c).module_order = c.module_order
    ∧ (kfForce co cfg c).fn_clean_exts = c.fn_clean_exts
    ∧ (kfForce co cfg c).fn_clean_trim = c.fn_clean_trim
    ∧ (kfForce co cfg c).preserve_module_raw_data = c.preserve_module_raw_data
    ∧ (kfForce co cfg c).data_dump_file_write_raw = c.data_dump_file_write_raw
    ∧ (kfForce co cfg c).ai_summary = c.ai_summary
    ∧ (kfForce co cfg c).ai_summary_full = c.ai_summary_full
    ∧ (kfForce co cfg c).ai_provider = c.ai_provider
    ∧ (kfForce co cfg c).ai_model = c.ai_model
    ∧ (kfForce co cfg c).ai_custom_endpoint = c.ai_custom_endpoint
    ∧ (kfForce co cfg c).ai_custom_context_window = c.ai_custom_context_window
    ∧ (kfForce co cfg c).ai_prompt_short = c.ai_prompt_short
    ∧ (kfForce co cfg c).ai_prompt_full = c.ai_prompt_full
    ∧ (kfForce co cfg c).no_ai = c.no_ai
    ∧ (kfForce co cfg c).export_plot_formats = c.export_plot_formats
    ∧ (kfForce co cfg c).analysis_dir = c.analysis_dir
    ∧ (kfForce co cfg c).file_list = c.file_list
    ∧ (kfForce co cfg c).fn_ignore_files = c.fn_ignore_files
    ∧ (kfForce co cfg c).fn_ignore_dirs = c.fn_ignore_dirs
    ∧ (kfForce co cfg c).fn_ignore_paths = c.fn_ignore_paths
    ∧ (kfForce co cfg c).sample_names_ignore = c.sample_names_ignore
    ∧ (kfForce co cfg c).sample_names_only_include = c.sample_names_only_include
    ∧ (kfForce co cfg c).top_modules = c.top_modules
    ∧ (kfForce co cfg c).kwargs = c.kwargs := by
  by_cases h : cfg.force.isSome = true <;> simp [kfForce, h]

@[simp] theorem kfIgnoreSymlinks_fields (co : Collaborators) (cfg : ClConfig) (c : Config) :
    (kfIgnoreSymlinks co cfg c).quiet = c.quiet
    ∧ (kfIgnoreSymlinks co cfg c).no_ansi = c.no_ansi
    ∧ (kfIgnoreSymlinks co cfg c).verbose = c.verbose
    ∧ (kfIgnoreSymlinks co cfg c).loaded_user_files = c.loaded_user_files
    ∧ (kfIgnoreSymlinks co cfg c).explicit_user_config_files = c.explicit_user_config_files
    ∧ (kfIgnoreSymlinks co cfg c).template = c.template
    ∧ (kfIgnoreSymlinks co cfg c).title = c.title
    ∧ (kfIgnoreSymlinks co cfg c).report_comment = c.report_comment
    ∧ (kfIgnoreSymlinks co cfg c).prepend_dirs = c.prepend_dirs
    ∧ (kfIgnoreSymlinks co cfg c).prepend_dirs_depth = c.prepend_dirs_depth
    ∧ (kfIgnoreSymlinks co cfg c).output_dir = c.output_dir
    ∧ (kfIgnoreSymlinks co cfg c).use_filename_as_sample_name = c.use_filename_as_sample_name
    ∧ (kfIgnoreSymlinks co cfg c).make_data_dir = c.make_data_dir
    ∧ (kfIgnoreSymlinks co cfg c).force = c.force
    ∧ (kfIgnoreSymlinks co cfg c).ignore_symlinks = (if cfg.ignore_symlinks.isSome then cfg.ignore_symlinks.getD c.ignore_symlinks else c.ignore_symlinks)
    ∧ (kfIgnoreSymlinks co cfg c).zip_data_dir = c.zip_data_dir
    ∧ (kfIgnoreSymlinks co cfg c).data_format = c.data_format
    ∧ (kfIgnoreSymlinks co cfg c).export_plots = c.export_plots
    ∧ (kfIgnoreSymlinks co cfg c).make_report = c.make_report
    ∧ (kfIgnoreSymlinks co cfg c).plots_force_flat = c.plots_force_flat
    ∧ (kfIgnoreSymlinks co cfg c).plots_force_interactive = c.plots_force_interactive
    ∧ (kfIgnoreSymlinks co cfg c).strict = c.strict
    ∧ (kfIgnoreSymlinks co cfg c).lint = c.lint
    ∧ (kfIgnoreSymlinks co cfg c).development = c.development
    ∧ (kfIgnoreSymlinks co cfg c).make_pdf = c.make_pdf
    ∧ (kfIgnoreSymlinks co cfg c).simple_output = c.simple_output
    ∧ (kfIgnoreSymlinks co cfg c).filename = c.filename
    ∧ (kfIgnoreSymlinks co cfg c).megaqc_upload = c.megaqc_upload
    ∧ (kfIgnoreSymlinks co cfg c).fn_clean_sample_names = c.fn_clean_sample_names
    ∧ (kfIgnoreSymlinks co cfg c).sample_names_replace = c.sample_names_replace
    ∧ (kfIgnoreSymlinks co cfg c).sample_names_rename = c.sample_names_rename
    ∧ (kfIgnoreSymlinks co cfg c).show_hide_rules = c.show_hide_rules
    ∧ (kfIgnoreSymlinks co cfg c).run_modules = c.run_modules
    ∧ (kfIgnoreSymlinks co cfg c).exclude_modules = c.exclude_modules
    ∧ (kfIgnoreSymlinks co cfg c).require_logs = c.require_logs
    ∧ (kfIgnoreSymlinks co cfg c).profile_runtime = c.profile_runtime
    ∧ (kfIgnoreSymlinks co cfg c).profile_memory = c.profile_memory
    ∧ (kfIgnoreSymlinks co cfg c).no_version_check = c.no_version_check
    ∧ (kfIgnoreSymlinks co cfg c).custom_css_files = c.custom_css_files
    ∧ (kfIgnoreSymlinks co cfg c).module_order = c.module_order
    ∧ (kfIgnoreSymlinks co cfg c).fn_clean_exts = c.fn_clean_exts
    ∧ (kfIgnoreSymlinks co cfg c).fn_clean_trim = c.fn_clean_trim
    ∧ (kfIgnoreSymlinks co cfg c).preserve_module_raw_data = c.preserve_module_raw_data
    ∧ (kfIgnoreSymlinks co cfg c).data_dump_file_write_raw = c.data_dump_file_write_raw
    ∧ (kfIgnoreSymlinks co cfg c).ai_summary = c.ai_summary
    ∧ (kfIgnoreSymlinks co cfg c).ai_summary_full = c.ai_summary_full
    ∧ (kfIgnoreSymlinks co cfg c).ai_provider = c.ai_provider
    ∧ (kfIgnoreSymlinks co cfg c).ai_model = c.ai_model
    ∧ (kfIgnoreSymlinks co cfg c).ai_custom_endpoint = c.ai_custom_endpoint
    ∧ (kfIgnoreSymlinks co cfg c).ai_custom_context_window = c.ai_custom_context_window
    ∧ (kfIgnoreSymlinks co cfg c).ai_prompt_short = c.ai_prompt_short
    ∧ (kfIgnoreSymlinks co cfg c).ai_prompt_full = c.ai_prompt_full
    ∧ (kfIgnoreSymlinks co cfg c).no_ai = c.no_ai
    ∧ (kfIgnoreSymlinks co cfg c).export_plot_formats = c.export_plot_formats
    ∧ (kfIgnoreSymlinks co cfg c).analysis_dir = c.analysis_dir
    ∧ (kfIgnoreSymlinks co cfg c).file_list = c.file_list
    ∧ (kfIgnoreSymlinks co cfg c).fn_ignore_files = c.fn_ignore_files
    ∧ (kfIgnoreSymlinks co cfg c).fn_ignore_dirs = c.fn_ignore_dirs
    ∧ (kfIgnoreSymlinks co cfg c).fn_ignore_paths = c.fn_ignore_paths
    ∧ (kfIgnoreSymlinks co cfg c).sample_names_ignore = c.sample_names_ignore
    ∧ (kfIgnoreSymlinks co cfg c).sample_names_only_include = c.sample_names_only_include
    ∧ (kfIgnoreSymlinks co cfg c).top_modules = c.top_modules
    ∧ (kfIgnoreSymlinks co cfg c).kwargs = c.kwargs := by
  by_cases h : cfg.ignore_symlinks.isSome = true <;> simp [kfIgnoreSymlinks, h]

@[simp] theorem kfZipDataDir_fields (co : Collaborators) (cfg : ClConfig) (c : Config) :
    (kfZipDataDir co cfg c).quiet = c.quiet
    ∧ (kfZipDataDir co cfg c).no_ansi = c.no_ansi
    ∧ (kfZipDataDir co cfg c).verbose = c.verbose
    ∧ (kfZipDataDir co cfg c).loaded_user_files = c.loaded_user_files
    ∧ (kfZipDataDir co cfg c).explicit_user_config_files = c.explicit_user_config_files
    ∧ (kfZipDataDir co cfg c).template = c.template
    ∧ (kfZipDataDir co cfg c).title = c.title
    ∧ (kfZipDataDir co cfg c).report_comment = c.report_comment
    ∧ (kfZipDataDir co cfg c).prepend_dirs = c.prepend_dirs
    ∧ (kfZipDataDir co cfg c).prepend_dirs_depth = c.prepend_dirs_depth
    ∧ (kfZipDataDir co cfg c).output_dir = c.output_dir
    ∧ (kfZipDataDir co cfg c).use_filename_as_sample_name = c.use_filename_as_sample_name
    ∧ (kfZipDataDir co cfg c).make_data_dir = c.make_data_dir
    ∧ (kfZipDataDir co cfg c).force = c.force
    ∧ (kfZipDataDir co cfg c).ignore_symlinks = c.ignore_symlinks
    ∧ (kfZipDataDir co cfg c).zip_data_dir = (if cfg.zip_data_dir.isSome then cfg.zip_data_dir.getD c.zip_data_dir else c.zip_data_dir)
    ∧ (kfZipDataDir co cfg c).data_format = c.data_format
    ∧ (kfZipDataDir co cfg c).export_plots = c.export_plots
    ∧ (kfZipDataDir co cfg c).make_report = c.make_report
    ∧ (kfZipDataDir co cfg c).plots_force_flat = c.plots_force_flat
    ∧ (kfZipDataDir co cfg c).plots_force_interactive = c.plots_force_interactive
    ∧ (kfZipDataDir co cfg c).strict = c.strict
    ∧ (kfZipDataDir co cfg c).lint = c.lint
    ∧ (kfZipDataDir co cfg c).development = c.development
    ∧ (kfZipDataDir co cfg c).make_pdf = c.make_pdf
    ∧ (kfZipDataDir co cfg c).simple_output = c.simple_output
    ∧ (kfZipDataDir co cfg c).filename = c.filename
    ∧ (kfZipDataDir co cfg c).megaqc_upload = c.megaqc_upload
    ∧ (kfZipDataDir co cfg c).fn_clean_sample_names = c.fn_clean_sample_names
    ∧ (kfZipDataDir co cfg c).sample_names_replace = c.sample_names_replace
    ∧ (kfZipDataDir co cfg c).sample_names_rename = c.sample_names_rename
    ∧ (kfZipDataDir co cfg c).show_hide_rules = c.show_hide_rules
    ∧ (kfZipDataDir co cfg c).run_modules = c.run_modules
    ∧ (kfZipDataDir co cfg c).exclude_modules = c.exclude_modules
    ∧ (kfZipDataDir co cfg c).require_logs = c.require_logs
    ∧ (kfZipDataDir co cfg c).profile_runtime = c.profile_runtime
    ∧ (kfZipDataDir co cfg c).profile_memory = c.profile_memory
    ∧ (kfZipDataDir co cfg c).no_version_check = c.no_version_check
    ∧ (kfZipDataDir co cfg c).custom_css_files = c.custom_css_files
    ∧ (kfZipDataDir co cfg c).module_order = c.module_order
    ∧ (kfZipDataDir co cfg c).fn_clean_exts = c.fn_clean_exts
    ∧ (kfZipDataDir co cfg c).fn_clean_trim = c.fn_clean_trim
    ∧ (kfZipDataDir co cfg c).preserve_module_raw_data = c.preserve_module_raw_data
    ∧ (kfZipDataDir co cfg c).data_dump_file_write_raw = c.data_dump_file_write_raw
    ∧ (kfZipDataDir co cfg c).ai_summary = c.ai_summary
    ∧ (kfZipDataDir co cfg c).ai_summary_full = c.ai_summary_full
    ∧ (kfZipDataDir co cfg c).ai_provider = c.ai_provider
    ∧ (kfZipDataDir co cfg c).ai_model = c.ai_model
    ∧ (kfZipDataDir co cfg c).ai_custom_endpoint = c.ai_custom_endpoint
    ∧ (kfZipDataDir co cfg c).ai_custom_context_window = c.ai_custom_context_window
    ∧ (kfZipDataDir co cfg c).ai_prompt_short = c.ai_prompt_short
    ∧ (kfZipDataDir co cfg c).ai_prompt_full = c.ai_prompt_full
    ∧ (kfZipDataDir co cfg c).no_ai = c.no_ai
    ∧ (kfZipDataDir co cfg c).export_plot_formats = c.export_plot_formats
    ∧ (kfZipDataDir co cfg c).analysis_dir = c.analysis_dir
    ∧ (kfZipDataDir co cfg c).file_list = c.file_list
    ∧ (kfZipDataDir co cfg c).fn_ignore_files = c.fn_ignore_files
    ∧ (kfZipDataDir co cfg c).fn_ignore_dirs = c.fn_ignore_dirs
    ∧ (kfZipDataDir co cfg c).fn_ignore_paths = c.fn_ignore_paths
    ∧ (kfZipDataDir co cfg c).sample_names_ignore = c.sample_names_ignore
    ∧ (kfZipDataDir co cfg c).sample_names_only_include = c.sample_names_only_include
    ∧ (kfZipDataDir co cfg c).top_modules = c.top_modules
    ∧ (kfZipDataDir co cfg c).kwargs = c.kwargs := by
  by_cases h : cfg.zip_data_dir.isSome = true <;> simp [kfZipDataDir, h]

@[simp] theorem kfDataFormat_fields (co : Collaborators) (cfg : ClConfig) (c : Config) :
    (kfDataFormat co cfg c).quiet = c.quiet
    ∧ (kfDataFormat co cfg c).no_ansi = c.no_ansi
    ∧ (kfDataFormat co cfg c).verbose = c.verbose
    ∧ (kfDataFormat co cfg c).loaded_user_files = c.loaded_user_files
    ∧ (kfDataFormat co cfg c).explicit_user_config_files = c.explicit_user_config_files
    ∧ (kfDataFormat co cfg c).template = c.template
    ∧ (kfDataFormat co cfg c).title = c.title
    ∧ (kfDataFormat co cfg c).report_comment = c.report_comment
    ∧ (kfDataFormat co cfg c).prepend_dirs = c.prepend_dirs
    ∧ (kfDataFormat co cfg c).prepend_dirs_depth = c.prepend_dirs_depth
    ∧ (kfDataFormat co cfg c).output_dir = c.output_dir
    ∧ (kfDataFormat co cfg c).use_filename_as_sample_name = c.use_filename_as_sample_name
    ∧ (kfDataFormat co cfg c).make_data_dir = c.make_data_dir
    ∧ (kfDataFormat co cfg c).force = c.force
    ∧ (kfDataFormat co cfg c).ignore_symlinks = c.ignore_symlinks
    ∧ (kfDataFormat co cfg c).zip_data_dir = c.zip_data_dir
    ∧ (kfDataFormat co cfg c).data_format = (if cfg.data_format.isSome then cfg.data_format.getD c.data_format else c.data_format)
    ∧ (kfDataFormat co cfg c).export_plots = c.export_plots
    ∧ (kfDataFormat co cfg c).make_report = c.make_report
    ∧ (kfDataFormat co cfg c).plots_force_flat = c.plots_force_flat
    ∧ (kfDataFormat co cfg c).plots_force_interactive = c.plots_force_interactive
    ∧ (kfDataFormat co cfg c).strict = c.strict
    ∧ (kfDataFormat co cfg c).lint = c.lint
    ∧ (kfDataFormat co cfg c).development = c.development
    ∧ (kfDataFormat co cfg c).make_pdf = c.make_pdf
    ∧ (kfDataFormat co cfg c).simple_output = c.simple_output
    ∧ (kfDataFormat co cfg c).filename = c.filename
    ∧ (kfDataFormat co cfg c).megaqc_upload = c.megaqc_upload
    ∧ (kfDataFormat co cfg c).fn_clean_sample_names = c.fn_clean_sample_names
    ∧ (kfDataFormat co cfg c).sample_names_replace = c.sample_names_replace
    ∧ (kfDataFormat co cfg c).sample_names_rename = c.sample_names_rename
    ∧ (kfDataFormat co cfg c).show_hide_rules = c.show_hide_rules
    ∧ (kfDataFormat co cfg c).run_modules = c.run_modules
    ∧ (kfDataFormat co cfg c).exclude_modules = c.exclude_modules
    ∧ (kfDataFormat co cfg c).require_logs = c.require_logs
    ∧ (kfDataFormat co cfg c).profile_runtime = c.profile_runtime
    ∧ (kfDataFormat co cfg c).profile_memory = c.profile_memory
    ∧ (kfDataFormat co cfg c).no_version_check = c.no_version_check
    ∧ (kfDataFormat co cfg c).custom_css_files = c.custom_css_files
    ∧ (kfDataFormat co cfg c).module_order = c.module_order
    ∧ (kfDataFormat co cfg c).fn_clean_exts = c.fn_clean_exts
    ∧ (kfDataFormat co cfg c).fn_clean_trim = c.fn_clean_trim
    ∧ (kfDataFormat co cfg c).preserve_module_raw_data = c.preserve_module_raw_data
    ∧ (kfDataFormat co cfg c).data_dump_file_write_raw = c.data_dump_file_write_raw
    ∧ (kfDataFormat co cfg c).ai_summary = c.ai_summary
    ∧ (kfDataFormat co cfg c).ai_summary_full = c.ai_summary_full
    ∧ (kfDataFormat co cfg c).ai_provider = c.ai_provider
    ∧ (kfDataFormat co cfg c).ai_model = c.ai_model
    ∧ (kfDataFormat co cfg c).ai_custom_endpoint = c.ai_custom_endpoint
    ∧ (kfDataFormat co cfg c).ai_custom_context_window = c.ai_custom_context_window
    ∧ (kfDataFormat co cfg c).ai_prompt_short = c.ai_prompt_short
    ∧ (kfDataFormat co cfg c).ai_prompt_full = c.ai_prompt_full
    ∧ (kfDataFormat co cfg c).no_ai = c.no_ai
    ∧ (kfDataFormat co cfg c).export_plot_formats = c.export_plot_formats
    ∧ (kfDataFormat co cfg c).analysis_dir = c.analysis_dir
    ∧ (kfDataFormat co cfg c).file_list = c.file_list
    ∧ (kfDataFormat co cfg c).fn_ignore_files = c.fn_ignore_files
    ∧ (kfDataFormat co cfg c).fn_ignore_dirs = c.fn_ignore_dirs
    ∧ (kfDataFormat co cfg c).fn_ignore_paths = c.fn_ignore_paths
    ∧ (kfDataFormat co cfg c).sample_names_ignore = c.sample_names_ignore
    ∧ (kfDataFormat co cfg c).sample_names_only_include = c.sample_names_only_include
    ∧ (kfDataFormat co cfg c).top_modules = c.top_modules
    ∧ (kfDataFormat co cfg c).kwargs = c.kwargs := by
  by_cases h : cfg.data_format.isSome = true <;> simp [kfDataFormat, h]

@[simp] theorem kfExportPlots_fields (co : Collaborators) (cfg : ClConfig) (c : Config) :
    (kfExportPlots co cfg c).quiet = c.quiet
    ∧ (kfExportPlots co cfg c).no_ansi = c.no_ansi
    ∧ (kfExportPlots co cfg c).verbose = c.verbose
    ∧ (kfExportPlots co cfg c).loaded_user_files = c.loaded_user_files
    ∧ (kfExportPlots co cfg c).explicit_user_config_files = c.explicit_user_config_files
    ∧ (kfExportPlots co cfg c).template = c.template
    ∧ (kfExportPlots co cfg c).title = c.title
    ∧ (kfExportPlots co cfg c).report_comment = c.report_comment
    ∧ (kfExportPlots co cfg c).prepend_dirs = c.prepend_dirs
    ∧ (kfExportPlots co cfg c).prepend_dirs_depth = c.prepend_dirs_depth
    ∧ (kfExportPlots co cfg c).output_dir = c.output_dir
    ∧ (kfExportPlots co cfg c).use_filename_as_sample_name = c.use_filename_as_sample_name
    ∧ (kfExportPlots co cfg c).make_data_dir = c.make_data_dir
    ∧ (kfExportPlots co cfg c).force = c.force
    ∧ (kfExportPlots co cfg c).ignore_symlinks = c.ignore_symlinks
    ∧ (kfExportPlots co cfg c).zip_data_dir = c.zip_data_dir
    ∧ (kfExportPlots co cfg c).data_format = c.data_format
    ∧ (kfExportPlots co cfg c).export_plots = (if cfg.export_plots.isSome then cfg.export_plots.getD c.export_plots else c.export_plots)
    ∧ (kfExportPlots co cfg c).make_report = c.make_report
    ∧ (kfExportPlots co cfg c).plots_force_flat = c.plots_force_flat
    ∧ (kfExportPlots co cfg c).plots_force_interactive = c.plots_force_interactive
    ∧ (kfExportPlots co cfg c).strict = c.strict
    ∧ (kfExportPlots co cfg c).lint = c.lint
    ∧ (kfExportPlots co cfg c).development = c.development
    ∧ (kfExportPlots co cfg c).make_pdf = c.make_pdf
    ∧ (kfExportPlots co cfg c).simple_output = c.simple_output
    ∧ (kfExportPlots co cfg c).filename = c.filename
    ∧ (kfExportPlots co cfg c).megaqc_upload = c.megaqc_upload
    ∧ (kfExportPlots co cfg c).fn_clean_sample_names = c.fn_clean_sample_names
    ∧ (kfExportPlots co cfg c).sample_names_replace = c.sample_names_replace
    ∧ (kfExportPlots co cfg c).sample_names_rename = c.sample_names_rename
    ∧ (kfExportPlots co cfg c).show_hide_rules = c.show_hide_rules
    ∧ (kfExportPlots co cfg c).run_modules = c.run_modules
    ∧ (kfExportPlots co cfg c).exclude_modules = c.exclude_modules
    ∧ (kfExportPlots co cfg c).require_logs = c.require_logs
    ∧ (kfExportPlots co cfg c).profile_runtime = c.profile_runtime
    ∧ (kfExportPlots co cfg c).profile_memory = c.profile_memory
    ∧ (kfExportPlots co cfg c).no_version_check = c.no_version_check
    ∧ (kfExportPlots co cfg c).custom_css_files = c.custom_css_files
    ∧ (kfExportPlots co cfg c).module_order = c.module_order
    ∧ (kfExportPlots co cfg c).fn_clean_exts = c.fn_clean_exts
    ∧ (kfExportPlots co cfg c).fn_clean_trim = c.fn_clean_trim
    ∧ (kfExportPlots co cfg c).preserve_module_raw_data = c.preserve_module_raw_data
    ∧ (kfExportPlots co cfg c).data_dump_file_write_raw = c.data_dump_file_write_raw
    ∧ (kfExportPlots co cfg c).ai_summary = c.ai_summary
    ∧ (kfExportPlots co cfg c).ai_summary_full = c.ai_summary_full
    ∧ (kfExportPlots co cfg c).ai_provider = c.ai_provider
    ∧ (kfExportPlots co cfg c).ai_model = c.ai_model
    ∧ (kfExportPlots co cfg c).ai_custom_endpoint = c.ai_custom_endpoint
    ∧ (kfExportPlots co cfg c).ai_custom_context_window = c.ai_custom_context_window
    ∧ (kfExportPlots co cfg c).ai_prompt_short = c.ai_prompt_short
    ∧ (kfExportPlots co cfg c).ai_prompt_full = c.ai_prompt_full
    ∧ (kfExportPlots co cfg c).no_ai = c.no_ai
    ∧ (kfExportPlots co cfg c).export_plot_formats = c.export_plot_formats
    ∧ (kfExportPlots co cfg c).analysis_dir = c.analysis_dir
    ∧ (kfExportPlots co cfg c).file_list = c.file_list
    ∧ (kfExportPlots co cfg c).fn_ignore_files = c.fn_ignore_files
    ∧ (kfExportPlots co cfg c).fn_ignore_dirs = c.fn_ignore_dirs
    ∧ (kfExportPlots co cfg c).fn_ignore_paths = c.fn_ignore_paths
    ∧ (kfExportPlots co cfg c).sample_names_ignore = c.sample_names_ignore
    ∧ (kfExportPlots co cfg c).sample_names_only_include = c.sample_names_only_include
    ∧ (kfExportPlots co cfg c).top_modules = c.top_modules
    ∧ (kfExportPlots co cfg c).kwargs = c.kwargs := by
  by_cases h : cfg.export_plots.isSome = true <;> simp [kfExportPlots, h]

@[simp] theorem kfMakeReport_fields (co : Collaborators) (cfg : ClConfig) (c : Config) :
    (kfMakeReport co cfg c).quiet = c.quiet
    ∧ (kfMakeReport co cfg c).no_ansi = c.no_ansi
    ∧ (kfMakeReport co cfg c).verbose = c.verbose
    ∧ (kfMakeReport co cfg c).loaded_user_files = c.loaded_user_files
    ∧ (kfMakeReport co cfg c).explicit_user_config_files = c.explicit_user_config_files
    ∧ (kfMakeReport co cfg c).template = c.template
    ∧ (kfMakeReport co cfg c).title = c.title
    ∧ (kfMakeReport co cfg c).report_comment = c.report_comment
    ∧ (kfMakeReport co cfg c).prepend_dirs = c.prepend_dirs
    ∧ (kfMakeReport co cfg c).prepend_dirs_depth = c.prepend_dirs_depth
    ∧ (kfMakeReport co cfg c).output_dir = c.output_dir
    ∧ (kfMakeReport co cfg c).use_filename_as_sample_name = c.use_filename_as_sample_name
    ∧ (kfMakeReport co cfg c).make_data_dir = c.make_data_dir
    ∧ (kfMakeReport co cfg c).force = c.force
    ∧ (kfMakeReport co cfg c).ignore_symlinks = c.ignore_symlinks
    ∧ (kfMakeReport co cfg c).zip_data_dir = c.zip_data_dir
    ∧ (kfMakeReport co cfg c).data_format = c.data_format
    ∧ (kfMakeReport co cfg c).export_plots = c.export_plots
    ∧ (kfMakeReport co cfg c).make_report = (if cfg.make_report.isSome then cfg.make_report.getD c.make_report else c.make_report)
    ∧ (kfMakeReport co cfg c).plots_force_flat = c.plots_force_flat
    ∧ (kfMakeReport co cfg c).plots_force_interactive = c.plots_force_interactive
    ∧ (kfMakeReport co cfg c).strict = c.strict
    ∧ (kfMakeReport co cfg c).lint = c.lint
    ∧ (kfMakeReport co cfg c).development = c.development
    ∧ (kfMakeReport co cfg c).make_pdf = c.make_pdf
    ∧ (kfMakeReport co cfg c).simple_output = c.simple_output
    ∧ (kfMakeReport co cfg c).filename = c.filename
    ∧ (kfMakeReport co cfg c).megaqc_upload = c.megaqc_upload
    ∧ (kfMakeReport co cfg c).fn_clean_sample_names = c.fn_clean_sample_names
    ∧ (kfMakeReport co cfg c).sample_names_replace = c.sample_names_replace
    ∧ (kfMakeReport co cfg c).sample_names_rename = c.sample_names_rename
    ∧ (kfMakeReport co cfg c).show_hide_rules = c.show_hide_rules
    ∧ (kfMakeReport co cfg c).run_modules = c.run_modules
    ∧ (kfMakeReport co cfg c).exclude_modules = c.exclude_modules
    ∧ (kfMakeReport co cfg c).require_logs = c.require_logs
    ∧ (kfMakeReport co cfg c).profile_runtime = c.profile_runtime
    ∧ (kfMakeReport co cfg c).profile_memory = c.profile_memory
    ∧ (kfMakeReport co cfg c).no_version_check = c.no_version_check
    ∧ (kfMakeReport co cfg c).custom_css_files = c.custom_css_files
    ∧ (kfMakeReport co cfg c).module_order = c.module_order
    ∧ (kfMakeReport co cfg c).fn_clean_exts = c.fn_clean_exts
    ∧ (kfMakeReport co cfg c).fn_clean_trim = c.fn_clean_trim
    ∧ (kfMakeReport co cfg c).preserve_module_raw_data = c.preserve_module_raw_data
    ∧ (kfMakeReport co cfg c).data_dump_file_write_raw = c.data_dump_file_write_raw
    ∧ (kfMakeReport co cfg c).ai_summary = c.ai_summary
    ∧ (kfMakeReport co cfg c).ai_summary_full = c.ai_summary_full
    ∧ (kfMakeReport co cfg c).ai_provider = c.ai_provider
    ∧ (kfMakeReport co cfg c).ai_model = c.ai_model
    ∧ (kfMakeReport co cfg c).ai_custom_endpoint = c.ai_custom_endpoint
    ∧ (kfMakeReport co cfg c).ai_custom_context_window = c.ai_custom_context_window
    ∧ (kfMakeReport co cfg c).ai_prompt_short = c.ai_prompt_short
    ∧ (kfMakeReport co cfg c).ai_prompt_full = c.ai_prompt_full
    ∧ (kfMakeReport co cfg c).no_ai = c.no_ai
    ∧ (kfMakeReport co cfg c).export_plot_formats = c.export_plot_formats
    ∧ (kfMakeReport co cfg c).analysis_dir = c.analysis_dir
    ∧ (kfMakeReport co cfg c).file_list = c.file_list
    ∧ (kfMakeReport co cfg c).fn_ignore_files = c.fn_ignore_files
    ∧ (kfMakeReport co cfg c).fn_ignore_dirs = c.fn_ignore_dirs
    ∧ (kfMakeReport co cfg c).fn_ignore_paths = c.fn_ignore_paths
    ∧ (kfMakeReport co cfg c).sample_names_ignore = c.sample_names_ignore
    ∧ (kfMakeReport co cfg c).sample_names_only_include = c.sample_names_only_include
    ∧ (kfMakeReport co cfg c).top_modules = c.top_modules
    ∧ (kfMakeReport co cfg c).kwargs = c.kwargs := by
  by_cases h : cfg.make_report.isSome = true <;> simp [kfMakeReport, h]

@[simp] theorem kfPlotsForceFlat_fields (co : Collaborators) (cfg : ClConfig) (c : Config) :
    (kfPlotsForceFlat co cfg c).quiet = c.quiet
    ∧ (kfPlotsForceFlat co cfg c).no_ansi = c.no_ansi
    ∧ (kfPlotsForceFlat co cfg c).verbose = c.verbose
    ∧ (kfPlotsForceFlat co cfg c).loaded_user_files = c.loaded_user_files
    ∧ (kfPlotsForceFlat co cfg c).explicit_user_config_files = c.explicit_user_config_files
    ∧ (kfPlotsForceFlat co cfg c).template = c.template
    ∧ (kfPlotsForceFlat co cfg c).title = c.title
    ∧ (kfPlotsForceFlat co cfg c).report_comment = c.report_comment
    ∧ (kfPlotsForceFlat co cfg c).prepend_dirs = c.prepend_dirs
    ∧ (kfPlotsForceFlat co cfg c).prepend_dirs_depth = c.prepend_dirs_depth
    ∧ (kfPlotsForceFlat co cfg c).output_dir = c.output_dir
    ∧ (kfPlotsForceFlat co cfg c).use_filename_as_sample_name = c.use_filename_as_sample_name
    ∧ (kfPlotsForceFlat co cfg c).make_data_dir = c.make_data_dir
    ∧ (kfPlotsForceFlat co cfg c).force = c.force
    ∧ (kfPlotsForceFlat co cfg c).ignore_symlinks = c.ignore_symlinks
    ∧ (kfPlotsForceFlat co cfg c).zip_data_dir = c.zip_data_dir
    ∧ (kfPlotsForceFlat co cfg c).data_format = c.data_format
    ∧ (kfPlotsForceFlat co cfg c).export_plots = c.export_plots
    ∧ (kfPlotsForceFlat co cfg c).make_report = c.make_report
    ∧ (kfPlotsForceFlat co cfg c).plots_force_flat = (if cfg.plots_force_flat.isSome then cfg.plots_force_flat.getD c.plots_force_flat else c.plots_force_flat)
    ∧ (kfPlotsForceFlat co cfg c).plots_force_interactive = c.plots_force_interactive
    ∧ (kfPlotsForceFlat co cfg c).strict = c.strict
    ∧ (kfPlotsForceFlat co cfg c).lint = c.lint
    ∧ (kfPlotsForceFlat co cfg c).development = c.development
    ∧ (kfPlotsForceFlat co cfg c).make_pdf = c.make_pdf
    ∧ (kfPlotsForceFlat co cfg c).simple_output = c.simple_output
    ∧ (kfPlotsForceFlat co cfg c).filename = c.filename
    ∧ (kfPlotsForceFlat co cfg c).megaqc_upload = c.megaqc_upload
    ∧ (kfPlotsForceFlat co cfg c).fn_clean_sample_names = c.fn_clean_sample_names
    ∧ (kfPlotsForceFlat co cfg c).sample_names_replace = c.sample_names_replace
    ∧ (kfPlotsForceFlat co cfg c).sample_names_rename = c.sample_names_rename
    ∧ (kfPlotsForceFlat co cfg c).show_hide_rules = c.show_hide_rules
    ∧ (kfPlotsForceFlat co cfg c).run_modules = c.run_modules
    ∧ (kfPlotsForceFlat co cfg c).exclude_modules = c.exclude_modules
    ∧ (kfPlotsForceFlat co cfg c).require_logs = c.require_logs
    ∧ (kfPlotsForceFlat co cfg c).profile_runtime = c.profile_runtime
    ∧ (kfPlotsForceFlat co cfg c).profile_memory = c.profile_memory
    ∧ (kfPlotsForceFlat co cfg c).no_version_check = c.no_version_check
    ∧ (kfPlotsForceFlat co cfg c).custom_css_files = c.custom_css_files
    ∧ (kfPlotsForceFlat co cfg c).module_order = c.module_order
    ∧ (kfPlotsForceFlat co cfg c).fn_clean_exts = c.fn_clean_exts
    ∧ (kfPlotsForceFlat co cfg c).fn_clean_trim = c.fn_clean_trim
    ∧ (kfPlotsForceFlat co cfg c).preserve_module_raw_data = c.preserve_module_raw_data
    ∧ (kfPlotsForceFlat co cfg c).data_dump_file_write_raw = c.data_dump_file_write_raw
    ∧ (kfPlotsForceFlat co cfg c).ai_summary = c.ai_summary
    ∧ (kfPlotsForceFlat co cfg c).ai_summary_full = c.ai_summary_full
    ∧ (kfPlotsForceFlat co cfg c).ai_provider = c.ai_provider
    ∧ (kfPlotsForceFlat co cfg c).ai_model = c.ai_model
    ∧ (kfPlotsForceFlat co cfg c).ai_custom_endpoint = c.ai_custom_endpoint
    ∧ (kfPlotsForceFlat co cfg c).ai_custom_context_window = c.ai_custom_context_window
    ∧ (kfPlotsForceFlat co cfg c).ai_prompt_short = c.ai_prompt_short
    ∧ (kfPlotsForceFlat co cfg c).ai_prompt_full = c.ai_prompt_full
    ∧ (kfPlotsForceFlat co cfg c).no_ai = c.no_ai
    ∧ (kfPlotsForceFlat co cfg c).export_plot_formats = c.export_plot_formats
    ∧ (kfPlotsForceFlat co cfg c).analysis_dir = c.analysis_dir
    ∧ (kfPlotsForceFlat co cfg c).file_list = c.file_list
    ∧ (kfPlotsForceFlat co cfg c).fn_ignore_files = c.fn_ignore_files
    ∧ (kfPlotsForceFlat co cfg c).fn_ignore_dirs = c.fn_ignore_dirs
    ∧ (kfPlotsForceFlat co cfg c).fn_ignore_paths = c.fn_ignore_paths
    ∧ (kfPlotsForceFlat co cfg c).sample_names_ignore = c.sample_names_ignore
    ∧ (kfPlotsForceFlat co cfg c).sample_names_only_include = c.sample_names_only_include
    ∧ (kfPlotsForceFlat co cfg c).top_modules = c.top_modules
    ∧ (kfPlotsForceFlat co cfg c).kwargs = c.kwargs := by
  by_cases h : cfg.plots_force_flat.isSome = true <;> simp [kfPlotsForceFlat, h]

@[simp] theorem kfPlotsForceInteractive_fields (co : Collaborators) (cfg : ClConfig) (c : Config) :
    (kfPlotsForceInteractive co cfg c).quiet = c.quiet
    ∧ (kfPlotsForceInteractive co cfg c).no_ansi = c.no_ansi
    ∧ (kfPlotsForceInteractive co cfg c).verbose = c.verbose
    ∧ (kfPlotsForceInteractive co cfg c).loaded_user_files = c.loaded_user_files
    ∧ (kfPlotsForceInteractive co cfg c).explicit_user_config_files = c.explicit_user_config_files
    ∧ (kfPlotsForceInteractive co cfg c).template = c.template
    ∧ (kfPlotsForceInteractive co cfg c).title = c.title
    ∧ (kfPlotsForceInteractive co cfg c).report_comment = c.report_comment
    ∧ (kfPlotsForceInteractive co cfg c).prepend_dirs = c.prepend_dirs
    ∧ (kfPlotsForceInteractive co cfg c).prepend_dirs_depth = c.prepend_dirs_depth
    ∧ (kfPlotsForceInteractive co cfg c).output_dir = c.output_dir
    ∧ (kfPlotsForceInteractive co cfg c).use_filename_as_sample_name = c.use_filename_as_sample_name
    ∧ (kfPlotsForceInteractive co cfg c).make_data_dir = c.make_data_dir
    ∧ (kfPlotsForceInteractive co cfg c).force = c.force
    ∧ (kfPlotsForceInteractive co cfg c).ignore_symlinks = c.ignore_symlinks
    ∧ (kfPlotsForceInteractive co cfg c).zip_data_dir = c.zip_data_dir
    ∧ (kfPlotsForceInteractive co cfg c).data_format = c.data_format
    ∧ (kfPlotsForceInteractive co cfg c).export_plots = c.export_plots
    ∧ (kfPlotsForceInteractive co cfg c).make_report = c.make_report
    ∧ (kfPlotsForceInteractive co cfg c).plots_force_flat = c.plots_force_flat
    ∧ (kfPlotsForceInteractive co cfg c).plots_force_interactive = (if cfg.plots_force_interactive.isSome then cfg.plots_force_interactive.getD c.plots_force_interactive else c.plots_force_interactive)
    ∧ (kfPlotsForceInteractive co cfg c).strict = c.strict
    ∧ (kfPlotsForceInteractive co cfg c).lint = c.lint
    ∧ (kfPlotsForceInteractive co cfg c).development = c.development
    ∧ (kfPlotsForceInteractive co cfg c).make_pdf = c.make_pdf
    ∧ (kfPlotsForceInteractive co cfg c).simple_output = c.simple_output
    ∧ (kfPlotsForceInteractive co cfg c).filename = c.filename
    ∧ (kfPlotsForceInteractive co cfg c).megaqc_upload = c.megaqc_upload
    ∧ (kfPlotsForceInteractive co cfg c).fn_clean_sample_names = c.fn_clean_sample_names
    ∧ (kfPlotsForceInteractive co cfg c).sample_names_replace = c.sample_names_replace
    ∧ (kfPlotsForceInteractive co cfg c).sample_names_rename = c.sample_names_rename
    ∧ (kfPlotsForceInteractive co cfg c).show_hide_rules = c.show_hide_rules
    ∧ (kfPlotsForceInteractive co cfg c).run_modules = c.run_modules
    ∧ (kfPlotsForceInteractive co cfg c).exclude_modules = c.exclude_modules
    ∧ (kfPlotsForceInteractive co cfg c).require_logs = c.require_logs
    ∧ (kfPlotsForceInteractive co cfg c).profile_runtime = c.profile_runtime
    ∧ (kfPlotsForceInteractive co cfg c).profile_memory = c.profile_memory
    ∧ (kfPlotsForceInteractive co cfg c).no_version_check = c.no_version_check
    ∧ (kfPlotsForceInteractive co cfg c).custom_css_files = c.custom_css_files
    ∧ (kfPlotsForceInteractive co cfg c).module_order = c.module_order
    ∧ (kfPlotsForceInteractive co cfg c).fn_clean_exts = c.fn_clean_exts
    ∧ (kfPlotsForceInteractive co cfg c).fn_clean_trim = c.fn_clean_trim
    ∧ (kfPlotsForceInteractive co cfg c).preserve_module_raw_data = c.preserve_module_raw_data
    ∧ (kfPlotsForceInteractive co cfg c).data_dump_file_write_raw = c.data_dump_file_write_raw
    ∧ (kfPlotsForceInteractive co cfg c).ai_summary = c.ai_summary
    ∧ (kfPlotsForceInteractive co cfg c).ai_summary_full = c.ai_summary_full
    ∧ (kfPlotsForceInteractive co cfg c).ai_provider = c.ai_provider
    ∧ (kfPlotsForceInteractive co cfg c).ai_model = c.ai_model
    ∧ (kfPlotsForceInteractive co cfg c).ai_custom_endpoint = c.ai_custom_endpoint
    ∧ (kfPlotsForceInteractive co cfg c).ai_custom_context_window = c.ai_custom_context_window
    ∧ (kfPlotsForceInteractive co cfg c).ai_prompt_short = c.ai_prompt_short
    ∧ (kfPlotsForceInteractive co cfg c).ai_prompt_full = c.ai_prompt_full
    ∧ (kfPlotsForceInteractive co cfg c).no_ai = c.no_ai
    ∧ (kfPlotsForceInteractive co cfg c).export_plot_formats = c.export_plot_formats
    ∧ (kfPlotsForceInteractive co cfg c).analysis_dir = c.analysis_dir
    ∧ (kfPlotsForceInteractive co cfg c).file_list = c.file_list
    ∧ (kfPlotsForceInteractive co cfg c).fn_ignore_files = c.fn_ignore_files
    ∧ (kfPlotsForceInteractive co cfg c).fn_ignore_dirs = c.fn_ignore_dirs
    ∧ (kfPlotsForceInteractive co cfg c).fn_ignore_paths = c.fn_ignore_paths
    ∧ (kfPlotsForceInteractive co cfg c).sample_names_ignore = c.sample_names_ignore
    ∧ (kfPlotsForceInteractive co cfg c).sample_names_only_include = c.sample_names_only_include
    ∧ (kfPlotsForceInteractive co cfg c).top_modules = c.top_modules
    ∧ (kfPlotsForceInteractive co cfg c).kwargs = c.kwargs := by
  by_cases h : cfg.plots_force_interactive.isSome = true <;> simp [kfPlotsForceInteractive, h]

@[simp] theorem kfStrict_fields (co : Collaborators) (cfg : ClConfig) (c : Config) :
    (kfStrict co cfg c).quiet = c.quiet
    ∧ (kfStrict co cfg c).no_ansi = c.no_ansi
    ∧ (kfStrict co cfg c).verbose = c.verbose
    ∧ (kfStrict co cfg c).loaded_user_files = c.loaded_user_files
    ∧ (kfStrict co cfg c).explicit_user_config_files = c.explicit_user_config_files
    ∧ (kfStrict co cfg c).template = c.template
    ∧ (kfStrict co cfg c).title = c.title
    ∧ (kfStrict co cfg c).report_comment = c.report_comment
    ∧ (kfStrict co cfg c).prepend_dirs = c.prepend_dirs
    ∧ (kfStrict co cfg c).prepend_dirs_depth = c.prepend_dirs_depth
    ∧ (kfStrict co cfg c).output_dir = c.output_dir
    ∧ (kfStrict co cfg c).use_filename_as_sample_name = c.use_filename_as_sample_name
    ∧ (kfStrict co cfg c).make_data_dir = c.make_data_dir
    ∧ (kfStrict co cfg c).force = c.force
    ∧ (kfStrict co cfg c).ignore_symlinks = c.ignore_symlinks
    ∧ (kfStrict co cfg c).zip_data_dir = c.zip_data_dir
    ∧ (kfStrict co cfg c).data_format = c.data_format
    ∧ (kfStrict co cfg c).export_plots = c.export_plots
    ∧ (kfStrict co cfg c).make_report = c.make_report
    ∧ (kfStrict co cfg c).plots_force_flat = c.plots_force_flat
    ∧ (kfStrict co cfg c).plots_force_interactive = c.plots_force_interactive
    ∧ (kfStrict co cfg c).strict = (if cfg.strict.isSome then cfg.strict.getD c.strict else c.strict)
    ∧ (kfStrict co cfg c).lint = (if cfg.strict.isSome then cfg.strict.getD c.lint else c.lint)
    ∧ (kfStrict co cfg c).development = c.development
    ∧ (kfStrict co cfg c).make_pdf = c.make_pdf
    ∧ (kfStrict co cfg c).simple_output = c.simple_output
    ∧ (kfStrict co cfg c).filename = c.filename
    ∧ (kfStrict co cfg c).megaqc_upload = c.megaqc_upload
    ∧ (kfStrict co cfg c).fn_clean_sample_names = c.fn_clean_sample_names
    ∧ (kfStrict co cfg c).sample_names_replace = c.sample_names_replace
    ∧ (kfStrict co cfg c).sample_names_rename = c.sample_names_rename
    ∧ (kfStrict co cfg c).show_hide_rules = c.show_hide_rules
    ∧ (kfStrict co cfg c).run_modules = c.run_modules
    ∧ (kfStrict co cfg c).exclude_modules = c.exclude_modules
    ∧ (kfStrict co cfg c).require_logs = c.require_logs
    ∧ (kfStrict co cfg c).profile_runtime = c.profile_runtime
    ∧ (kfStrict co cfg c).profile_memory = c.profile_memory
    ∧ (kfStrict co cfg c).no_version_check = c.no_version_check
    ∧ (kfStrict co cfg c).custom_css_files = c.custom_css_files
    ∧ (kfStrict co cfg c).module_order = c.module_order
    ∧ (kfStrict co cfg c).fn_clean_exts = c.fn_clean_exts
    ∧ (kfStrict co cfg c).fn_clean_trim = c.fn_clean_trim
    ∧ (kfStrict co cfg c).preserve_module_raw_data = c.preserve_module_raw_data
    ∧ (kfStrict co cfg c).data_dump_file_write_raw = c.data_dump_file_write_raw
    ∧ (kfStrict co cfg c).ai_summary = c.ai_summary
    ∧ (kfStrict co cfg c).ai_summary_full = c.ai_summary_full
    ∧ (kfStrict co cfg c).ai_provider = c.ai_provider
    ∧ (kfStrict co cfg c).ai_model = c.ai_model
    ∧ (kfStrict co cfg c).ai_custom_endpoint = c.ai_custom_endpoint
    ∧ (kfStrict co cfg c).ai_custom_context_window = c.ai_custom_context_window
    ∧ (kfStrict co cfg c).ai_prompt_short = c.ai_prompt_short
    ∧ (kfStrict co cfg c).ai_prompt_full = c.ai_prompt_full
    ∧ (kfStrict co cfg c).no_ai = c.no_ai
    ∧ (kfStrict co cfg c).export_plot_formats = c.export_plot_formats
    ∧ (kfStrict co cfg c).analysis_dir = c.analysis_dir
    ∧ (kfStrict co cfg c).file_list = c.file_list
    ∧ (kfStrict co cfg c).fn_ignore_files = c.fn_ignore_files
    ∧ (kfStrict co cfg c).fn_ignore_dirs = c.fn_ignore_dirs
    ∧ (kfStrict co cfg c).fn_ignore_paths = c.fn_ignore_paths
    ∧ (kfStrict co cfg c).sample_names_ignore = c.sample_names_ignore
    ∧ (kfStrict co cfg c).sample_names_only_include = c.sample_names_only_include
    ∧ (kfStrict co cfg c).top_modules = c.top_modules
    ∧ (kfStrict co cfg c).kwargs = c.kwargs := by
  by_cases h : cfg.strict.isSome = true <;> simp [kfStrict, h]

@[simp] theorem kfDevelopment_fields (co : Collaborators) (cfg : ClConfig) (c : Config) :
    (kfDevelopment co cfg c).quiet = c.quiet
    ∧ (kfDevelopment co cfg c).no_ansi = c.no_ansi
    ∧ (kfDevelopment co cfg c).verbose = c.verbose
    ∧ (kfDevelopment co cfg c).loaded_user_files = c.loaded_user_files
    ∧ (kfDevelopment co cfg c).explicit_user_config_files = c.explicit_user_config_files
    ∧ (kfDevelopment co cfg c).template = c.template
    ∧ (kfDevelopment co cfg c).title = c.title
    ∧ (kfDevelopment co cfg c).report_comment = c.report_comment
    ∧ (kfDevelopment co cfg c).prepend_dirs = c.prepend_dirs
    ∧ (kfDevelopment co cfg c).prepend_dirs_depth = c.prepend_dirs_depth
    ∧ (kfDevelopment co cfg c).output_dir = c.output_dir
    ∧ (kfDevelopment co cfg c).use_filename_as_sample_name = c.use_filename_as_sample_name
    ∧ (kfDevelopment co cfg c).make_data_dir = c.make_data_dir
    ∧ (kfDevelopment co cfg c).force = c.force
    ∧ (kfDevelopment co cfg c).ignore_symlinks = c.ignore_symlinks
    ∧ (kfDevelopment co cfg c).zip_data_dir = c.zip_data_dir
    ∧ (kfDevelopment co cfg c).data_format = c.data_format
    ∧ (kfDevelopment co cfg c).export_plots = c.export_plots
    ∧ (kfDevelopment co cfg c).make_report = c.make_report
    ∧ (kfDevelopment co cfg c).plots_force_flat = c.plots_force_flat
    ∧ (kfDevelopment co cfg c).plots_force_interactive = c.plots_force_interactive
    ∧ (kfDevelopment co cfg c).strict = c.strict
    ∧ (kfDevelopment co cfg c).lint = c.lint
    ∧ (kfDevelopment co cfg c).development = (if cfg.development.isSome then cfg.development.getD c.development else c.development)
    ∧ (kfDevelopment co cfg c).make_pdf = c.make_pdf
    ∧ (kfDevelopment co cfg c).simple_output = c.simple_output
    ∧ (kfDevelopment co cfg c).filename = c.filename
    ∧ (kfDevelopment co cfg c).megaqc_upload = c.megaqc_upload
    ∧ (kfDevelopment co cfg c).fn_clean_sample_names = c.fn_clean_sample_names
    ∧ (kfDevelopment co cfg c).sample_names_replace = c.sample_names_replace
    ∧ (kfDevelopment co cfg c).sample_names_rename = c.sample_names_rename
    ∧ (kfDevelopment co cfg c).show_hide_rules = c.show_hide_rules
    ∧ (kfDevelopment co cfg c).run_modules = c.run_modules
    ∧ (kfDevelopment co cfg c).exclude_modules = c.exclude_modules
    ∧ (kfDevelopment co cfg c).require_logs = c.require_logs
    ∧ (kfDevelopment co cfg c).profile_runtime = c.profile_runtime
    ∧ (kfDevelopment co cfg c).profile_memory = c.profile_memory
    ∧ (kfDevelopment co cfg c).no_version_check = c.no_version_check
    ∧ (kfDevelopment co cfg c).custom_css_files = c.custom_css_files
    ∧ (kfDevelopment co cfg c).module_order = c.module_order
    ∧ (kfDevelopment co cfg c).fn_clean_exts = c.fn_clean_exts
    ∧ (kfDevelopment co cfg c).fn_clean_trim = c.fn_clean_trim
    ∧ (kfDevelopment co cfg c).preserve_module_raw_data = c.preserve_module_raw_data
    ∧ (kfDevelopment co cfg c).data_dump_file_write_raw = c.data_dump_file_write_raw
    ∧ (kfDevelopment co cfg c).ai_summary = c.ai_summary
    ∧ (kfDevelopment co cfg c).ai_summary_full = c.ai_summary_full
    ∧ (kfDevelopment co cfg c).ai_provider = c.ai_provider
    ∧ (kfDevelopment co cfg c).ai_model = c.ai_model
    ∧ (kfDevelopment co cfg c).ai_custom_endpoint = c.ai_custom_endpoint
    ∧ (kfDevelopment co cfg c).ai_custom_context_window = c.ai_custom_context_window
    ∧ (kfDevelopment co cfg c).ai_prompt_short = c.ai_prompt_short
    ∧ (kfDevelopment co cfg c).ai_prompt_full = c.ai_prompt_full
    ∧ (kfDevelopment co cfg c).no_ai = c.no_ai
    ∧ (kfDevelopment co cfg c).export_plot_formats = c.export_plot_formats
    ∧ (kfDevelopment co cfg c).analysis_dir = c.analysis_dir
    ∧ (kfDevelopment co cfg c).file_list = c.file_list
    ∧ (kfDevelopment co cfg c).fn_ignore_files = c.fn_ignore_files
    ∧ (kfDevelopment co cfg c).fn_ignore_dirs = c.fn_ignore_dirs
    ∧ (kfDevelopment co cfg c).fn_ignore_paths = c.fn_ignore_paths
    ∧ (kfDevelopment co cfg c).sample_names_ignore = c.sample_names_ignore
    ∧ (kfDevelopment co cfg c).sample_names_only_include = c.sample_names_only_include
    ∧ (kfDevelopment co cfg c).top_modules = c.top_modules
    ∧ (kfDevelopment co cfg c).kwargs = c.kwargs := by
  by_cases h : cfg.development.isSome = true <;> simp [kfDevelopment, h]

@[simp] theorem kfMakePdf_fields (co : Collaborators) (cfg : ClConfig) (c : Config) :
    (kfMakePdf co cfg c).quiet = c.quiet
    ∧ (kfMakePdf co cfg c).no_ansi = c.no_ansi
    ∧ (kfMakePdf co cfg c).verbose = c.verbose
    ∧ (kfMakePdf co cfg c).loaded_user_files = c.loaded_user_files
    ∧ (kfMakePdf co cfg c).explicit_user_config_files = c.explicit_user_config_files
    ∧ (kfMakePdf co cfg c).template = (if cfg.make_pdf.getD false then "simple" else c.template)
    ∧ (kfMakePdf co cfg c).title = c.title
    ∧ (kfMakePdf co cfg c).report_comment = c.report_comment
    ∧ (kfMakePdf co cfg c).prepend_dirs = c.prepend_dirs
    ∧ (kfMakePdf co cfg c).prepend_dirs_depth = c.prepend_dirs_depth
    ∧ (kfMakePdf co cfg c).output_dir = c.output_dir
    ∧ (kfMakePdf co cfg c).use_filename_as_sample_name = c.use_filename_as_sample_name
    ∧ (kfMakePdf co cfg c).make_data_dir = c.make_data_dir
    ∧ (kfMakePdf co cfg c).force = c.force
    ∧ (kfMakePdf co cfg c).ignore_symlinks = c.ignore_symlinks
    ∧ (kfMakePdf co cfg c).zip_data_dir = c.zip_data_dir
    ∧ (kfMakePdf co cfg c).data_format = c.data_format
    ∧ (kfMakePdf co cfg c).export_plots = c.export_plots
    ∧ (kfMakePdf co cfg c).make_report = c.make_report
    ∧ (kfMakePdf co cfg c).plots_force_flat = c.plots_force_flat
    ∧ (kfMakePdf co cfg c).plots_force_interactive = c.plots_force_interactive
    ∧ (kfMakePdf co cfg c).strict = c.strict
    ∧ (kfMakePdf co cfg c).lint = c.lint
    ∧ (kfMakePdf co cfg c).development = c.development
    ∧ (kfMakePdf co cfg c).make_pdf = (if cfg.make_pdf.getD false then cfg.make_pdf.getD c.make_pdf else c.make_pdf)
    ∧ (kfMakePdf co cfg c).simple_output = c.simple_output
    ∧ (kfMakePdf co cfg c).filename = c.filename
    ∧ (kfMakePdf co cfg c).megaqc_upload = c.megaqc_upload
    ∧ (kfMakePdf co cfg c).fn_clean_sample_names = c.fn_clean_sample_names
    ∧ (kfMakePdf co cfg c).sample_names_replace = c.sample_names_replace
    ∧ (kfMakePdf co cfg c).sample_names_rename = c.sample_names_rename
    ∧ (kfMakePdf co cfg c).show_hide_rules = c.show_hide_rules
    ∧ (kfMakePdf co cfg c).run_modules = c.run_modules
    ∧ (kfMakePdf co cfg c).exclude_modules = c.exclude_modules
    ∧ (kfMakePdf co cfg c).require_logs = c.require_logs
    ∧ (kfMakePdf co cfg c).profile_runtime = c.profile_runtime
    ∧ (kfMakePdf co cfg c).profile_memory = c.profile_memory
    ∧ (kfMakePdf co cfg c).no_version_check = c.no_version_check
    ∧ (kfMakePdf co cfg c).custom_css_files = c.custom_css_files
    ∧ (kfMakePdf co cfg c).module_order = c.module_order
    ∧ (kfMakePdf co cfg c).fn_clean_exts = c.fn_clean_exts
    ∧ (kfMakePdf co cfg c).fn_clean_trim = c.fn_clean_trim
    ∧ (kfMakePdf co cfg c).preserve_module_raw_data = c.preserve_module_raw_data
    ∧ (kfMakePdf co cfg c).data_dump_file_write_raw = c.data_dump_file_write_raw
    ∧ (kfMakePdf co cfg c).ai_summary = c.ai_summary
    ∧ (kfMakePdf co cfg c).ai_summary_full = c.ai_summary_full
    ∧ (kfMakePdf co cfg c).ai_provider = c.ai_provider
    ∧ (kfMakePdf co cfg c).ai_model = c.ai_model
    ∧ (kfMakePdf co cfg c).ai_custom_endpoint = c.ai_custom_endpoint
    ∧ (kfMakePdf co cfg c).ai_custom_context_window = c.ai_custom_context_window
    ∧ (kfMakePdf co cfg c).ai_prompt_short = c.ai_prompt_short
    ∧ (kfMakePdf co cfg c).ai_prompt_full = c.ai_prompt_full
    ∧ (kfMakePdf co cfg c).no_ai = c.no_ai
    ∧ (kfMakePdf co cfg c).export_plot_formats = c.export_plot_formats
    ∧ (kfMakePdf co cfg c).analysis_dir = c.analysis_dir
    ∧ (kfMakePdf co cfg c).file_list = c.file_list
    ∧ (kfMakePdf co cfg c).fn_ignore_files = c.fn_ignore_files
    ∧ (kfMakePdf co cfg c).fn_ignore_dirs = c.fn_ignore_dirs
    ∧ (kfMakePdf co cfg c).fn_ignore_paths = c.fn_ignore_paths
    ∧ (kfMakePdf co cfg c).sample_names_ignore = c.sample_names_ignore
    ∧ (kfMakePdf co cfg c).sample_names_only_include = c.sample_names_only_include
    ∧ (kfMakePdf co cfg c).top_modules = c.top_modules
    ∧ (kfMakePdf co cfg c).kwargs = c.kwargs := by
  by_cases h : cfg.make_pdf.getD false = true <;> simp [kfMakePdf, h]

@[simp] theorem kfTemplateSimple_fields (co : Collaborators) (cfg : ClConfig) (c : Config) :
    (kfTemplateSimple co cfg c).quiet = c.quiet
    ∧ (kfTemplateSimple co cfg c).no_ansi = c.no_ansi
    ∧ (kfTemplateSimple co cfg c).verbose = c.verbose
    ∧ (kfTemplateSimple co cfg c).loaded_user_files = c.loaded_user_files
    ∧ (kfTemplateSimple co cfg c).explicit_user_config_files = c.explicit_user_config_files
    ∧ (kfTemplateSimple co cfg c).template = c.template
    ∧ (kfTemplateSimple co cfg c).title = c.title
    ∧ (kfTemplateSimple co cfg c).report_comment = c.report_comment
    ∧ (kfTemplateSimple co cfg c).prepend_dirs = c.prepend_dirs
    ∧ (kfTemplateSimple co cfg c).prepend_dirs_depth = c.prepend_dirs_depth
    ∧ (kfTemplateSimple co cfg c).output_dir = c.output_dir
    ∧ (kfTemplateSimple co cfg c).use_filename_as_sample_name = c.use_filename_as_sample_name
    ∧ (kfTemplateSimple co cfg c).make_data_dir = c.make_data_dir
    ∧ (kfTemplateSimple co cfg c).force = c.force
    ∧ (kfTemplateSimple co cfg c).ignore_symlinks = c.ignore_symlinks
    ∧ (kfTemplateSimple co cfg c).zip_data_dir = c.zip_data_dir
    ∧ (kfTemplateSimple co cfg c).data_format = c.data_format
    ∧ (kfTemplateSimple co cfg c).export_plots = c.export_plots
    ∧ (kfTemplateSimple co cfg c).make_report = c.make_report
    ∧ (kfTemplateSimple co cfg c).plots_force_flat = (if (c.template == "simple") then true else c.plots_force_flat)
    ∧ (kfTemplateSimple co cfg c).plots_force_interactive = c.plots_force_interactive
    ∧ (kfTemplateSimple co cfg c).strict = c.strict
    ∧ (kfTemplateSimple co cfg c).lint = c.lint
    ∧ (kfTemplateSimple co cfg c).development = c.development
    ∧ (kfTemplateSimple co cfg c).make_pdf = c.make_pdf
    ∧ (kfTemplateSimple co cfg c).simple_output = (if (c.template == "simple") then true else c.simple_output)
    ∧ (kfTemplateSimple co cfg c).filename = c.filename
    ∧ (kfTemplateSimple co cfg c).megaqc_upload = c.megaqc_upload
    ∧ (kfTemplateSimple co cfg c).fn_clean_sample_names = c.fn_clean_sample_names
    ∧ (kfTemplateSimple co cfg c).sample_names_replace = c.sample_names_replace
    ∧ (kfTemplateSimple co cfg c).sample_names_rename = c.sample_names_rename
    ∧ (kfTemplateSimple co cfg c).show_hide_rules = c.show_hide_rules
    ∧ (kfTemplateSimple co cfg c).run_modules = c.run_modules
    ∧ (kfTemplateSimple co cfg c).exclude_modules = c.exclude_modules
    ∧ (kfTemplateSimple co cfg c).require_logs = c.require_logs
    ∧ (kfTemplateSimple co cfg c).profile_runtime = c.profile_runtime
    ∧ (kfTemplateSimple co cfg c).profile_memory = c.profile_memory
    ∧ (kfTemplateSimple co cfg c).no_version_check = c.no_version_check
    ∧ (kfTemplateSimple co cfg c).custom_css_files = c.custom_css_files
    ∧ (kfTemplateSimple co cfg c).module_order = c.module_order
    ∧ (kfTemplateSimple co cfg c).fn_clean_exts = c.fn_clean_exts
    ∧ (kfTemplateSimple co cfg c).fn_clean_trim = c.fn_clean_trim
    ∧ (kfTemplateSimple co cfg c).preserve_module_raw_data = c.preserve_module_raw_data
    ∧ (kfTemplateSimple co cfg c).data_dump_file_write_raw = c.data_dump_file_write_raw
    ∧ (kfTemplateSimple co cfg c).ai_summary = c.ai_summary
    ∧ (kfTemplateSimple co cfg c).ai_summary_full = c.ai_summary_full
    ∧ (kfTemplateSimple co cfg c).ai_provider = c.ai_provider
    ∧ (kfTemplateSimple co cfg c).ai_model = c.ai_model
    ∧ (kfTemplateSimple co cfg c).ai_custom_endpoint = c.ai_custom_endpoint
    ∧ (kfTemplateSimple co cfg c).ai_custom_context_window = c.ai_custom_context_window
    ∧ (kfTemplateSimple co cfg c).ai_prompt_short = c.ai_prompt_short
    ∧ (kfTemplateSimple co cfg c).ai_prompt_full = c.ai_prompt_full
    ∧ (kfTemplateSimple co cfg c).no_ai = c.no_ai
    ∧ (kfTemplateSimple co cfg c).export_plot_formats = c.export_plot_formats
    ∧ (kfTemplateSimple co cfg c).analysis_dir = c.analysis_dir
    ∧ (kfTemplateSimple co cfg c).file_list = c.file_list
    ∧ (kfTemplateSimple co cfg c).fn_ignore_files = c.fn_ignore_files
    ∧ (kfTemplateSimple co cfg c).fn_ignore_dirs = c.fn_ignore_dirs
    ∧ (kfTemplateSimple co cfg c).fn_ignore_paths = c.fn_ignore_paths
    ∧ (kfTemplateSimple co cfg c).sample_names_ignore = c.sample_names_ignore
    ∧ (kfTemplateSimple co cfg c).sample_names_only_include = c.sample_names_only_include
    ∧ (kfTemplateSimple co cfg c).top_modules = c.top_modules
    ∧ (kfTemplateSimple co cfg c).kwargs = c.kwargs := by
  by_cases h : (c.template == "simple") = true <;> simp [kfTemplateSimple, h]

@[simp] theorem kfFilename_fields (co : Collaborators) (cfg : ClConfig) (c : Config) :
    (kfFilename co cfg c).quiet = c.quiet
    ∧ (kfFilename co cfg c).no_ansi = c.no_ansi
    ∧ (kfFilename co cfg c).verbose = c.verbose
    ∧ (kfFilename co cfg c).loaded_user_files = c.loaded_user_files
    ∧ (kfFilename co cfg c).explicit_user_config_files = c.explicit_user_config_files
    ∧ (kfFilename co cfg c).template = c.template
    ∧ (kfFilename co cfg c).title = c.title
    ∧ (kfFilename co cfg c).report_comment = c.report_comment
    ∧ (kfFilename co cfg c).prepend_dirs = c.prepend_dirs
    ∧ (kfFilename co cfg c).prepend_dirs_depth = c.prepend_dirs_depth
    ∧ (kfFilename co cfg c).output_dir = c.output_dir
    ∧ (kfFilename co cfg c).use_filename_as_sample_name = c.use_filename_as_sample_name
    ∧ (kfFilename co cfg c).make_data_dir = c.make_data_dir
    ∧ (kfFilename co cfg c).force = c.force
    ∧ (kfFilename co cfg c).ignore_symlinks = c.ignore_symlinks
    ∧ (kfFilename co cfg c).zip_data_dir = c.zip_data_dir
    ∧ (kfFilename co cfg c).data_format = c.data_format
    ∧ (kfFilename co cfg c).export_plots = c.export_plots
    ∧ (kfFilename co cfg c).make_report = c.make_report
    ∧ (kfFilename co cfg c).plots_force_flat = c.plots_force_flat
    ∧ (kfFilename co cfg c).plots_force_interactive = c.plots_force_interactive
    ∧ (kfFilename co cfg c).strict = c.strict
    ∧ (kfFilename co cfg c).lint = c.lint
    ∧ (kfFilename co cfg c).development = c.development
    ∧ (kfFilename co cfg c).make_pdf = c.make_pdf
    ∧ (kfFilename co cfg c).simple_output = c.simple_output
    ∧ (kfFilename co cfg c).filename = (if strTruthy cfg.filename then cfg.filename else c.filename)
    ∧ (kfFilename co cfg c).megaqc_upload = c.megaqc_upload
    ∧ (kfFilename co cfg c).fn_clean_sample_names = c.fn_clean_sample_names
    ∧ (kfFilename co cfg c).sample_names_replace = c.sample_names_replace
    ∧ (kfFilename co cfg c).sample_names_rename = c.sample_names_rename
    ∧ (kfFilename co cfg c).show_hide_rules = c.show_hide_rules
    ∧ (kfFilename co cfg c).run_modules = c.run_modules
    ∧ (kfFilename co cfg c).exclude_modules = c.exclude_modules
    ∧ (kfFilename co cfg c).require_logs = c.require_logs
    ∧ (kfFilename co cfg c).profile_runtime = c.profile_runtime
    ∧ (kfFilename co cfg c).profile_memory = c.profile_memory
    ∧ (kfFilename co cfg c).no_version_check = c.no_version_check
    ∧ (kfFilename co cfg c).custom_css_files = c.custom_css_files
    ∧ (kfFilename co cfg c).module_order = c.module_order
    ∧ (kfFilename co cfg c).fn_clean_exts = c.fn_clean_exts
    ∧ (kfFilename co cfg c).fn_clean_trim = c.fn_clean_trim
    ∧ (kfFilename co cfg c).preserve_module_raw_data = c.preserve_module_raw_data
    ∧ (kfFilename co cfg c).data_dump_file_write_raw = c.data_dump_file_write_raw
    ∧ (kfFilename co cfg c).ai_summary = c.ai_summary
    ∧ (kfFilename co cfg c).ai_summary_full = c.ai_summary_full
    ∧ (kfFilename co cfg c).ai_provider = c.ai_provider
    ∧ (kfFilename co cfg c).ai_model = c.ai_model
    ∧ (kfFilename co cfg c).ai_custom_endpoint = c.ai_custom_endpoint
    ∧ (kfFilename co cfg c).ai_custom_context_window = c.ai_custom_context_window
    ∧ (kfFilename co cfg c).ai_prompt_short = c.ai_prompt_short
    ∧ (kfFilename co cfg c).ai_prompt_full = c.ai_prompt_full
    ∧ (kfFilename co cfg c).no_ai = c.no_ai
    ∧ (kfFilename co cfg c).export_plot_formats = c.export_plot_formats
    ∧ (kfFilename co cfg c).analysis_dir = c.analysis_dir
    ∧ (kfFilename co cfg c).file_list = c.file_list
    ∧ (kfFilename co cfg c).fn_ignore_files = c.fn_ignore_files
    ∧ (kfFilename co cfg c).fn_ignore_dirs = c.fn_ignore_dirs
    ∧ (kfFilename co cfg c).fn_ignore_paths = c.fn_ignore_paths
    ∧ (kfFilename co cfg c).sample_names_ignore = c.sample_names_ignore
    ∧ (kfFilename co cfg c).sample_names_only_include = c.sample_names_only_include
    ∧ (kfFilename co cfg c).top_modules = c.top_modules
    ∧ (kfFilename co cfg c).kwargs = c.kwargs := by
  by_cases h : strTruthy cfg.filename = true <;> simp [kfFilename, h]

@[simp] theorem kfNoMegaqcUpload_fields (co : Collaborators) (cfg : ClConfig) (c : Config) :
    (kfNoMegaqcUpload co cfg c).quiet = c.quiet
    ∧ (kfNoMegaqcUpload co cfg c).no_ansi = c.no_ansi
    ∧ (kfNoMegaqcUpload co cfg c).verbose = c.verbose
    ∧ (kfNoMegaqcUpload co cfg c).loaded_user_files = c.loaded_user_files
    ∧ (kfNoMegaqcUpload co cfg c).explicit_user_config_files = c.explicit_user_config_files
    ∧ (kfNoMegaqcUpload co cfg c).template = c.template
    ∧ (kfNoMegaqcUpload co cfg c).title = c.title
    ∧ (kfNoMegaqcUpload co cfg c).report_comment = c.report_comment
    ∧ (kfNoMegaqcUpload co cfg c).prepend_dirs = c.prepend_dirs
    ∧ (kfNoMegaqcUpload co cfg c).prepend_dirs_depth = c.prepend_dirs_depth
    ∧ (kfNoMegaqcUpload co cfg c).output_dir = c.output_dir
    ∧ (kfNoMegaqcUpload co cfg c).use_filename_as_sample_name = c.use_filename_as_sample_name
    ∧ (kfNoMegaqcUpload co cfg c).make_data_dir = c.make_data_dir
    ∧ (kfNoMegaqcUpload co cfg c).force = c.force
    ∧ (kfNoMegaqcUpload co cfg c).ignore_symlinks = c.ignore_symlinks
    ∧ (kfNoMegaqcUpload co cfg c).zip_data_dir = c.zip_data_dir
    ∧ (kfNoMegaqcUpload co cfg c).data_format = c.data_format
    ∧ (kfNoMegaqcUpload co cfg c).export_plots = c.export_plots
    ∧ (kfNoMegaqcUpload co cfg c).make_report = c.make_report
    ∧ (kfNoMegaqcUpload co cfg c).plots_force_flat = c.plots_force_flat
    ∧ (kfNoMegaqcUpload co cfg c).plots_force_interactive = c.plots_force_interactive
    ∧ (kfNoMegaqcUpload co cfg c).strict = c.strict
    ∧ (kfNoMegaqcUpload co cfg c).lint = c.lint
    ∧ (kfNoMegaqcUpload co cfg c).development = c.development
    ∧ (kfNoMegaqcUpload co cfg c).make_pdf = c.make_pdf
    ∧ (kfNoMegaqcUpload co cfg c).simple_output = c.simple_output
    ∧ (kfNoMegaqcUpload co cfg c).filename = c.filename
    ∧ (kfNoMegaqcUpload co cfg c).megaqc_upload = (if cfg.no_megaqc_upload.isSome then !(cfg.no_megaqc_upload.getD false) else c.megaqc_upload)
    ∧ (kfNoMegaqcUpload co cfg c).fn_clean_sample_names = c.fn_clean_sample_names
    ∧ (kfNoMegaqcUpload co cfg c).sample_names_replace = c.sample_names_replace
    ∧ (kfNoMegaqcUpload co cfg c).sample_names_rename = c.sample_names_rename
    ∧ (kfNoMegaqcUpload co cfg c).show_hide_rules = c.show_hide_rules
    ∧ (kfNoMegaqcUpload co cfg c).run_modules = c.run_modules
    ∧ (kfNoMegaqcUpload co cfg c).exclude_modules = c.exclude_modules
    ∧ (kfNoMegaqcUpload co cfg c).require_logs = c.require_logs
    ∧ (kfNoMegaqcUpload co cfg c).profile_runtime = c.profile_runtime
    ∧ (kfNoMegaqcUpload co cfg c).profile_memory = c.profile_memory
    ∧ (kfNoMegaqcUpload co cfg c).no_version_check = c.no_version_check
    ∧ (kfNoMegaqcUpload co cfg c).custom_css_files = c.custom_css_files
    ∧ (kfNoMegaqcUpload co cfg c).module_order = c.module_order
    ∧ (kfNoMegaqcUpload co cfg c).fn_clean_exts = c.fn_clean_exts
    ∧ (kfNoMegaqcUpload co cfg c).fn_clean_trim = c.fn_clean_trim
    ∧ (kfNoMegaqcUpload co cfg c).preserve_module_raw_data = c.preserve_module_raw_data
    ∧ (kfNoMegaqcUpload co cfg c).data_dump_file_write_raw = c.data_dump_file_write_raw
    ∧ (kfNoMegaqcUpload co cfg c).ai_summary = c.ai_summary
    ∧ (kfNoMegaqcUpload co cfg c).ai_summary_full = c.ai_summary_full
    ∧ (kfNoMegaqcUpload co cfg c).ai_provider = c.ai_provider
    ∧ (kfNoMegaqcUpload co cfg c).ai_model = c.ai_model
    ∧ (kfNoMegaqcUpload co cfg c).ai_custom_endpoint = c.ai_custom_endpoint
    ∧ (kfNoMegaqcUpload co cfg c).ai_custom_context_window = c.ai_custom_context_window
    ∧ (kfNoMegaqcUpload co cfg c).ai_prompt_short = c.ai_prompt_short
    ∧ (kfNoMegaqcUpload co cfg c).ai_prompt_full = c.ai_prompt_full
    ∧ (kfNoMegaqcUpload co cfg c).no_ai = c.no_ai
    ∧ (kfNoMegaqcUpload co cfg c).export_plot_formats = c.export_plot_formats
    ∧ (kfNoMegaqcUpload co cfg c).analysis_dir = c.analysis_dir
    ∧ (kfNoMegaqcUpload co cfg c).file_list = c.file_list
    ∧ (kfNoMegaqcUpload co cfg c).fn_ignore_files = c.fn_ignore_files
    ∧ (kfNoMegaqcUpload co cfg c).fn_ignore_dirs = c.fn_ignore_dirs
    ∧ (kfNoMegaqcUpload co cfg c).fn_ignore_paths = c.fn_ignore_paths
    ∧ (kfNoMegaqcUpload co cfg c).sample_names_ignore = c.sample_names_ignore
    ∧ (kfNoMegaqcUpload co cfg c).sample_names_only_include = c.sample_names_only_include
    ∧ (kfNoMegaqcUpload co cfg c).top_modules = c.top_modules
    ∧ (kfNoMegaqcUpload co cfg c).kwargs = c.kwargs := by
  by_cases h : cfg.no_megaqc_upload.isSome = true <;> simp [kfNoMegaqcUpload, h]

@[simp] theorem kfFnCleanSampleNames_fields (co : Collaborators) (cfg : ClConfig) (c : Config) :
    (kfFnCleanSampleNames co cfg c).quiet = c.quiet
    ∧ (kfFnCleanSampleNames co cfg c).no_ansi = c.no_ansi
    ∧ (kfFnCleanSampleNames co cfg c).verbose = c.verbose
    ∧ (kfFnCleanSampleNames co cfg c).loaded_user_files = c.loaded_user_files
    ∧ (kfFnCleanSampleNames co cfg c).explicit_user_config_files = c.explicit_user_config_files
    ∧ (kfFnCleanSampleNames co cfg c).template = c.template
    ∧ (kfFnCleanSampleNames co cfg c).title = c.title
    ∧ (kfFnCleanSampleNames co cfg c).report_comment = c.report_comment
    ∧ (kfFnCleanSampleNames co cfg c).prepend_dirs = c.prepend_dirs
    ∧ (kfFnCleanSampleNames co cfg c).prepend_dirs_depth = c.prepend_dirs_depth
    ∧ (kfFnCleanSampleNames co cfg c).output_dir = c.output_dir
    ∧ (kfFnCleanSampleNames co cfg c).use_filename_as_sample_name = c.use_filename_as_sample_name
    ∧ (kfFnCleanSampleNames co cfg c).make_data_dir = c.make_data_dir
    ∧ (kfFnCleanSampleNames co cfg c).force = c.force
    ∧ (kfFnCleanSampleNames co cfg c).ignore_symlinks = c.ignore_symlinks
    ∧ (kfFnCleanSampleNames co cfg c).zip_data_dir = c.zip_data_dir
    ∧ (kfFnCleanSampleNames co cfg c).data_format = c.data_format
    ∧ (kfFnCleanSampleNames co cfg c).export_plots = c.export_plots
    ∧ (kfFnCleanSampleNames co cfg c).make_report = c.make_report
    ∧ (kfFnCleanSampleNames co cfg c).plots_force_flat = c.plots_force_flat
    ∧ (kfFnCleanSampleNames co cfg c).plots_force_interactive = c.plots_force_interactive
    ∧ (kfFnCleanSampleNames co cfg c).strict = c.strict
    ∧ (kfFnCleanSampleNames co cfg c).lint = c.lint
    ∧ (kfFnCleanSampleNames co cfg c).development = c.development
    ∧ (kfFnCleanSampleNames co cfg c).make_pdf = c.make_pdf
    ∧ (kfFnCleanSampleNames co cfg c).simple_output = c.simple_output
    ∧ (kfFnCleanSampleNames co cfg c).filename = c.filename
    ∧ (kfFnCleanSampleNames co cfg c).megaqc_upload = c.megaqc_upload
    ∧ (kfFnCleanSampleNames co cfg c).fn_clean_sample_names = (if cfg.fn_clean_sample_names.isSome then cfg.fn_clean_sample_names.getD c.fn_clean_sample_names else c.fn_clean_sample_names)
    ∧ (kfFnCleanSampleNames co cfg c).sample_names_replace = c.sample_names_replace
    ∧ (kfFnCleanSampleNames co cfg c).sample_names_rename = c.sample_names_rename
    ∧ (kfFnCleanSampleNames co cfg c).show_hide_rules = c.show_hide_rules
    ∧ (kfFnCleanSampleNames co cfg c).run_modules = c.run_modules
    ∧ (kfFnCleanSampleNames co cfg c).exclude_modules = c.exclude_modules
    ∧ (kfFnCleanSampleNames co cfg c).require_logs = c.require_logs
    ∧ (kfFnCleanSampleNames co cfg c).profile_runtime = c.profile_runtime
    ∧ (kfFnCleanSampleNames co cfg c).profile_memory = c.profile_memory
    ∧ (kfFnCleanSampleNames co cfg c).no_version_check = c.no_version_check
    ∧ (kfFnCleanSampleNames co cfg c).custom_css_files = c.custom_css_files
    ∧ (kfFnCleanSampleNames co cfg c).module_order = c.module_order
    ∧ (kfFnCleanSampleNames co cfg c).fn_clean_exts = c.fn_clean_exts
    ∧ (kfFnCleanSampleNames co cfg c).fn_clean_trim = c.fn_clean_trim
    ∧ (kfFnCleanSampleNames co cfg c).preserve_module_raw_data = c.preserve_module_raw_data
    ∧ (kfFnCleanSampleNames co cfg c).data_dump_file_write_raw = c.data_dump_file_write_raw
    ∧ (kfFnCleanSampleNames co cfg c).ai_summary = c.ai_summary
    ∧ (kfFnCleanSampleNames co cfg c).ai_summary_full = c.ai_summary_full
    ∧ (kfFnCleanSampleNames co cfg c).ai_provider = c.ai_provider
    ∧ (kfFnCleanSampleNames co cfg c).ai_model = c.ai_model
    ∧ (kfFnCleanSampleNames co cfg c).ai_custom_endpoint = c.ai_custom_endpoint
    ∧ (kfFnCleanSampleNames co cfg c).ai_custom_context_window = c.ai_custom_context_window
    ∧ (kfFnCleanSampleNames co cfg c).ai_prompt_short = c.ai_prompt_short
    ∧ (kfFnCleanSampleNames co cfg c).ai_prompt_full = c.ai_prompt_full
    ∧ (kfFnCleanSampleNames co cfg c).no_ai = c.no_ai
    ∧ (kfFnCleanSampleNames co cfg c).export_plot_formats = c.export_plot_formats
    ∧ (kfFnCleanSampleNames co cfg c).analysis_dir = c.analysis_dir
    ∧ (kfFnCleanSampleNames co cfg c).file_list = c.file_list
    ∧ (kfFnCleanSampleNames co cfg c).fn_ignore_files = c.fn_ignore_files
    ∧ (kfFnCleanSampleNames co cfg c).fn_ignore_dirs = c.fn_ignore_dirs
    ∧ (kfFnCleanSampleNames co cfg c).fn_ignore_paths = c.fn_ignore_paths
    ∧ (kfFnCleanSampleNames co cfg c).sample_names_ignore = c.sample_names_ignore
    ∧ (kfFnCleanSampleNames co cfg c).sample_names_only_include = c.sample_names_only_include
    ∧ (kfFnCleanSampleNames co cfg c).top_modules = c.top_modules
    ∧ (kfFnCleanSampleNames co cfg c).kwargs = c.kwargs := by
  by_cases h : cfg.fn_clean_sample_names.isSome = true <;> simp [kfFnCleanSampleNames, h]

@[simp] theorem kfReplaceNames_fields (co : Collaborators) (cfg : ClConfig) (c : Config) :
    (kfReplaceNames co cfg c).quiet = c.quiet
    ∧ (kfReplaceNames co cfg c).no_ansi = c.no_ansi
    ∧ (kfReplaceNames co cfg c).verbose = c.verbose
    ∧ (kfReplaceNames co cfg c).loaded_user_files = c.loaded_user_files
    ∧ (kfReplaceNames co cfg c).explicit_user_config_files = c.explicit_user_config_files
    ∧ (kfReplaceNames co cfg c).template = c.template
    ∧ (kfReplaceNames co cfg c).title = c.title
    ∧ (kfReplaceNames co cfg c).report_comment = c.report_comment
    ∧ (kfReplaceNames co cfg c).prepend_dirs = c.prepend_dirs
    ∧ (kfReplaceNames co cfg c).prepend_dirs_depth = c.prepend_dirs_depth
    ∧ (kfReplaceNames co cfg c).output_dir = c.output_dir
    ∧ (kfReplaceNames co cfg c).use_filename_as_sample_name = c.use_filename_as_sample_name
    ∧ (kfReplaceNames co cfg c).make_data_dir = c.make_data_dir
    ∧ (kfReplaceNames co cfg c).force = c.force
    ∧ (kfReplaceNames co cfg c).ignore_symlinks = c.ignore_symlinks
    ∧ (kfReplaceNames co cfg c).zip_data_dir = c.zip_data_dir
    ∧ (kfReplaceNames co cfg c).data_format = c.data_format
    ∧ (kfReplaceNames co cfg c).export_plots = c.export_plots
    ∧ (kfReplaceNames co cfg c).make_report = c.make_report
    ∧ (kfReplaceNames co cfg c).plots_force_flat = c.plots_force_flat
    ∧ (kfReplaceNames co cfg c).plots_force_interactive = c.plots_force_interactive
    ∧ (kfReplaceNames co cfg c).strict = c.strict
    ∧ (kfReplaceNames co cfg c).lint = c.lint
    ∧ (kfReplaceNames co cfg c).development = c.development
    ∧ (kfReplaceNames co cfg c).make_pdf = c.make_pdf
    ∧ (kfReplaceNames co cfg c).simple_output = c.simple_output
    ∧ (kfReplaceNames co cfg c).filename = c.filename
    ∧ (kfReplaceNames co cfg c).megaqc_upload = c.megaqc_upload
    ∧ (kfReplaceNames co cfg c).fn_clean_sample_names = c.fn_clean_sample_names
    ∧ (kfReplaceNames co cfg c).sample_names_replace = (if strTruthy cfg.replace_names then co.load_replace_names (cfg.replace_names.getD "") else c.sample_names_replace)
    ∧ (kfReplaceNames co cfg c).sample_names_rename = c.sample_names_rename
    ∧ (kfReplaceNames co cfg c).show_hide_rules = c.show_hide_rules
    ∧ (kfReplaceNames co cfg c).run_modules = c.run_modules
    ∧ (kfReplaceNames co cfg c).exclude_modules = c.exclude_modules
    ∧ (kfReplaceNames co cfg c).require_logs = c.require_logs
    ∧ (kfReplaceNames co cfg c).profile_runtime = c.profile_runtime
    ∧ (kfReplaceNames co cfg c).profile_memory = c.profile_memory
    ∧ (kfReplaceNames co cfg c).no_version_check = c.no_version_check
    ∧ (kfReplaceNames co cfg c).custom_css_files = c.custom_css_files
    ∧ (kfReplaceNames co cfg c).module_order = c.module_order
    ∧ (kfReplaceNames co cfg c).fn_clean_exts = c.fn_clean_exts
    ∧ (kfReplaceNames co cfg c).fn_clean_trim = c.fn_clean_trim
    ∧ (kfReplaceNames co cfg c).preserve_module_raw_data = c.preserve_module_raw_data
    ∧ (kfReplaceNames co cfg c).data_dump_file_write_raw = c.data_dump_file_write_raw
    ∧ (kfReplaceNames co cfg c).ai_summary = c.ai_summary
    ∧ (kfReplaceNames co cfg c).ai_summary_full = c.ai_summary_full
    ∧ (kfReplaceNames co cfg c).ai_provider = c.ai_provider
    ∧ (kfReplaceNames co cfg c).ai_model = c.ai_model
    ∧ (kfReplaceNames co cfg c).ai_custom_endpoint = c.ai_custom_endpoint
    ∧ (kfReplaceNames co cfg c).ai_custom_context_window = c.ai_custom_context_window
    ∧ (kfReplaceNames co cfg c).ai_prompt_short = c.ai_prompt_short
    ∧ (kfReplaceNames co cfg c).ai_prompt_full = c.ai_prompt_full
    ∧ (kfReplaceNames co cfg c).no_ai = c.no_ai
    ∧ (kfReplaceNames co cfg c).export_plot_formats = c.export_plot_formats
    ∧ (kfReplaceNames co cfg c).analysis_dir = c.analysis_dir
    ∧ (kfReplaceNames co cfg c).file_list = c.file_list
    ∧ (kfReplaceNames co cfg c).fn_ignore_files = c.fn_ignore_files
    ∧ (kfReplaceNames co cfg c).fn_ignore_dirs = c.fn_ignore_dirs
    ∧ (kfReplaceNames co cfg c).fn_ignore_paths = c.fn_ignore_paths
    ∧ (kfReplaceNames co cfg c).sample_names_ignore = c.sample_names_ignore
    ∧ (kfReplaceNames co cfg c).sample_names_only_include = c.sample_names_only_include
    ∧ (kfReplaceNames co cfg c).top_modules = c.top_modules
    ∧ (kfReplaceNames co cfg c).kwargs = c.kwargs := by
  by_cases h : strTruthy cfg.replace_names = true <;> simp [kfReplaceNames, h]

@[simp] theorem kfSampleNames_fields (co : Collaborators) (cfg : ClConfig) (c : Config) :
    (kfSampleNames co cfg c).quiet = c.quiet
    ∧ (kfSampleNames co cfg c).no_ansi = c.no_ansi
    ∧ (kfSampleNames co cfg c).verbose = c.verbose
    ∧ (kfSampleNames co cfg c).loaded_user_files = c.loaded_user_files
    ∧ (kfSampleNames co cfg c).explicit_user_config_files = c.explicit_user_config_files
    ∧ (kfSampleNames co cfg c).template = c.template
    ∧ (kfSampleNames co cfg c).title = c.title
    ∧ (kfSampleNames co cfg c).report_comment = c.report_comment
    ∧ (kfSampleNames co cfg c).prepend_dirs = c.prepend_dirs
    ∧ (kfSampleNames co cfg c).prepend_dirs_depth = c.prepend_dirs_depth
    ∧ (kfSampleNames co cfg c).output_dir = c.output_dir
    ∧ (kfSampleNames co cfg c).use_filename_as_sample_name = c.use_filename_as_sample_name
    ∧ (kfSampleNames co cfg c).make_data_dir = c.make_data_dir
    ∧ (kfSampleNames co cfg c).force = c.force
    ∧ (kfSampleNames co cfg c).ignore_symlinks = c.ignore_symlinks
    ∧ (kfSampleNames co cfg c).zip_data_dir = c.zip_data_dir
    ∧ (kfSampleNames co cfg c).data_format = c.data_format
    ∧ (kfSampleNames co cfg c).export_plots = c.export_plots
    ∧ (kfSampleNames co cfg c).make_report = c.make_report
    ∧ (kfSampleNames co cfg c).plots_force_flat = c.plots_force_flat
    ∧ (kfSampleNames co cfg c).plots_force_interactive = c.plots_force_interactive
    ∧ (kfSampleNames co cfg c).strict = c.strict
    ∧ (kfSampleNames co cfg c).lint = c.lint
    ∧ (kfSampleNames co cfg c).development = c.development
    ∧ (kfSampleNames co cfg c).make_pdf = c.make_pdf
    ∧ (kfSampleNames co cfg c).simple_output = c.simple_output
    ∧ (kfSampleNames co cfg c).filename = c.filename
    ∧ (kfSampleNames co cfg c).megaqc_upload = c.megaqc_upload
    ∧ (kfSampleNames co cfg c).fn_clean_sample_names = c.fn_clean_sample_names
    ∧ (kfSampleNames co cfg c).sample_names_replace = c.sample_names_replace
    ∧ (kfSampleNames co cfg c).sample_names_rename = (if strTruthy cfg.sample_names then co.load_sample_names (cfg.sample_names.getD "") else c.sample_names_rename)
    ∧ (kfSampleNames co cfg c).show_hide_rules = c.show_hide_rules
    ∧ (kfSampleNames co cfg c).run_modules = c.run_modules
    ∧ (kfSampleNames co cfg c).exclude_modules = c.exclude_modules
    ∧ (kfSampleNames co cfg c).require_logs = c.require_logs
    ∧ (kfSampleNames co cfg c).profile_runtime = c.profile_runtime
    ∧ (kfSampleNames co cfg c).profile_memory = c.profile_memory
    ∧ (kfSampleNames co cfg c).no_version_check = c.no_version_check
    ∧ (kfSampleNames co cfg c).custom_css_files = c.custom_css_files
    ∧ (kfSampleNames co cfg c).module_order = c.module_order
    ∧ (kfSampleNames co cfg c).fn_clean_exts = c.fn_clean_exts
    ∧ (kfSampleNames co cfg c).fn_clean_trim = c.fn_clean_trim
    ∧ (kfSampleNames co cfg c).preserve_module_raw_data = c.preserve_module_raw_data
    ∧ (kfSampleNames co cfg c).data_dump_file_write_raw = c.data_dump_file_write_raw
    ∧ (kfSampleNames co cfg c).ai_summary = c.ai_summary
    ∧ (kfSampleNames co cfg c).ai_summary_full = c.ai_summary_full
    ∧ (kfSampleNames co cfg c).ai_provider = c.ai_provider
    ∧ (kfSampleNames co cfg c).ai_model = c.ai_model
    ∧ (kfSampleNames co cfg c).ai_custom_endpoint = c.ai_custom_endpoint
    ∧ (kfSampleNames co cfg c).ai_custom_context_window = c.ai_custom_context_window
    ∧ (kfSampleNames co cfg c).ai_prompt_short = c.ai_prompt_short
    ∧ (kfSampleNames co cfg c).ai_prompt_full = c.ai_prompt_full
    ∧ (kfSampleNames co cfg c).no_ai = c.no_ai
    ∧ (kfSampleNames co cfg c).export_plot_formats = c.export_plot_formats
    ∧ (kfSampleNames co cfg c).analysis_dir = c.analysis_dir
    ∧ (kfSampleNames co cfg c).file_list = c.file_list
    ∧ (kfSampleNames co cfg c).fn_ignore_files = c.fn_ignore_files
    ∧ (kfSampleNames co cfg c).fn_ignore_dirs = c.fn_ignore_dirs
    ∧ (kfSampleNames co cfg c).fn_ignore_paths = c.fn_ignore_paths
    ∧ (kfSampleNames co cfg c).sample_names_ignore = c.sample_names_ignore
    ∧ (kfSampleNames co cfg c).sample_names_only_include = c.sample_names_only_include
    ∧ (kfSampleNames co cfg c).top_modules = c.top_modules
    ∧ (kfSampleNames co cfg c).kwargs = c.kwargs := by
  by_cases h : strTruthy cfg.sample_names = true <;> simp [kfSampleNames, h]

@[simp] theorem kfShowHide_fields (co : Collaborators) (cfg : ClConfig) (c : Config) :
    (kfShowHide co cfg c).quiet = c.quiet
    ∧ (kfShowHide co cfg c).no_ansi = c.no_ansi
    ∧ (kfShowHide co cfg c).verbose = c.verbose
    ∧ (kfShowHide co cfg c).loaded_user_files = c.loaded_user_files
    ∧ (kfShowHide co cfg c).explicit_user_config_files = c.explicit_user_config_files
    ∧ (kfShowHide co cfg c).template = c.template
    ∧ (kfShowHide co cfg c).title = c.title
    ∧ (kfShowHide co cfg c).report_comment = c.report_comment
    ∧ (kfShowHide co cfg c).prepend_dirs = c.prepend_dirs
    ∧ (kfShowHide co cfg c).prepend_dirs_depth = c.prepend_dirs_depth
    ∧ (kfShowHide co cfg c).output_dir = c.output_dir
    ∧ (kfShowHide co cfg c).use_filename_as_sample_name = c.use_filename_as_sample_name
    ∧ (kfShowHide co cfg c).make_data_dir = c.make_data_dir
    ∧ (kfShowHide co cfg c).force = c.force
    ∧ (kfShowHide co cfg c).ignore_symlinks = c.ignore_symlinks
    ∧ (kfShowHide co cfg c).zip_data_dir = c.zip_data_dir
    ∧ (kfShowHide co cfg c).data_format = c.data_format
    ∧ (kfShowHide co cfg c).export_plots = c.export_plots
    ∧ (kfShowHide co cfg c).make_report = c.make_report
    ∧ (kfShowHide co cfg c).plots_force_flat = c.plots_force_flat
    ∧ (kfShowHide co cfg c).plots_force_interactive = c.plots_force_interactive
    ∧ (kfShowHide co cfg c).strict = c.strict
    ∧ (kfShowHide co cfg c).lint = c.lint
    ∧ (kfShowHide co cfg c).development = c.development
    ∧ (kfShowHide co cfg c).make_pdf = c.make_pdf
    ∧ (kfShowHide co cfg c).simple_output = c.simple_output
    ∧ (kfShowHide co cfg c).filename = c.filename
    ∧ (kfShowHide co cfg c).megaqc_upload = c.megaqc_upload
    ∧ (kfShowHide co cfg c).fn_clean_sample_names = c.fn_clean_sample_names
    ∧ (kfShowHide co cfg c).sample_names_replace = c.sample_names_replace
    ∧ (kfShowHide co cfg c).sample_names_rename = c.sample_names_rename
    ∧ (kfShowHide co cfg c).show_hide_rules = co.load_show_hide (if strTruthy cfg.sample_filters then cfg.sample_filters else none)
    ∧ (kfShowHide co cfg c).run_modules = c.run_modules
    ∧ (kfShowHide co cfg c).exclude_modules = c.exclude_modules
    ∧ (kfShowHide co cfg c).require_logs = c.require_logs
    ∧ (kfShowHide co cfg c).profile_runtime = c.profile_runtime
    ∧ (kfShowHide co cfg c).profile_memory = c.profile_memory
    ∧ (kfShowHide co cfg c).no_version_check = c.no_version_check
    ∧ (kfShowHide co cfg c).custom_css_files = c.custom_css_files
    ∧ (kfShowHide co cfg c).module_order = c.module_order
    ∧ (kfShowHide co cfg c).fn_clean_exts = c.fn_clean_exts
    ∧ (kfShowHide co cfg c).fn_clean_trim = c.fn_clean_trim
    ∧ (kfShowHide co cfg c).preserve_module_raw_data = c.preserve_module_raw_data
    ∧ (kfShowHide co cfg c).data_dump_file_write_raw = c.data_dump_file_write_raw
    ∧ (kfShowHide co cfg c).ai_summary = c.ai_summary
    ∧ (kfShowHide co cfg c).ai_summary_full = c.ai_summary_full
    ∧ (kfShowHide co cfg c).ai_provider = c.ai_provider
    ∧ (kfShowHide co cfg c).ai_model = c.ai_model
    ∧ (kfShowHide co cfg c).ai_custom_endpoint = c.ai_custom_endpoint
    ∧ (kfShowHide co cfg c).ai_custom_context_window = c.ai_custom_context_window
    ∧ (kfShowHide co cfg c).ai_prompt_short = c.ai_prompt_short
    ∧ (kfShowHide co cfg c).ai_prompt_full = c.ai_prompt_full
    ∧ (kfShowHide co cfg c).no_ai = c.no_ai
    ∧ (kfShowHide co cfg c).export_plot_formats = c.export_plot_formats
    ∧ (kfShowHide co cfg c).analysis_dir = c.analysis_dir
    ∧ (kfShowHide co cfg c).file_list = c.file_list
    ∧ (kfShowHide co cfg c).fn_ignore_files = c.fn_ignore_files
    ∧ (kfShowHide co cfg c).fn_ignore_dirs = c.fn_ignore_dirs
    ∧ (kfShowHide co cfg c).fn_ignore_paths = c.fn_ignore_paths
    ∧ (kfShowHide co cfg c).sample_names_ignore = c.sample_names_ignore
    ∧ (kfShowHide co cfg c).sample_names_only_include = c.sample_names_only_include
    ∧ (kfShowHide co cfg c).top_modules = c.top_modules
    ∧ (kfShowHide co cfg c).kwargs = c.kwargs := by
  simp [kfShowHide]

@[simp] theorem kfRunModules_fields (co : Collaborators) (cfg : ClConfig) (c : Config) :
    (kfRunModules co cfg c).quiet = c.quiet
    ∧ (kfRunModules co cfg c).no_ansi = c.no_ansi
    ∧ (kfRunModules co cfg c).verbose = c.verbose
    ∧ (kfRunModules co cfg c).loaded_user_files = c.loaded_user_files
    ∧ (kfRunModules co cfg c).explicit_user_config_files = c.explicit_user_config_files
    ∧ (kfRunModules co cfg c).template = c.template
    ∧ (kfRunModules co cfg c).title = c.title
    ∧ (kfRunModules co cfg c).report_comment = c.report_comment
    ∧ (kfRunModules co cfg c).prepend_dirs = c.prepend_dirs
    ∧ (kfRunModules co cfg c).prepend_dirs_depth = c.prepend_dirs_depth
    ∧ (kfRunModules co cfg c).output_dir = c.output_dir
    ∧ (kfRunModules co cfg c).use_filename_as_sample_name = c.use_filename_as_sample_name
    ∧ (kfRunModules co cfg c).make_data_dir = c.make_data_dir
    ∧ (kfRunModules co cfg c).force = c.force
    ∧ (kfRunModules co cfg c).ignore_symlinks = c.ignore_symlinks
    ∧ (kfRunModules co cfg c).zip_data_dir = c.zip_data_dir
    ∧ (kfRunModules co cfg c).data_format = c.data_format
    ∧ (kfRunModules co cfg c).export_plots = c.export_plots
    ∧ (kfRunModules co cfg c).make_report = c.make_report
    ∧ (kfRunModules co cfg c).plots_force_flat = c.plots_force_flat
    ∧ (kfRunModules co cfg c).plots_force_interactive = c.plots_force_interactive
    ∧ (kfRunModules co cfg c).strict = c.strict
    ∧ (kfRunModules co cfg c).lint = c.lint
    ∧ (kfRunModules co cfg c).development = c.development
    ∧ (kfRunModules co cfg c).make_pdf = c.make_pdf
    ∧ (kfRunModules co cfg c).simple_output = c.simple_output
    ∧ (kfRunModules co cfg c).filename = c.filename
    ∧ (kfRunModules co cfg c).megaqc_upload = c.megaqc_upload
    ∧ (kfRunModules co cfg c).fn_clean_sample_names = c.fn_clean_sample_names
    ∧ (kfRunModules co cfg c).sample_names_replace = c.sample_names_replace
    ∧ (kfRunModules co cfg c).sample_names_rename = c.sample_names_rename
    ∧ (kfRunModules co cfg c).show_hide_rules = c.show_hide_rules
    ∧ (kfRunModules co cfg c).run_modules = (if cfg.run_modules.length > 0 then cfg.run_modules else c.run_modules)
    ∧ (kfRunModules co cfg c).exclude_modules = c.exclude_modules
    ∧ (kfRunModules co cfg c).require_logs = c.require_logs
    ∧ (kfRunModules co cfg c).profile_runtime = c.profile_runtime
    ∧ (kfRunModules co cfg c).profile_memory = c.profile_memory
    ∧ (kfRunModules co cfg c).no_version_check = c.no_version_check
    ∧ (kfRunModules co cfg c).custom_css_files = c.custom_css_files
    ∧ (kfRunModules co cfg c).module_order = c.module_order
    ∧ (kfRunModules co cfg c).fn_clean_exts = c.fn_clean_exts
    ∧ (kfRunModules co cfg c).fn_clean_trim = c.fn_clean_trim
    ∧ (kfRunModules co cfg c).preserve_module_raw_data = c.preserve_module_raw_data
    ∧ (kfRunModules co cfg c).data_dump_file_write_raw = c.data_dump_file_write_raw
    ∧ (kfRunModules co cfg c).ai_summary = c.ai_summary
    ∧ (kfRunModules co cfg c).ai_summary_full = c.ai_summary_full
    ∧ (kfRunModules co cfg c).ai_provider = c.ai_provider
    ∧ (kfRunModules co cfg c).ai_model = c.ai_model
    ∧ (kfRunModules co cfg c).ai_custom_endpoint = c.ai_custom_endpoint
    ∧ (kfRunModules co cfg c).ai_custom_context_window = c.ai_custom_context_window
    ∧ (kfRunModules co cfg c).ai_prompt_short = c.ai_prompt_short
    ∧ (kfRunModules co cfg c).ai_prompt_full = c.ai_prompt_full
    ∧ (kfRunModules co cfg c).no_ai = c.no_ai
    ∧ (kfRunModules co cfg c).export_plot_formats = c.export_plot_formats
    ∧ (kfRunModules co cfg c).analysis_dir = c.analysis_dir
    ∧ (kfRunModules co cfg c).file_list = c.file_list
    ∧ (kfRunModules co cfg c).fn_ignore_files = c.fn_ignore_files
    ∧ (kfRunModules co cfg c).fn_ignore_dirs = c.fn_ignore_dirs
    ∧ (kfRunModules co cfg c).fn_ignore_paths = c.fn_ignore_paths
    ∧ (kfRunModules co cfg c).sample_names_ignore = c.sample_names_ignore
    ∧ (kfRunModules co cfg c).sample_names_only_include = c.sample_names_only_include
    ∧ (kfRunModules co cfg c).top_modules = c.top_modules
    ∧ (kfRunModules co cfg c).kwargs = c.kwargs := by
  by_cases h : cfg.run_modules.length > 0 <;> simp [kfRunModules, h]

@[simp] theorem kfExcludeModules_fields (co : Collaborators) (cfg : ClConfig) (c : Config) :
    (kfExcludeModules co cfg c).quiet = c.quiet
    ∧ (kfExcludeModules co cfg c).no_ansi = c.no_ansi
    ∧ (kfExcludeModules co cfg c).verbose = c.verbose
    ∧ (kfExcludeModules co cfg c).loaded_user_files = c.loaded_user_files
    ∧ (kfExcludeModules co cfg c).explicit_user_config_files = c.explicit_user_config_files
    ∧ (kfExcludeModules co cfg c).template = c.template
    ∧ (kfExcludeModules co cfg c).title = c.title
    ∧ (kfExcludeModules co cfg c).report_comment = c.report_comment
    ∧ (kfExcludeModules co cfg c).prepend_dirs = c.prepend_dirs
    ∧ (kfExcludeModules co cfg c).prepend_dirs_depth = c.prepend_dirs_depth
    ∧ (kfExcludeModules co cfg c).output_dir = c.output_dir
    ∧ (kfExcludeModules co cfg c).use_filename_as_sample_name = c.use_filename_as_sample_name
    ∧ (kfExcludeModules co cfg c).make_data_dir = c.make_data_dir
    ∧ (kfExcludeModules co cfg c).force = c.force
    ∧ (kfExcludeModules co cfg c).ignore_symlinks = c.ignore_symlinks
    ∧ (kfExcludeModules co cfg c).zip_data_dir = c.zip_data_dir
    ∧ (kfExcludeModules co cfg c).data_format = c.data_format
    ∧ (kfExcludeModules co cfg c).export_plots = c.export_plots
    ∧ (kfExcludeModules co cfg c).make_report = c.make_report
    ∧ (kfExcludeModules co cfg c).plots_force_flat = c.plots_force_flat
    ∧ (kfExcludeModules co cfg c).plots_force_interactive = c.plots_force_interactive
    ∧ (kfExcludeModules co cfg c).strict = c.strict
    ∧ (kfExcludeModules co cfg c).lint = c.lint
    ∧ (kfExcludeModules co cfg c).development = c.development
    ∧ (kfExcludeModules co cfg c).make_pdf = c.make_pdf
    ∧ (kfExcludeModules co cfg c).simple_output = c.simple_output
    ∧ (kfExcludeModules co cfg c).filename = c.filename
    ∧ (kfExcludeModules co cfg c).megaqc_upload = c.megaqc_upload
    ∧ (kfExcludeModules co cfg c).fn_clean_sample_names = c.fn_clean_sample_names
    ∧ (kfExcludeModules co cfg c).sample_names_replace = c.sample_names_replace
    ∧ (kfExcludeModules co cfg c).sample_names_rename = c.sample_names_rename
    ∧ (kfExcludeModules co cfg c).show_hide_rules = c.show_hide_rules
    ∧ (kfExcludeModules co cfg c).run_modules = c.run_modules
    ∧ (kfExcludeModules co cfg c).exclude_modules = (if cfg.exclude_modules.length > 0 then cfg.exclude_modules else c.exclude_modules)
    ∧ (kfExcludeModules co cfg c).require_logs = c.require_logs
    ∧ (kfExcludeModules co cfg c).profile_runtime = c.profile_runtime
    ∧ (kfExcludeModules co cfg c).profile_memory = c.profile_memory
    ∧ (kfExcludeModules co cfg c).no_version_check = c.no_version_check
    ∧ (kfExcludeModules co cfg c).custom_css_files = c.custom_css_files
    ∧ (kfExcludeModules co cfg c).module_order = c.module_order
    ∧ (kfExcludeModules co cfg c).fn_clean_exts = c.fn_clean_exts
    ∧ (kfExcludeModules co cfg c).fn_clean_trim = c.fn_clean_trim
    ∧ (kfExcludeModules co cfg c).preserve_module_raw_data = c.preserve_module_raw_data
    ∧ (kfExcludeModules co cfg c).data_dump_file_write_raw = c.data_dump_file_write_raw
    ∧ (kfExcludeModules co cfg c).ai_summary = c.ai_summary
    ∧ (kfExcludeModules co cfg c).ai_summary_full = c.ai_summary_full
    ∧ (kfExcludeModules co cfg c).ai_provider = c.ai_provider
    ∧ (kfExcludeModules co cfg c).ai_model = c.ai_model
    ∧ (kfExcludeModules co cfg c).ai_custom_endpoint = c.ai_custom_endpoint
    ∧ (kfExcludeModules co cfg c).ai_custom_context_window = c.ai_custom_context_window
    ∧ (kfExcludeModules co cfg c).ai_prompt_short = c.ai_prompt_short
    ∧ (kfExcludeModules co cfg c).ai_prompt_full = c.ai_prompt_full
    ∧ (kfExcludeModules co cfg c).no_ai = c.no_ai
    ∧ (kfExcludeModules co cfg c).export_plot_formats = c.export_plot_formats
    ∧ (kfExcludeModules co cfg c).analysis_dir = c.analysis_dir
    ∧ (kfExcludeModules co cfg c).file_list = c.file_list
    ∧ (kfExcludeModules co cfg c).fn_ignore_files = c.fn_ignore_files
    ∧ (kfExcludeModules co cfg c).fn_ignore_dirs = c.fn_ignore_dirs
    ∧ (kfExcludeModules co cfg c).fn_ignore_paths = c.fn_ignore_paths
    ∧ (kfExcludeModules co cfg c).sample_names_ignore = c.sample_names_ignore
    ∧ (kfExcludeModules co cfg c).sample_names_only_include = c.sample_names_only_include
    ∧ (kfExcludeModules co cfg c).top_modules = c.top_modules
    ∧ (kfExcludeModules co cfg c).kwargs = c.kwargs := by
  by_cases h : cfg.exclude_modules.length > 0 <;> simp [kfExcludeModules, h]

@[simp] theorem kfRequireLogs_fields (co : Collaborators) (cfg : ClConfig) (c : Config) :
    (kfRequireLogs co cfg c).quiet = c.quiet
    ∧ (kfRequireLogs co cfg c).no_ansi = c.no_ansi
    ∧ (kfRequireLogs co cfg c).verbose = c.verbose
    ∧ (kfRequireLogs co cfg c).loaded_user_files = c.loaded_user_files
    ∧ (kfRequireLogs co cfg c).explicit_user_config_files = c.explicit_user_config_files
    ∧ (kfRequireLogs co cfg c).template = c.template
    ∧ (kfRequireLogs co cfg c).title = c.title
    ∧ (kfRequireLogs co cfg c).report_comment = c.report_comment
    ∧ (kfRequireLogs co cfg c).prepend_dirs = c.prepend_dirs
    ∧ (kfRequireLogs co cfg c).prepend_dirs_depth = c.prepend_dirs_depth
    ∧ (kfRequireLogs co cfg c).output_dir = c.output_dir
    ∧ (kfRequireLogs co cfg c).use_filename_as_sample_name = c.use_filename_as_sample_name
    ∧ (kfRequireLogs co cfg c).make_data_dir = c.make_data_dir
    ∧ (kfRequireLogs co cfg c).force = c.force
    ∧ (kfRequireLogs co cfg c).ignore_symlinks = c.ignore_symlinks
    ∧ (kfRequireLogs co cfg c).zip_data_dir = c.zip_data_dir
    ∧ (kfRequireLogs co cfg c).data_format = c.data_format
    ∧ (kfRequireLogs co cfg c).export_plots = c.export_plots
    ∧ (kfRequireLogs co cfg c).make_report = c.make_report
    ∧ (kfRequireLogs co cfg c).plots_force_flat = c.plots_force_flat
    ∧ (kfRequireLogs co cfg c).plots_force_interactive = c.plots_force_interactive
    ∧ (kfRequireLogs co cfg c).strict = c.strict
    ∧ (kfRequireLogs co cfg c).lint = c.lint
    ∧ (kfRequireLogs co cfg c).development = c.development
    ∧ (kfRequireLogs co cfg c).make_pdf = c.make_pdf
    ∧ (kfRequireLogs co cfg c).simple_output = c.simple_output
    ∧ (kfRequireLogs co cfg c).filename = c.filename
    ∧ (kfRequireLogs co cfg c).megaqc_upload = c.megaqc_upload
    ∧ (kfRequireLogs co cfg c).fn_clean_sample_names = c.fn_clean_sample_names
    ∧ (kfRequireLogs co cfg c).sample_names_replace = c.sample_names_replace
    ∧ (kfRequireLogs co cfg c).sample_names_rename = c.sample_names_rename
    ∧ (kfRequireLogs co cfg c).show_hide_rules = c.show_hide_rules
    ∧ (kfRequireLogs co cfg c).run_modules = c.run_modules
    ∧ (kfRequireLogs co cfg c).exclude_modules = c.exclude_modules
    ∧ (kfRequireLogs co cfg c).require_logs = (if cfg.require_logs.isSome then cfg.require_logs.getD c.require_logs else c.require_logs)
    ∧ (kfRequireLogs co cfg c).profile_runtime = c.profile_runtime
    ∧ (kfRequireLogs co cfg c).profile_memory = c.profile_memory
    ∧ (kfRequireLogs co cfg c).no_version_check = c.no_version_check
    ∧ (kfRequireLogs co cfg c).custom_css_files = c.custom_css_files
    ∧ (kfRequireLogs co cfg c).module_order = c.module_order
    ∧ (kfRequireLogs co cfg c).fn_clean_exts = c.fn_clean_exts
    ∧ (kfRequireLogs co cfg c).fn_clean_trim = c.fn_clean_trim
    ∧ (kfRequireLogs co cfg c).preserve_module_raw_data = c.preserve_module_raw_data
    ∧ (kfRequireLogs co cfg c).data_dump_file_write_raw = c.data_dump_file_write_raw
    ∧ (kfRequireLogs co cfg c).ai_summary = c.ai_summary
    ∧ (kfRequireLogs co cfg c).ai_summary_full = c.ai_summary_full
    ∧ (kfRequireLogs co cfg c).ai_provider = c.ai_provider
    ∧ (kfRequireLogs co cfg c).ai_model = c.ai_model
    ∧ (kfRequireLogs co cfg c).ai_custom_endpoint = c.ai_custom_endpoint
    ∧ (kfRequireLogs co cfg c).ai_custom_context_window = c.ai_custom_context_window
    ∧ (kfRequireLogs co cfg c).ai_prompt_short = c.ai_prompt_short
    ∧ (kfRequireLogs co cfg c).ai_prompt_full = c.ai_prompt_full
    ∧ (kfRequireLogs co cfg c).no_ai = c.no_ai
    ∧ (kfRequireLogs co cfg c).export_plot_formats = c.export_plot_formats
    ∧ (kfRequireLogs co cfg c).analysis_dir = c.analysis_dir
    ∧ (kfRequireLogs co cfg c).file_list = c.file_list
    ∧ (kfRequireLogs co cfg c).fn_ignore_files = c.fn_ignore_files
    ∧ (kfRequireLogs co cfg c).fn_ignore_dirs = c.fn_ignore_dirs
    ∧ (kfRequireLogs co cfg c).fn_ignore_paths = c.fn_ignore_paths
    ∧ (kfRequireLogs co cfg c).sample_names_ignore = c.sample_names_ignore
    ∧ (kfRequireLogs co cfg c).sample_names_only_include = c.sample_names_only_include
    ∧ (kfRequireLogs co cfg c).top_modules = c.top_modules
    ∧ (kfRequireLogs co cfg c).kwargs = c.kwargs := by
  by_cases h : cfg.require_logs.isSome = true <;> simp [kfRequireLogs, h]

@[simp] theorem kfProfileRuntime_fields (co : Collaborators) (cfg : ClConfig) (c : Config) :
    (kfProfileRuntime co cfg c).quiet = c.quiet
    ∧ (kfProfileRuntime co cfg c).no_ansi = c.no_ansi
    ∧ (kfProfileRuntime co cfg c).verbose = c.verbose
    ∧ (kfProfileRuntime co cfg c).loaded_user_files = c.loaded_user_files
    ∧ (kfProfileRuntime co cfg c).explicit_user_config_files = c.explicit_user_config_files
    ∧ (kfProfileRuntime co cfg c).template = c.template
    ∧ (kfProfileRuntime co cfg c).title = c.title
    ∧ (kfProfileRuntime co cfg c).report_comment = c.report_comment
    ∧ (kfProfileRuntime co cfg c).prepend_dirs = c.prepend_dirs
    ∧ (kfProfileRuntime co cfg c).prepend_dirs_depth = c.prepend_dirs_depth
    ∧ (kfProfileRuntime co cfg c).output_dir = c.output_dir
    ∧ (kfProfileRuntime co cfg c).use_filename_as_sample_name = c.use_filename_as_sample_name
    ∧ (kfProfileRuntime co cfg c).make_data_dir = c.make_data_dir
    ∧ (kfProfileRuntime co cfg c).force = c.force
    ∧ (kfProfileRuntime co cfg c).ignore_symlinks = c.ignore_symlinks
    ∧ (kfProfileRuntime co cfg c).zip_data_dir = c.zip_data_dir
    ∧ (kfProfileRuntime co cfg c).data_format = c.data_format
    ∧ (kfProfileRuntime co cfg c).export_plots = c.export_plots
    ∧ (kfProfileRuntime co cfg c).make_report = c.make_report
    ∧ (kfProfileRuntime co cfg c).plots_force_flat = c.plots_force_flat
    ∧ (kfProfileRuntime co cfg c).plots_force_interactive = c.plots_force_interactive
    ∧ (kfProfileRuntime co cfg c).strict = c.strict
    ∧ (kfProfileRuntime co cfg c).lint = c.lint
    ∧ (kfProfileRuntime co cfg c).development = c.development
    ∧ (kfProfileRuntime co cfg c).make_pdf = c.make_pdf
    ∧ (kfProfileRuntime co cfg c).simple_output = c.simple_output
    ∧ (kfProfileRuntime co cfg c).filename = c.filename
    ∧ (kfProfileRuntime co cfg c).megaqc_upload = c.megaqc_upload
    ∧ (kfProfileRuntime co cfg c).fn_clean_sample_names = c.fn_clean_sample_names
    ∧ (kfProfileRuntime co cfg c).sample_names_replace = c.sample_names_replace
    ∧ (kfProfileRuntime co cfg c).sample_names_rename = c.sample_names_rename
    ∧ (kfProfileRuntime co cfg c).show_hide_rules = c.show_hide_rules
    ∧ (kfProfileRuntime co cfg c).run_modules = c.run_modules
    ∧ (kfProfileRuntime co cfg c).exclude_modules = c.exclude_modules
    ∧ (kfProfileRuntime co cfg c).require_logs = c.require_logs
    ∧ (kfProfileRuntime co cfg c).profile_runtime = (if cfg.profile_runtime.isSome then cfg.profile_runtime.getD c.profile_runtime else c.profile_runtime)
    ∧ (kfProfileRuntime co cfg c).profile_memory = c.profile_memory
    ∧ (kfProfileRuntime co cfg c).no_version_check = c.no_version_check
    ∧ (kfProfileRuntime co cfg c).custom_css_files = c.custom_css_files
    ∧ (kfProfileRuntime co cfg c).module_order = c.module_order
    ∧ (kfProfileRuntime co cfg c).fn_clean_exts = c.fn_clean_exts
    ∧ (kfProfileRuntime co cfg c).fn_clean_trim = c.fn_clean_trim
    ∧ (kfProfileRuntime co cfg c).preserve_module_raw_data = c.preserve_module_raw_data
    ∧ (kfProfileRuntime co cfg c).data_dump_file_write_raw = c.data_dump_file_write_raw
    ∧ (kfProfileRuntime co cfg c).ai_summary = c.ai_summary
    ∧ (kfProfileRuntime co cfg c).ai_summary_full = c.ai_summary_full
    ∧ (kfProfileRuntime co cfg c).ai_provider = c.ai_provider
    ∧ (kfProfileRuntime co cfg c).ai_model = c.ai_model
    ∧ (kfProfileRuntime co cfg c).ai_custom_endpoint = c.ai_custom_endpoint
    ∧ (kfProfileRuntime co cfg c).ai_custom_context_window = c.ai_custom_context_window
    ∧ (kfProfileRuntime co cfg c).ai_prompt_short = c.ai_prompt_short
    ∧ (kfProfileRuntime co cfg c).ai_prompt_full = c.ai_prompt_full
    ∧ (kfProfileRuntime co cfg c).no_ai = c.no_ai
    ∧ (kfProfileRuntime co cfg c).export_plot_formats = c.export_plot_formats
    ∧ (kfProfileRuntime co cfg c).analysis_dir = c.analysis_dir
    ∧ (kfProfileRuntime co cfg c).file_list = c.file_list
    ∧ (kfProfileRuntime co cfg c).fn_ignore_files = c.fn_ignore_files
    ∧ (kfProfileRuntime co cfg c).fn_ignore_dirs = c.fn_ignore_dirs
    ∧ (kfProfileRuntime co cfg c).fn_ignore_paths = c.fn_ignore_paths
    ∧ (kfProfileRuntime co cfg c).sample_names_ignore = c.sample_names_ignore
    ∧ (kfProfileRuntime co cfg c).sample_names_only_include = c.sample_names_only_include
    ∧ (kfProfileRuntime co cfg c).top_modules = c.top_modules
    ∧ (kfProfileRuntime co cfg c).kwargs = c.kwargs := by
  by_cases h : cfg.profile_runtime.isSome = true <;> simp [kfProfileRuntime, h]

@[simp] theorem kfProfileMemory_fields (co : Collaborators) (cfg : ClConfig) (c : Config) :
    (kfProfileMemory co cfg c).quiet = c.quiet
    ∧ (kfProfileMemory co cfg c).no_ansi = c.no_ansi
    ∧ (kfProfileMemory co cfg c).verbose = c.verbose
    ∧ (kfProfileMemory co cfg c).loaded_user_files = c.loaded_user_files
    ∧ (kfProfileMemory co cfg c).explicit_user_config_files = c.explicit_user_config_files
    ∧ (kfProfileMemory co cfg c).template = c.template
    ∧ (kfProfileMemory co cfg c).title = c.title
    ∧ (kfProfileMemory co cfg c).report_comment = c.report_comment
    ∧ (kfProfileMemory co cfg c).prepend_dirs = c.prepend_dirs
    ∧ (kfProfileMemory co cfg c).prepend_dirs_depth = c.prepend_dirs_depth
    ∧ (kfProfileMemory co cfg c).output_dir = c.output_dir
    ∧ (kfProfileMemory co cfg c).use_filename_as_sample_name = c.use_filename_as_sample_name
    ∧ (kfProfileMemory co cfg c).make_data_dir = c.make_data_dir
    ∧ (kfProfileMemory co cfg c).force = c.force
    ∧ (kfProfileMemory co cfg c).ignore_symlinks = c.ignore_symlinks
    ∧ (kfProfileMemory co cfg c).zip_data_dir = c.zip_data_dir
    ∧ (kfProfileMemory co cfg c).data_format = c.data_format
    ∧ (kfProfileMemory co cfg c).export_plots = c.export_plots
    ∧ (kfProfileMemory co cfg c).make_report = c.make_report
    ∧ (kfProfileMemory co cfg c).plots_force_flat = c.plots_force_flat
    ∧ (kfProfileMemory co cfg c).plots_force_interactive = c.plots_force_interactive
    ∧ (kfProfileMemory co cfg c).strict = c.strict
    ∧ (kfProfileMemory co cfg c).lint = c.lint
    ∧ (kfProfileMemory co cfg c).development = c.development
    ∧ (kfProfileMemory co cfg c).make_pdf = c.make_pdf
    ∧ (kfProfileMemory co cfg c).simple_output = c.simple_output
    ∧ (kfProfileMemory co cfg c).filename = c.filename
    ∧ (kfProfileMemory co cfg c).megaqc_upload = c.megaqc_upload
    ∧ (kfProfileMemory co cfg c).fn_clean_sample_names = c.fn_clean_sample_names
    ∧ (kfProfileMemory co cfg c).sample_names_replace = c.sample_names_replace
    ∧ (kfProfileMemory co cfg c).sample_names_rename = c.sample_names_rename
    ∧ (kfProfileMemory co cfg c).show_hide_rules = c.show_hide_rules
    ∧ (kfProfileMemory co cfg c).run_modules = c.run_modules
    ∧ (kfProfileMemory co cfg c).exclude_modules = c.exclude_modules
    ∧ (kfProfileMemory co cfg c).require_logs = c.require_logs
    ∧ (kfProfileMemory co cfg c).profile_runtime = (if cfg.profile_memory.isSome then cfg.profile_memory.getD c.profile_runtime else c.profile_runtime)
    ∧ (kfProfileMemory co cfg c).profile_memory = (if cfg.profile_memory.isSome then cfg.profile_memory.getD c.profile_memory else c.profile_memory)
    ∧ (kfProfileMemory co cfg c).no_version_check = c.no_version_check
    ∧ (kfProfileMemory co cfg c).custom_css_files = c.custom_css_files
    ∧ (kfProfileMemory co cfg c).module_order = c.module_order
    ∧ (kfProfileMemory co cfg c).fn_clean_exts = c.fn_clean_exts
    ∧ (kfProfileMemory co cfg c).fn_clean_trim = c.fn_clean_trim
    ∧ (kfProfileMemory co cfg c).preserve_module_raw_data = c.preserve_module_raw_data
    ∧ (kfProfileMemory co cfg c).data_dump_file_write_raw = c.data_dump_file_write_raw
    ∧ (kfProfileMemory co cfg c).ai_summary = c.ai_summary
    ∧ (kfProfileMemory co cfg c).ai_summary_full = c.ai_summary_full
    ∧ (kfProfileMemory co cfg c).ai_provider = c.ai_provider
    ∧ (kfProfileMemory co cfg c).ai_model = c.ai_model
    ∧ (kfProfileMemory co cfg c).ai_custom_endpoint = c.ai_custom_endpoint
    ∧ (kfProfileMemory co cfg c).ai_custom_context_window = c.ai_custom_context_window
    ∧ (kfProfileMemory co cfg c).ai_prompt_short = c.ai_prompt_short
    ∧ (kfProfileMemory co cfg c).ai_prompt_full = c.ai_prompt_full
    ∧ (kfProfileMemory co cfg c).no_ai = c.no_ai
    ∧ (kfProfileMemory co cfg c).export_plot_formats = c.export_plot_formats
    ∧ (kfProfileMemory co cfg c).analysis_dir = c.analysis_dir
    ∧ (kfProfileMemory co cfg c).file_list = c.file_list
    ∧ (kfProfileMemory co cfg c).fn_ignore_files = c.fn_ignore_files
    ∧ (kfProfileMemory co cfg c).fn_ignore_dirs = c.fn_ignore_dirs
    ∧ (kfProfileMemory co cfg c).fn_ignore_paths = c.fn_ignore_paths
    ∧ (kfProfileMemory co cfg c).sample_names_ignore = c.sample_names_ignore
    ∧ (kfProfileMemory co cfg c).sample_names_only_include = c.sample_names_only_include
    ∧ (kfProfileMemory co cfg c).top_modules = c.top_modules
    ∧ (kfProfileMemory co cfg c).kwargs = c.kwargs := by
  by_cases h : cfg.profile_memory.isSome = true <;> simp [kfProfileMemory, h]

@[simp] theorem kfNoVersionCheck_fields (co : Collaborators) (cfg : ClConfig) (c : Config) :
    (kfNoVersionCheck co cfg c).quiet = c.quiet
    ∧ (kfNoVersionCheck co cfg c).no_ansi = c.no_ansi
    ∧ (kfNoVersionCheck co cfg c).verbose = c.verbose
    ∧ (kfNoVersionCheck co cfg c).loaded_user_files = c.loaded_user_files
    ∧ (kfNoVersionCheck co cfg c).explicit_user_config_files = c.explicit_user_config_files
    ∧ (kfNoVersionCheck co cfg c).template = c.template
    ∧ (kfNoVersionCheck co cfg c).title = c.title
    ∧ (kfNoVersionCheck co cfg c).report_comment = c.report_comment
    ∧ (kfNoVersionCheck co cfg c).prepend_dirs = c.prepend_dirs
    ∧ (kfNoVersionCheck co cfg c).prepend_dirs_depth = c.prepend_dirs_depth
    ∧ (kfNoVersionCheck co cfg c).output_dir = c.output_dir
    ∧ (kfNoVersionCheck co cfg c).use_filename_as_sample_name = c.use_filename_as_sample_name
    ∧ (kfNoVersionCheck co cfg c).make_data_dir = c.make_data_dir
    ∧ (kfNoVersionCheck co cfg c).force = c.force
    ∧ (kfNoVersionCheck co cfg c).ignore_symlinks = c.ignore_symlinks
    ∧ (kfNoVersionCheck co cfg c).zip_data_dir = c.zip_data_dir
    ∧ (kfNoVersionCheck co cfg c).data_format = c.data_format
    ∧ (kfNoVersionCheck co cfg c).export_plots = c.export_plots
    ∧ (kfNoVersionCheck co cfg c).make_report = c.make_report
    ∧ (kfNoVersionCheck co cfg c).plots_force_flat = c.plots_force_flat
    ∧ (kfNoVersionCheck co cfg c).plots_force_interactive = c.plots_force_interactive
    ∧ (kfNoVersionCheck co cfg c).strict = c.strict
    ∧ (kfNoVersionCheck co cfg c).lint = c.lint
    ∧ (kfNoVersionCheck co cfg c).development = c.development
    ∧ (kfNoVersionCheck co cfg c).make_pdf = c.make_pdf
    ∧ (kfNoVersionCheck co cfg c).simple_output = c.simple_output
    ∧ (kfNoVersionCheck co cfg c).filename = c.filename
    ∧ (kfNoVersionCheck co cfg c).megaqc_upload = c.megaqc_upload
    ∧ (kfNoVersionCheck co cfg c).fn_clean_sample_names = c.fn_clean_sample_names
    ∧ (kfNoVersionCheck co cfg c).sample_names_replace = c.sample_names_replace
    ∧ (kfNoVersionCheck co cfg c).sample_names_rename = c.sample_names_rename
    ∧ (kfNoVersionCheck co cfg c).show_hide_rules = c.show_hide_rules
    ∧ (kfNoVersionCheck co cfg c).run_modules = c.run_modules
    ∧ (kfNoVersionCheck co cfg c).exclude_modules = c.exclude_modules
    ∧ (kfNoVersionCheck co cfg c).require_logs = c.require_logs
    ∧ (kfNoVersionCheck co cfg c).profile_runtime = c.profile_runtime
    ∧ (kfNoVersionCheck co cfg c).profile_memory = c.profile_memory
    ∧ (kfNoVersionCheck co cfg c).no_version_check = (if cfg.no_version_check.isSome then cfg.no_version_check.getD c.no_version_check else c.no_version_check)
    ∧ (kfNoVersionCheck co cfg c).custom_css_files = c.custom_css_files
    ∧ (kfNoVersionCheck co cfg c).module_order = c.module_order
    ∧ (kfNoVersionCheck co cfg c).fn_clean_exts = c.fn_clean_exts
    ∧ (kfNoVersionCheck co cfg c).fn_clean_trim = c.fn_clean_trim
    ∧ (kfNoVersionCheck co cfg c).preserve_module_raw_data = c.preserve_module_raw_data
    ∧ (kfNoVersionCheck co cfg c).data_dump_file_write_raw = c.data_dump_file_write_raw
    ∧ (kfNoVersionCheck co cfg c).ai_summary = c.ai_summary
    ∧ (kfNoVersionCheck co cfg c).ai_summary_full = c.ai_summary_full
    ∧ (kfNoVersionCheck co cfg c).ai_provider = c.ai_provider
    ∧ (kfNoVersionCheck co cfg c).ai_model = c.ai_model
    ∧ (kfNoVersionCheck co cfg c).ai_custom_endpoint = c.ai_custom_endpoint
    ∧ (kfNoVersionCheck co cfg c).ai_custom_context_window = c.ai_custom_context_window
    ∧ (kfNoVersionCheck co cfg c).ai_prompt_short = c.ai_prompt_short
    ∧ (kfNoVersionCheck co cfg c).ai_prompt_full = c.ai_prompt_full
    ∧ (kfNoVersionCheck co cfg c).no_ai = c.no_ai
    ∧ (kfNoVersionCheck co cfg c).export_plot_formats = c.export_plot_formats
    ∧ (kfNoVersionCheck co cfg c).analysis_dir = c.analysis_dir
    ∧ (kfNoVersionCheck co cfg c).file_list = c.file_list
    ∧ (kfNoVersionCheck co cfg c).fn_ignore_files = c.fn_ignore_files
    ∧ (kfNoVersionCheck co cfg c).fn_ignore_dirs = c.fn_ignore_dirs
    ∧ (kfNoVersionCheck co cfg c).fn_ignore_paths = c.fn_ignore_paths
    ∧ (kfNoVersionCheck co cfg c).sample_names_ignore = c.sample_names_ignore
    ∧ (kfNoVersionCheck co cfg c).sample_names_only_include = c.sample_names_only_include
    ∧ (kfNoVersionCheck co cfg c).top_modules = c.top_modules
    ∧ (kfNoVersionCheck co cfg c).kwargs = c.kwargs := by
  by_cases h : cfg.no_version_check.isSome = true <;> simp [kfNoVersionCheck, h]

@[simp] theorem kfCustomCssFiles_fields (co : Collaborators) (cfg : ClConfig) (c : Config) :
    (kfCustomCssFiles co cfg c).quiet = c.quiet
    ∧ (kfCustomCssFiles co cfg c).no_ansi = c.no_ansi
    ∧ (kfCustomCssFiles co cfg c).verbose = c.verbose
    ∧ (kfCustomCssFiles co cfg c).loaded_user_files = c.loaded_user_files
    ∧ (kfCustomCssFiles co cfg c).explicit_user_config_files = c.explicit_user_config_files
    ∧ (kfCustomCssFiles co cfg c).template = c.template
    ∧ (kfCustomCssFiles co cfg c).title = c.title
    ∧ (kfCustomCssFiles co cfg c).report_comment = c.report_comment
    ∧ (kfCustomCssFiles co cfg c).prepend_dirs = c.prepend_dirs
    ∧ (kfCustomCssFiles co cfg c).prepend_dirs_depth = c.prepend_dirs_depth
    ∧ (kfCustomCssFiles co cfg c).output_dir = c.output_dir
    ∧ (kfCustomCssFiles co cfg c).use_filename_as_sample_name = c.use_filename_as_sample_name
    ∧ (kfCustomCssFiles co cfg c).make_data_dir = c.make_data_dir
    ∧ (kfCustomCssFiles co cfg c).force = c.force
    ∧ (kfCustomCssFiles co cfg c).ignore_symlinks = c.ignore_symlinks
    ∧ (kfCustomCssFiles co cfg c).zip_data_dir = c.zip_data_dir
    ∧ (kfCustomCssFiles co cfg c).data_format = c.data_format
    ∧ (kfCustomCssFiles co cfg c).export_plots = c.export_plots
    ∧ (kfCustomCssFiles co cfg c).make_report = c.make_report
    ∧ (kfCustomCssFiles co cfg c).plots_force_flat = c.plots_force_flat
    ∧ (kfCustomCssFiles co cfg c).plots_force_interactive = c.plots_force_interactive
    ∧ (kfCustomCssFiles co cfg c).strict = c.strict
    ∧ (kfCustomCssFiles co cfg c).lint = c.lint
    ∧ (kfCustomCssFiles co cfg c).development = c.development
    ∧ (kfCustomCssFiles co cfg c).make_pdf = c.make_pdf
    ∧ (kfCustomCssFiles co cfg c).simple_output = c.simple_output
    ∧ (kfCustomCssFiles co cfg c).filename = c.filename
    ∧ (kfCustomCssFiles co cfg c).megaqc_upload = c.megaqc_upload
    ∧ (kfCustomCssFiles co cfg c).fn_clean_sample_names = c.fn_clean_sample_names
    ∧ (kfCustomCssFiles co cfg c).sample_names_replace = c.sample_names_replace
    ∧ (kfCustomCssFiles co cfg c).sample_names_rename = c.sample_names_rename
    ∧ (kfCustomCssFiles co cfg c).show_hide_rules = c.show_hide_rules
    ∧ (kfCustomCssFiles co cfg c).run_modules = c.run_modules
    ∧ (kfCustomCssFiles co cfg c).exclude_modules = c.exclude_modules
    ∧ (kfCustomCssFiles co cfg c).require_logs = c.require_logs
    ∧ (kfCustomCssFiles co cfg c).profile_runtime = c.profile_runtime
    ∧ (kfCustomCssFiles co cfg c).profile_memory = c.profile_memory
    ∧ (kfCustomCssFiles co cfg c).no_version_check = c.no_version_check
    ∧ (kfCustomCssFiles co cfg c).custom_css_files = (if cfg.custom_css_files.length > 0 then c.custom_css_files ++ cfg.custom_css_files else c.custom_css_files)
    ∧ (kfCustomCssFiles co cfg c).module_order = c.module_order
    ∧ (kfCustomCssFiles co cfg c).fn_clean_exts = c.fn_clean_exts
    ∧ (kfCustomCssFiles co cfg c).fn_clean_trim = c.fn_clean_trim
    ∧ (kfCustomCssFiles co cfg c).preserve_module_raw_data = c.preserve_module_raw_data
    ∧ (kfCustomCssFiles co cfg c).data_dump_file_write_raw = c.data_dump_file_write_raw
    ∧ (kfCustomCssFiles co cfg c).ai_summary = c.ai_summary
    ∧ (kfCustomCssFiles co cfg c).ai_summary_full = c.ai_summary_full
    ∧ (kfCustomCssFiles co cfg c).ai_provider = c.ai_provider
    ∧ (kfCustomCssFiles co cfg c).ai_model = c.ai_model
    ∧ (kfCustomCssFiles co cfg c).ai_custom_endpoint = c.ai_custom_endpoint
    ∧ (kfCustomCssFiles co cfg c).ai_custom_context_window = c.ai_custom_context_window
    ∧ (kfCustomCssFiles co cfg c).ai_prompt_short = c.ai_prompt_short
    ∧ (kfCustomCssFiles co cfg c).ai_prompt_full = c.ai_prompt_full
    ∧ (kfCustomCssFiles co cfg c).no_ai = c.no_ai
    ∧ (kfCustomCssFiles co cfg c).export_plot_formats = c.export_plot_formats
    ∧ (kfCustomCssFiles co cfg c).analysis_dir = c.analysis_dir
    ∧ (kfCustomCssFiles co cfg c).file_list = c.file_list
    ∧ (kfCustomCssFiles co cfg c).fn_ignore_files = c.fn_ignore_files
    ∧ (kfCustomCssFiles co cfg c).fn_ignore_dirs = c.fn_ignore_dirs
    ∧ (kfCustomCssFiles co cfg c).fn_ignore_paths = c.fn_ignore_paths
    ∧ (kfCustomCssFiles co cfg c).sample_names_ignore = c.sample_names_ignore
    ∧ (kfCustomCssFiles co cfg c).sample_names_only_include = c.sample_names_only_include
    ∧ (kfCustomCssFiles co cfg c).top_modules = c.top_modules
    ∧ (kfCustomCssFiles co cfg c).kwargs = c.kwargs := by
  by_cases h : cfg.custom_css_files.length > 0 <;> simp [kfCustomCssFiles, h]

@[simp] theorem kfModuleOrder_fields (co : Collaborators) (cfg : ClConfig) (c : Config) :
    (kfModuleOrder co cfg c).quiet = c.quiet
    ∧ (kfModuleOrder co cfg c).no_ansi = c.no_ansi
    ∧ (kfModuleOrder co cfg c).verbose = c.verbose
    ∧ (kfModuleOrder co cfg c).loaded_user_files = c.loaded_user_files
    ∧ (kfModuleOrder co cfg c).explicit_user_config_files = c.explicit_user_config_files
    ∧ (kfModuleOrder co cfg c).template = c.template
    ∧ (kfModuleOrder co cfg c).title = c.title
    ∧ (kfModuleOrder co cfg c).report_comment = c.report_comment
    ∧ (kfModuleOrder co cfg c).prepend_dirs = c.prepend_dirs
    ∧ (kfModuleOrder co cfg c).prepend_dirs_depth = c.prepend_dirs_depth
    ∧ (kfModuleOrder co cfg c).output_dir = c.output_dir
    ∧ (kfModuleOrder co cfg c).use_filename_as_sample_name = c.use_filename_as_sample_name
    ∧ (kfModuleOrder co cfg c).make_data_dir = c.make_data_dir
    ∧ (kfModuleOrder co cfg c).force = c.force
    ∧ (kfModuleOrder co cfg c).ignore_symlinks = c.ignore_symlinks
    ∧ (kfModuleOrder co cfg c).zip_data_dir = c.zip_data_dir
    ∧ (kfModuleOrder co cfg c).data_format = c.data_format
    ∧ (kfModuleOrder co cfg c).export_plots = c.export_plots
    ∧ (kfModuleOrder co cfg c).make_report = c.make_report
    ∧ (kfModuleOrder co cfg c).plots_force_flat = c.plots_force_flat
    ∧ (kfModuleOrder co cfg c).plots_force_interactive = c.plots_force_interactive
    ∧ (kfModuleOrder co cfg c).strict = c.strict
    ∧ (kfModuleOrder co cfg c).lint = c.lint
    ∧ (kfModuleOrder co cfg c).development = c.development
    ∧ (kfModuleOrder co cfg c).make_pdf = c.make_pdf
    ∧ (kfModuleOrder co cfg c).simple_output = c.simple_output
    ∧ (kfModuleOrder co cfg c).filename = c.filename
    ∧ (kfModuleOrder co cfg c).megaqc_upload = c.megaqc_upload
    ∧ (kfModuleOrder co cfg c).fn_clean_sample_names = c.fn_clean_sample_names
    ∧ (kfModuleOrder co cfg c).sample_names_replace = c.sample_names_replace
    ∧ (kfModuleOrder co cfg c).sample_names_rename = c.sample_names_rename
    ∧ (kfModuleOrder co cfg c).show_hide_rules = c.show_hide_rules
    ∧ (kfModuleOrder co cfg c).run_modules = c.run_modules
    ∧ (kfModuleOrder co cfg c).exclude_modules = c.exclude_modules
    ∧ (kfModuleOrder co cfg c).require_logs = c.require_logs
    ∧ (kfModuleOrder co cfg c).profile_runtime = c.profile_runtime
    ∧ (kfModuleOrder co cfg c).profile_memory = c.profile_memory
    ∧ (kfModuleOrder co cfg c).no_version_check = c.no_version_check
    ∧ (kfModuleOrder co cfg c).custom_css_files = c.custom_css_files
    ∧ (kfModuleOrder co cfg c).module_order = (if cfg.module_order.length > 0 then cfg.module_order else c.module_order)
    ∧ (kfModuleOrder co cfg c).fn_clean_exts = c.fn_clean_exts
    ∧ (kfModuleOrder co cfg c).fn_clean_trim = c.fn_clean_trim
    ∧ (kfModuleOrder co cfg c).preserve_module_raw_data = c.preserve_module_raw_data
    ∧ (kfModuleOrder co cfg c).data_dump_file_write_raw = c.data_dump_file_write_raw
    ∧ (kfModuleOrder co cfg c).ai_summary = c.ai_summary
    ∧ (kfModuleOrder co cfg c).ai_summary_full = c.ai_summary_full
    ∧ (kfModuleOrder co cfg c).ai_provider = c.ai_provider
    ∧ (kfModuleOrder co cfg c).ai_model = c.ai_model
    ∧ (kfModuleOrder co cfg c).ai_custom_endpoint = c.ai_custom_endpoint
    ∧ (kfModuleOrder co cfg c).ai_custom_context_window = c.ai_custom_context_window
    ∧ (kfModuleOrder co cfg c).ai_prompt_short = c.ai_prompt_short
    ∧ (kfModuleOrder co cfg c).ai_prompt_full = c.ai_prompt_full
    ∧ (kfModuleOrder co cfg c).no_ai = c.no_ai
    ∧ (kfModuleOrder co cfg c).export_plot_formats = c.export_plot_formats
    ∧ (kfModuleOrder co cfg c).analysis_dir = c.analysis_dir
    ∧ (kfModuleOrder co cfg c).file_list = c.file_list
    ∧ (kfModuleOrder co cfg c).fn_ignore_files = c.fn_ignore_files
    ∧ (kfModuleOrder co cfg c).fn_ignore_dirs = c.fn_ignore_dirs
    ∧ (kfModuleOrder co cfg c).fn_ignore_paths = c.fn_ignore_paths
    ∧ (kfModuleOrder co cfg c).sample_names_ignore = c.sample_names_ignore
    ∧ (kfModuleOrder co cfg c).sample_names_only_include = c.sample_names_only_include
    ∧ (kfModuleOrder co cfg c).top_modules = c.top_modules
    ∧ (kfModuleOrder co cfg c).kwargs = c.kwargs := by
  by_cases h : cfg.module_order.length > 0 <;> simp [kfModuleOrder, h]

@[simp] theorem kfExtraFnCleanExts_fields (co : Collaborators) (cfg : ClConfig) (c : Config) :
    (kfExtraFnCleanExts co cfg c).quiet = c.quiet
    ∧ (kfExtraFnCleanExts co cfg c).no_ansi = c.no_ansi
    ∧ (kfExtraFnCleanExts co cfg c).verbose = c.verbose
    ∧ (kfExtraFnCleanExts co cfg c).loaded_user_files = c.loaded_user_files
    ∧ (kfExtraFnCleanExts co cfg c).explicit_user_config_files = c.explicit_user_config_files
    ∧ (kfExtraFnCleanExts co cfg c).template = c.template
    ∧ (kfExtraFnCleanExts co cfg c).title = c.title
    ∧ (kfExtraFnCleanExts co cfg c).report_comment = c.report_comment
    ∧ (kfExtraFnCleanExts co cfg c).prepend_dirs = c.prepend_dirs
    ∧ (kfExtraFnCleanExts co cfg c).prepend_dirs_depth = c.prepend_dirs_depth
    ∧ (kfExtraFnCleanExts co cfg c).output_dir = c.output_dir
    ∧ (kfExtraFnCleanExts co cfg c).use_filename_as_sample_name = c.use_filename_as_sample_name
    ∧ (kfExtraFnCleanExts co cfg c).make_data_dir = c.make_data_dir
    ∧ (kfExtraFnCleanExts co cfg c).force = c.force
    ∧ (kfExtraFnCleanExts co cfg c).ignore_symlinks = c.ignore_symlinks
    ∧ (kfExtraFnCleanExts co cfg c).zip_data_dir = c.zip_data_dir
    ∧ (kfExtraFnCleanExts co cfg c).data_format = c.data_format
    ∧ (kfExtraFnCleanExts co cfg c).export_plots = c.export_plots
    ∧ (kfExtraFnCleanExts co cfg c).make_report = c.make_report
    ∧ (kfExtraFnCleanExts co cfg c).plots_force_flat = c.plots_force_flat
    ∧ (kfExtraFnCleanExts co cfg c).plots_force_interactive = c.plots_force_interactive
    ∧ (kfExtraFnCleanExts co cfg c).strict = c.strict
    ∧ (kfExtraFnCleanExts co cfg c).lint = c.lint
    ∧ (kfExtraFnCleanExts co cfg c).development = c.development
    ∧ (kfExtraFnCleanExts co cfg c).make_pdf = c.make_pdf
    ∧ (kfExtraFnCleanExts co cfg c).simple_output = c.simple_output
    ∧ (kfExtraFnCleanExts co cfg c).filename = c.filename
    ∧ (kfExtraFnCleanExts co cfg c).megaqc_upload = c.megaqc_upload
    ∧ (kfExtraFnCleanExts co cfg c).fn_clean_sample_names = c.fn_clean_sample_names
    ∧ (kfExtraFnCleanExts co cfg c).sample_names_replace = c.sample_names_replace
    ∧ (kfExtraFnCleanExts co cfg c).sample_names_rename = c.sample_names_rename
    ∧ (kfExtraFnCleanExts co cfg c).show_hide_rules = c.show_hide_rules
    ∧ (kfExtraFnCleanExts co cfg c).run_modules = c.run_modules
    ∧ (kfExtraFnCleanExts co cfg c).exclude_modules = c.exclude_modules
    ∧ (kfExtraFnCleanExts co cfg c).require_logs = c.require_logs
    ∧ (kfExtraFnCleanExts co cfg c).profile_runtime = c.profile_runtime
    ∧ (kfExtraFnCleanExts co cfg c).profile_memory = c.profile_memory
    ∧ (kfExtraFnCleanExts co cfg c).no_version_check = c.no_version_check
    ∧ (kfExtraFnCleanExts co cfg c).custom_css_files = c.custom_css_files
    ∧ (kfExtraFnCleanExts co cfg c).module_order = c.module_order
    ∧ (kfExtraFnCleanExts co cfg c).fn_clean_exts = (if cfg.extra_fn_clean_exts.length > 0 then cfg.extra_fn_clean_exts ++ c.fn_clean_exts else c.fn_clean_exts)
    ∧ (kfExtraFnCleanExts co cfg c).fn_clean_trim = c.fn_clean_trim
    ∧ (kfExtraFnCleanExts co cfg c).preserve_module_raw_data = c.preserve_module_raw_data
    ∧ (kfExtraFnCleanExts co cfg c).data_dump_file_write_raw = c.data_dump_file_write_raw
    ∧ (kfExtraFnCleanExts co cfg c).ai_summary = c.ai_summary
    ∧ (kfExtraFnCleanExts co cfg c).ai_summary_full = c.ai_summary_full
    ∧ (kfExtraFnCleanExts co cfg c).ai_provider = c.ai_provider
    ∧ (kfExtraFnCleanExts co cfg c).ai_model = c.ai_model
    ∧ (kfExtraFnCleanExts co cfg c).ai_custom_endpoint = c.ai_custom_endpoint
    ∧ (kfExtraFnCleanExts co cfg c).ai_custom_context_window = c.ai_custom_context_window
    ∧ (kfExtraFnCleanExts co cfg c).ai_prompt_short = c.ai_prompt_short
    ∧ (kfExtraFnCleanExts co cfg c).ai_prompt_full = c.ai_prompt_full
    ∧ (kfExtraFnCleanExts co cfg c).no_ai = c.no_ai
    ∧ (kfExtraFnCleanExts co cfg c).export_plot_formats = c.export_plot_formats
    ∧ (kfExtraFnCleanExts co cfg c).analysis_dir = c.analysis_dir
    ∧ (kfExtraFnCleanExts co cfg c).file_list = c.file_list
    ∧ (kfExtraFnCleanExts co cfg c).fn_ignore_files = c.fn_ignore_files
    ∧ (kfExtraFnCleanExts co cfg c).fn_ignore_dirs = c.fn_ignore_dirs
    ∧ (kfExtraFnCleanExts co cfg c).fn_ignore_paths = c.fn_ignore_paths
    ∧ (kfExtraFnCleanExts co cfg c).sample_names_ignore = c.sample_names_ignore
    ∧ (kfExtraFnCleanExts co cfg c).sample_names_only_include = c.sample_names_only_include
    ∧ (kfExtraFnCleanExts co cfg c).top_modules = c.top_modules
    ∧ (kfExtraFnCleanExts co cfg c).kwargs = c.kwargs := by
  by_cases h : cfg.extra_fn_clean_exts.length > 0 <;> simp [kfExtraFnCleanExts, h]

@[simp] theorem kfExtraFnCleanTrim_fields (co : Collaborators) (cfg : ClConfig) (c : Config) :
    (kfExtraFnCleanTrim co cfg c).quiet = c.quiet
    ∧ (kfExtraFnCleanTrim co cfg c).no_ansi = c.no_ansi
    ∧ (kfExtraFnCleanTrim co cfg c).verbose = c.verbose
    ∧ (kfExtraFnCleanTrim co cfg c).loaded_user_files = c.loaded_user_files
    ∧ (kfExtraFnCleanTrim co cfg c).explicit_user_config_files = c.explicit_user_config_files
    ∧ (kfExtraFnCleanTrim co cfg c).template = c.template
    ∧ (kfExtraFnCleanTrim co cfg c).title = c.title
    ∧ (kfExtraFnCleanTrim co cfg c).report_comment = c.report_comment
    ∧ (kfExtraFnCleanTrim co cfg c).prepend_dirs = c.prepend_dirs
    ∧ (kfExtraFnCleanTrim co cfg c).prepend_dirs_depth = c.prepend_dirs_depth
    ∧ (kfExtraFnCleanTrim co cfg c).output_dir = c.output_dir
    ∧ (kfExtraFnCleanTrim co cfg c).use_filename_as_sample_name = c.use_filename_as_sample_name
    ∧ (kfExtraFnCleanTrim co cfg c).make_data_dir = c.make_data_dir
    ∧ (kfExtraFnCleanTrim co cfg c).force = c.force
    ∧ (kfExtraFnCleanTrim co cfg c).ignore_symlinks = c.ignore_symlinks
    ∧ (kfExtraFnCleanTrim co cfg c).zip_data_dir = c.zip_data_dir
    ∧ (kfExtraFnCleanTrim co cfg c).data_format = c.data_format
    ∧ (kfExtraFnCleanTrim co cfg c).export_plots = c.export_plots
    ∧ (kfExtraFnCleanTrim co cfg c).make_report = c.make_report
    ∧ (kfExtraFnCleanTrim co cfg c).plots_force_flat = c.plots_force_flat
    ∧ (kfExtraFnCleanTrim co cfg c).plots_force_interactive = c.plots_force_interactive
    ∧ (kfExtraFnCleanTrim co cfg c).strict = c.strict
    ∧ (kfExtraFnCleanTrim co cfg c).lint = c.lint
    ∧ (kfExtraFnCleanTrim co cfg c).development = c.development
    ∧ (kfExtraFnCleanTrim co cfg c).make_pdf = c.make_pdf
    ∧ (kfExtraFnCleanTrim co cfg c).simple_output = c.simple_output
    ∧ (kfExtraFnCleanTrim co cfg c).filename = c.filename
    ∧ (kfExtraFnCleanTrim co cfg c).megaqc_upload = c.megaqc_upload
    ∧ (kfExtraFnCleanTrim co cfg c).fn_clean_sample_names = c.fn_clean_sample_names
    ∧ (kfExtraFnCleanTrim co cfg c).sample_names_replace = c.sample_names_replace
    ∧ (kfExtraFnCleanTrim co cfg c).sample_names_rename = c.sample_names_rename
    ∧ (kfExtraFnCleanTrim co cfg c).show_hide_rules = c.show_hide_rules
    ∧ (kfExtraFnCleanTrim co cfg c).run_modules = c.run_modules
    ∧ (kfExtraFnCleanTrim co cfg c).exclude_modules = c.exclude_modules
    ∧ (kfExtraFnCleanTrim co cfg c).require_logs = c.require_logs
    ∧ (kfExtraFnCleanTrim co cfg c).profile_runtime = c.profile_runtime
    ∧ (kfExtraFnCleanTrim co cfg c).profile_memory = c.profile_memory
    ∧ (kfExtraFnCleanTrim co cfg c).no_version_check = c.no_version_check
    ∧ (kfExtraFnCleanTrim co cfg c).custom_css_files = c.custom_css_files
    ∧ (kfExtraFnCleanTrim co cfg c).module_order = c.module_order
    ∧ (kfExtraFnCleanTrim co cfg c).fn_clean_exts = c.fn_clean_exts
    ∧ (kfExtraFnCleanTrim co cfg c).fn_clean_trim = (if cfg.extra_fn_clean_trim.length > 0 then cfg.extra_fn_clean_trim ++ c.fn_clean_trim else c.fn_clean_trim)
    ∧ (kfExtraFnCleanTrim co cfg c).preserve_module_raw_data = c.preserve_module_raw_data
    ∧ (kfExtraFnCleanTrim co cfg c).data_dump_file_write_raw = c.data_dump_file_write_raw
    ∧ (kfExtraFnCleanTrim co cfg c).ai_summary = c.ai_summary
    ∧ (kfExtraFnCleanTrim co cfg c).ai_summary_full = c.ai_summary_full
    ∧ (kfExtraFnCleanTrim co cfg c).ai_provider = c.ai_provider
    ∧ (kfExtraFnCleanTrim co cfg c).ai_model = c.ai_model
    ∧ (kfExtraFnCleanTrim co cfg c).ai_custom_endpoint = c.ai_custom_endpoint
    ∧ (kfExtraFnCleanTrim co cfg c).ai_custom_context_window = c.ai_custom_context_window
    ∧ (kfExtraFnCleanTrim co cfg c).ai_prompt_short = c.ai_prompt_short
    ∧ (kfExtraFnCleanTrim co cfg c).ai_prompt_full = c.ai_prompt_full
    ∧ (kfExtraFnCleanTrim co cfg c).no_ai = c.no_ai
    ∧ (kfExtraFnCleanTrim co cfg c).export_plot_formats = c.export_plot_formats
    ∧ (kfExtraFnCleanTrim co cfg c).analysis_dir = c.analysis_dir
    ∧ (kfExtraFnCleanTrim co cfg c).file_list = c.file_list
    ∧ (kfExtraFnCleanTrim co cfg c).fn_ignore_files = c.fn_ignore_files
    ∧ (kfExtraFnCleanTrim co cfg c).fn_ignore_dirs = c.fn_ignore_dirs
    ∧ (kfExtraFnCleanTrim co cfg c).fn_ignore_paths = c.fn_ignore_paths
    ∧ (kfExtraFnCleanTrim co cfg c).sample_names_ignore = c.sample_names_ignore
    ∧ (kfExtraFnCleanTrim co cfg c).sample_names_only_include = c.sample_names_only_include
    ∧ (kfExtraFnCleanTrim co cfg c).top_modules = c.top_modules
    ∧ (kfExtraFnCleanTrim co cfg c).kwargs = c.kwargs := by
  by_cases h : cfg.extra_fn_clean_trim.length > 0 <;> simp [kfExtraFnCleanTrim, h]

@[simp] theorem kfPreserveModuleRawData_fields (co : Collaborators) (cfg : ClConfig) (c : Config) :
    (kfPreserveModuleRawData co cfg c).quiet = c.quiet
    ∧ (kfPreserveModuleRawData co cfg c).no_ansi = c.no_ansi
    ∧ (kfPreserveModuleRawData co cfg c).verbose = c.verbose
    ∧ (kfPreserveModuleRawData co cfg c).loaded_user_files = c.loaded_user_files
    ∧ (kfPreserveModuleRawData co cfg c).explicit_user_config_files = c.explicit_user_config_files
    ∧ (kfPreserveModuleRawData co cfg c).template = c.template
    ∧ (kfPreserveModuleRawData co cfg c).title = c.title
    ∧ (kfPreserveModuleRawData co cfg c).report_comment = c.report_comment
    ∧ (kfPreserveModuleRawData co cfg c).prepend_dirs = c.prepend_dirs
    ∧ (kfPreserveModuleRawData co cfg c).prepend_dirs_depth = c.prepend_dirs_depth
    ∧ (kfPreserveModuleRawData co cfg c).output_dir = c.output_dir
    ∧ (kfPreserveModuleRawData co cfg c).use_filename_as_sample_name = c.use_filename_as_sample_name
    ∧ (kfPreserveModuleRawData co cfg c).make_data_dir = c.make_data_dir
    ∧ (kfPreserveModuleRawData co cfg c).force = c.force
    ∧ (kfPreserveModuleRawData co cfg c).ignore_symlinks = c.ignore_symlinks
    ∧ (kfPreserveModuleRawData co cfg c).zip_data_dir = c.zip_data_dir
    ∧ (kfPreserveModuleRawData co cfg c).data_format = c.data_format
    ∧ (kfPreserveModuleRawData co cfg c).export_plots = c.export_plots
    ∧ (kfPreserveModuleRawData co cfg c).make_report = c.make_report
    ∧ (kfPreserveModuleRawData co cfg c).plots_force_flat = c.plots_force_flat
    ∧ (kfPreserveModuleRawData co cfg c).plots_force_interactive = c.plots_force_interactive
    ∧ (kfPreserveModuleRawData co cfg c).strict = c.strict
    ∧ (kfPreserveModuleRawData co cfg c).lint = c.lint
    ∧ (kfPreserveModuleRawData co cfg c).development = c.development
    ∧ (kfPreserveModuleRawData co cfg c).make_pdf = c.make_pdf
    ∧ (kfPreserveModuleRawData co cfg c).simple_output = c.simple_output
    ∧ (kfPreserveModuleRawData co cfg c).filename = c.filename
    ∧ (kfPreserveModuleRawData co cfg c).megaqc_upload = c.megaqc_upload
    ∧ (kfPreserveModuleRawData co cfg c).fn_clean_sample_names = c.fn_clean_sample_names
    ∧ (kfPreserveModuleRawData co cfg c).sample_names_replace = c.sample_names_replace
    ∧ (kfPreserveModuleRawData co cfg c).sample_names_rename = c.sample_names_rename
    ∧ (kfPreserveModuleRawData co cfg c).show_hide_rules = c.show_hide_rules
    ∧ (kfPreserveModuleRawData co cfg c).run_modules = c.run_modules
    ∧ (kfPreserveModuleRawData co cfg c).exclude_modules = c.exclude_modules
    ∧ (kfPreserveModuleRawData co cfg c).require_logs = c.require_logs
    ∧ (kfPreserveModuleRawData co cfg c).profile_runtime = c.profile_runtime
    ∧ (kfPreserveModuleRawData co cfg c).profile_memory = c.profile_memory
    ∧ (kfPreserveModuleRawData co cfg c).no_version_check = c.no_version_check
    ∧ (kfPreserveModuleRawData co cfg c).custom_css_files = c.custom_css_files
    ∧ (kfPreserveModuleRawData co cfg c).module_order = c.module_order
    ∧ (kfPreserveModuleRawData co cfg c).fn_clean_exts = c.fn_clean_exts
    ∧ (kfPreserveModuleRawData co cfg c).fn_clean_trim = c.fn_clean_trim
    ∧ (kfPreserveModuleRawData co cfg c).preserve_module_raw_data = (if cfg.preserve_module_raw_data.isSome then cfg.preserve_module_raw_data.getD c.preserve_module_raw_data else c.preserve_module_raw_data)
    ∧ (kfPreserveModuleRawData co cfg c).data_dump_file_write_raw = c.data_dump_file_write_raw
    ∧ (kfPreserveModuleRawData co cfg c).ai_summary = c.ai_summary
    ∧ (kfPreserveModuleRawData co cfg c).ai_summary_full = c.ai_summary_full
    ∧ (kfPreserveModuleRawData co cfg c).ai_provider = c.ai_provider
    ∧ (kfPreserveModuleRawData co cfg c).ai_model = c.ai_model
    ∧ (kfPreserveModuleRawData co cfg c).ai_custom_endpoint = c.ai_custom_endpoint
    ∧ (kfPreserveModuleRawData co cfg c).ai_custom_context_window = c.ai_custom_context_window
    ∧ (kfPreserveModuleRawData co cfg c).ai_prompt_short = c.ai_prompt_short
    ∧ (kfPreserveModuleRawData co cfg c).ai_prompt_full = c.ai_prompt_full
    ∧ (kfPreserveModuleRawData co cfg c).no_ai = c.no_ai
    ∧ (kfPreserveModuleRawData co cfg c).export_plot_formats = c.export_plot_formats
    ∧ (kfPreserveModuleRawData co cfg c).analysis_dir = c.analysis_dir
    ∧ (kfPreserveModuleRawData co cfg c).file_list = c.file_list
    ∧ (kfPreserveModuleRawData co cfg c).fn_ignore_files = c.fn_ignore_files
    ∧ (kfPreserveModuleRawData co cfg c).fn_ignore_dirs = c.fn_ignore_dirs
    ∧ (kfPreserveModuleRawData co cfg c).fn_ignore_paths = c.fn_ignore_paths
    ∧ (kfPreserveModuleRawData co cfg c).sample_names_ignore = c.sample_names_ignore
    ∧ (kfPreserveModuleRawData co cfg c).sample_names_only_include = c.sample_names_only_include
    ∧ (kfPreserveModuleRawData co cfg c).top_modules = c.top_modules
    ∧ (kfPreserveModuleRawData co cfg c).kwargs = c.kwargs := by
  by_cases h : cfg.preserve_module_raw_data.isSome = true <;> simp [kfPreserveModuleRawData, h]

@[simp] theorem kfDataDumpFileWriteRaw_fields (co : Collaborators) (cfg : ClConfig) (c : Config) :
    (kfDataDumpFileWriteRaw co cfg c).quiet = c.quiet
    ∧ (kfDataDumpFileWriteRaw co cfg c).no_ansi = c.no_ansi
    ∧ (kfDataDumpFileWriteRaw co cfg c).verbose = c.verbose
    ∧ (kfDataDumpFileWriteRaw co cfg c).loaded_user_files = c.loaded_user_files
    ∧ (kfDataDumpFileWriteRaw co cfg c).explicit_user_config_files = c.explicit_user_config_files
    ∧ (kfDataDumpFileWriteRaw co cfg c).template = c.template
    ∧ (kfDataDumpFileWriteRaw co cfg c).title = c.title
    ∧ (kfDataDumpFileWriteRaw co cfg c).report_comment = c.report_comment
    ∧ (kfDataDumpFileWriteRaw co cfg c).prepend_dirs = c.prepend_dirs
    ∧ (kfDataDumpFileWriteRaw co cfg c).prepend_dirs_depth = c.prepend_dirs_depth
    ∧ (kfDataDumpFileWriteRaw co cfg c).output_dir = c.output_dir
    ∧ (kfDataDumpFileWriteRaw co cfg c).use_filename_as_sample_name = c.use_filename_as_sample_name
    ∧ (kfDataDumpFileWriteRaw co cfg c).make_data_dir = c.make_data_dir
    ∧ (kfDataDumpFileWriteRaw co cfg c).force = c.force
    ∧ (kfDataDumpFileWriteRaw co cfg c).ignore_symlinks = c.ignore_symlinks
    ∧ (kfDataDumpFileWriteRaw co cfg c).zip_data_dir = c.zip_data_dir
    ∧ (kfDataDumpFileWriteRaw co cfg c).data_format = c.data_format
    ∧ (kfDataDumpFileWriteRaw co cfg c).export_plots = c.export_plots
    ∧ (kfDataDumpFileWriteRaw co cfg c).make_report = c.make_report
    ∧ (kfDataDumpFileWriteRaw co cfg c).plots_force_flat = c.plots_force_flat
    ∧ (kfDataDumpFileWriteRaw co cfg c).plots_force_interactive = c.plots_force_interactive
    ∧ (kfDataDumpFileWriteRaw co cfg c).strict = c.strict
    ∧ (kfDataDumpFileWriteRaw co cfg c).lint = c.lint
    ∧ (kfDataDumpFileWriteRaw co cfg c).development = c.development
    ∧ (kfDataDumpFileWriteRaw co cfg c).make_pdf = c.make_pdf
    ∧ (kfDataDumpFileWriteRaw co cfg c).simple_output = c.simple_output
    ∧ (kfDataDumpFileWriteRaw co cfg c).filename = c.filename
    ∧ (kfDataDumpFileWriteRaw co cfg c).megaqc_upload = c.megaqc_upload
    ∧ (kfDataDumpFileWriteRaw co cfg c).fn_clean_sample_names = c.fn_clean_sample_names
    ∧ (kfDataDumpFileWriteRaw co cfg c).sample_names_replace = c.sample_names_replace
    ∧ (kfDataDumpFileWriteRaw co cfg c).sample_names_rename = c.sample_names_rename
    ∧ (kfDataDumpFileWriteRaw co cfg c).show_hide_rules = c.show_hide_rules
    ∧ (kfDataDumpFileWriteRaw co cfg c).run_modules = c.run_modules
    ∧ (kfDataDumpFileWriteRaw co cfg c).exclude_modules = c.exclude_modules
    ∧ (kfDataDumpFileWriteRaw co cfg c).require_logs = c.require_logs
    ∧ (kfDataDumpFileWriteRaw co cfg c).profile_runtime = c.profile_runtime
    ∧ (kfDataDumpFileWriteRaw co cfg c).profile_memory = c.profile_memory
    ∧ (kfDataDumpFileWriteRaw co cfg c).no_version_check = c.no_version_check
    ∧ (kfDataDumpFileWriteRaw co cfg c).custom_css_files = c.custom_css_files
    ∧ (kfDataDumpFileWriteRaw co cfg c).module_order = c.module_order
    ∧ (kfDataDumpFileWriteRaw co cfg c).fn_clean_exts = c.fn_clean_exts
    ∧ (kfDataDumpFileWriteRaw co cfg c).fn_clean_trim = c.fn_clean_trim
    ∧ (kfDataDumpFileWriteRaw co cfg c).preserve_module_raw_data = c.preserve_module_raw_data
    ∧ (kfDataDumpFileWriteRaw co cfg c).data_dump_file_write_raw = (if cfg.data_dump_file_write_raw.isSome then cfg.data_dump_file_write_raw.getD c.data_dump_file_write_raw else c.data_dump_file_write_raw)
    ∧ (kfDataDumpFileWriteRaw co cfg c).ai_summary = c.ai_summary
    ∧ (kfDataDumpFileWriteRaw co cfg c).ai_summary_full = c.ai_summary_full
    ∧ (kfDataDumpFileWriteRaw co cfg c).ai_provider = c.ai_provider
    ∧ (kfDataDumpFileWriteRaw co cfg c).ai_model = c.ai_model
    ∧ (kfDataDumpFileWriteRaw co cfg c).ai_custom_endpoint = c.ai_custom_endpoint
    ∧ (kfDataDumpFileWriteRaw co cfg c).ai_custom_context_window = c.ai_custom_context_window
    ∧ (kfDataDumpFileWriteRaw co cfg c).ai_prompt_short = c.ai_prompt_short
    ∧ (kfDataDumpFileWriteRaw co cfg c).ai_prompt_full = c.ai_prompt_full
    ∧ (kfDataDumpFileWriteRaw co cfg c).no_ai = c.no_ai
    ∧ (kfDataDumpFileWriteRaw co cfg c).export_plot_formats = c.export_plot_formats
    ∧ (kfDataDumpFileWriteRaw co cfg c).analysis_dir = c.analysis_dir
    ∧ (kfDataDumpFileWriteRaw co cfg c).file_list = c.file_list
    ∧ (kfDataDumpFileWriteRaw co cfg c).fn_ignore_files = c.fn_ignore_files
    ∧ (kfDataDumpFileWriteRaw co cfg c).fn_ignore_dirs = c.fn_ignore_dirs
    ∧ (kfDataDumpFileWriteRaw co cfg c).fn_ignore_paths = c.fn_ignore_paths
    ∧ (kfDataDumpFileWriteRaw co cfg c).sample_names_ignore = c.sample_names_ignore
    ∧ (kfDataDumpFileWriteRaw co cfg c).sample_names_only_include = c.sample_names_only_include
    ∧ (kfDataDumpFileWriteRaw co cfg c).top_modules = c.top_modules
    ∧ (kfDataDumpFileWriteRaw co cfg c).kwargs = c.kwargs := by
  by_cases h : cfg.data_dump_file_write_raw.isSome = true <;> simp [kfDataDumpFileWriteRaw, h]

@[simp] theorem kfAiSummary_fields (co : Collaborators) (cfg : ClConfig) (c : Config) :
    (kfAiSummary co cfg c).quiet = c.quiet
    ∧ (kfAiSummary co cfg c).no_ansi = c.no_ansi
    ∧ (kfAiSummary co cfg c).verbose = c.verbose
    ∧ (kfAiSummary co cfg c).loaded_user_files = c.loaded_user_files
    ∧ (kfAiSummary co cfg c).explicit_user_config_files = c.explicit_user_config_files
    ∧ (kfAiSummary co cfg c).template = c.template
    ∧ (kfAiSummary co cfg c).title = c.title
    ∧ (kfAiSummary co cfg c).report_comment = c.report_comment
    ∧ (kfAiSummary co cfg c).prepend_dirs = c.prepend_dirs
    ∧ (kfAiSummary co cfg c).prepend_dirs_depth = c.prepend_dirs_depth
    ∧ (kfAiSummary co cfg c).output_dir = c.output_dir
    ∧ (kfAiSummary co cfg c).use_filename_as_sample_name = c.use_filename_as_sample_name
    ∧ (kfAiSummary co cfg c).make_data_dir = c.make_data_dir
    ∧ (kfAiSummary co cfg c).force = c.force
    ∧ (kfAiSummary co cfg c).ignore_symlinks = c.ignore_symlinks
    ∧ (kfAiSummary co cfg c).zip_data_dir = c.zip_data_dir
    ∧ (kfAiSummary co cfg c).data_format = c.data_format
    ∧ (kfAiSummary co cfg c).export_plots = c.export_plots
    ∧ (kfAiSummary co cfg c).make_report = c.make_report
    ∧ (kfAiSummary co cfg c).plots_force_flat = c.plots_force_flat
    ∧ (kfAiSummary co cfg c).plots_force_interactive = c.plots_force_interactive
    ∧ (kfAiSummary co cfg c).strict = c.strict
    ∧ (kfAiSummary co cfg c).lint = c.lint
    ∧ (kfAiSummary co cfg c).development = c.development
    ∧ (kfAiSummary co cfg c).make_pdf = c.make_pdf
    ∧ (kfAiSummary co cfg c).simple_output = c.simple_output
    ∧ (kfAiSummary co cfg c).filename = c.filename
    ∧ (kfAiSummary co cfg c).megaqc_upload = c.megaqc_upload
    ∧ (kfAiSummary co cfg c).fn_clean_sample_names = c.fn_clean_sample_names
    ∧ (kfAiSummary co cfg c).sample_names_replace = c.sample_names_replace
    ∧ (kfAiSummary co cfg c).sample_names_rename = c.sample_names_rename
    ∧ (kfAiSummary co cfg c).show_hide_rules = c.show_hide_rules
    ∧ (kfAiSummary co cfg c).run_modules = c.run_modules
    ∧ (kfAiSummary co cfg c).exclude_modules = c.exclude_modules
    ∧ (kfAiSummary co cfg c).require_logs = c.require_logs
    ∧ (kfAiSummary co cfg c).profile_runtime = c.profile_runtime
    ∧ (kfAiSummary co cfg c).profile_memory = c.profile_memory
    ∧ (kfAiSummary co cfg c).no_version_check = c.no_version_check
    ∧ (kfAiSummary co cfg c).custom_css_files = c.custom_css_files
    ∧ (kfAiSummary co cfg c).module_order = c.module_order
    ∧ (kfAiSummary co cfg c).fn_clean_exts = c.fn_clean_exts
    ∧ (kfAiSummary co cfg c).fn_clean_trim = c.fn_clean_trim
    ∧ (kfAiSummary co cfg c).preserve_module_raw_data = c.preserve_module_raw_data
    ∧ (kfAiSummary co cfg c).data_dump_file_write_raw = c.data_dump_file_write_raw
    ∧ (kfAiSummary co cfg c).ai_summary = (if cfg.ai_summary.isSome then cfg.ai_summary.getD c.ai_summary else c.ai_summary)
    ∧ (kfAiSummary co cfg c).ai_summary_full = c.ai_summary_full
    ∧ (kfAiSummary co cfg c).ai_provider = c.ai_provider
    ∧ (kfAiSummary co cfg c).ai_model = c.ai_model
    ∧ (kfAiSummary co cfg c).ai_custom_endpoint = c.ai_custom_endpoint
    ∧ (kfAiSummary co cfg c).ai_custom_context_window = c.ai_custom_context_window
    ∧ (kfAiSummary co cfg c).ai_prompt_short = c.ai_prompt_short
    ∧ (kfAiSummary co cfg c).ai_prompt_full = c.ai_prompt_full
    ∧ (kfAiSummary co cfg c).no_ai = c.no_ai
    ∧ (kfAiSummary co cfg c).export_plot_formats = c.export_plot_formats
    ∧ (kfAiSummary co cfg c).analysis_dir = c.analysis_dir
    ∧ (kfAiSummary co cfg c).file_list = c.file_list
    ∧ (kfAiSummary co cfg c).fn_ignore_files = c.fn_ignore_files
    ∧ (kfAiSummary co cfg c).fn_ignore_dirs = c.fn_ignore_dirs
    ∧ (kfAiSummary co cfg c).fn_ignore_paths = c.fn_ignore_paths
    ∧ (kfAiSummary co cfg c).sample_names_ignore = c.sample_names_ignore
    ∧ (kfAiSummary co cfg c).sample_names_only_include = c.sample_names_only_include
    ∧ (kfAiSummary co cfg c).top_modules = c.top_modules
    ∧ (kfAiSummary co cfg c).kwargs = c.kwargs := by
  by_cases h : cfg.ai_summary.isSome = true <;> simp [kfAiSummary, h]

@[simp] theorem kfAiSummaryFull_fields (co : Collaborators) (cfg : ClConfig) (c : Config) :
    (kfAiSummaryFull co cfg c).quiet = c.quiet
    ∧ (kfAiSummaryFull co cfg c).no_ansi = c.no_ansi
    ∧ (kfAiSummaryFull co cfg c).verbose = c.verbose
    ∧ (kfAiSummaryFull co cfg c).loaded_user_files = c.loaded_user_files
    ∧ (kfAiSummaryFull co cfg c).explicit_user_config_files = c.explicit_user_config_files
    ∧ (kfAiSummaryFull co cfg c).template = c.template
    ∧ (kfAiSummaryFull co cfg c).title = c.title
    ∧ (kfAiSummaryFull co cfg c).report_comment = c.report_comment
    ∧ (kfAiSummaryFull co cfg c).prepend_dirs = c.prepend_dirs
    ∧ (kfAiSummaryFull co cfg c).prepend_dirs_depth = c.prepend_dirs_depth
    ∧ (kfAiSummaryFull co cfg c).output_dir = c.output_dir
    ∧ (kfAiSummaryFull co cfg c).use_filename_as_sample_name = c.use_filename_as_sample_name
    ∧ (kfAiSummaryFull co cfg c).make_data_dir = c.make_data_dir
    ∧ (kfAiSummaryFull co cfg c).force = c.force
    ∧ (kfAiSummaryFull co cfg c).ignore_symlinks = c.ignore_symlinks
    ∧ (kfAiSummaryFull co cfg c).zip_data_dir = c.zip_data_dir
    ∧ (kfAiSummaryFull co cfg c).data_format = c.data_format
    ∧ (kfAiSummaryFull co cfg c).export_plots = c.export_plots
    ∧ (kfAiSummaryFull co cfg c).make_report = c.make_report
    ∧ (kfAiSummaryFull co cfg c).plots_force_flat = c.plots_force_flat
    ∧ (kfAiSummaryFull co cfg c).plots_force_interactive = c.plots_force_interactive
    ∧ (kfAiSummaryFull co cfg c).strict = c.strict
    ∧ (kfAiSummaryFull co cfg c).lint = c.lint
    ∧ (kfAiSummaryFull co cfg c).development = c.development
    ∧ (kfAiSummaryFull co cfg c).make_pdf = c.make_pdf
    ∧ (kfAiSummaryFull co cfg c).simple_output = c.simple_output
    ∧ (kfAiSummaryFull co cfg c).filename = c.filename
    ∧ (kfAiSummaryFull co cfg c).megaqc_upload = c.megaqc_upload
    ∧ (kfAiSummaryFull co cfg c).fn_clean_sample_names = c.fn_clean_sample_names
    ∧ (kfAiSummaryFull co cfg c).sample_names_replace = c.sample_names_replace
    ∧ (kfAiSummaryFull co cfg c).sample_names_rename = c.sample_names_rename
    ∧ (kfAiSummaryFull co cfg c).show_hide_rules = c.show_hide_rules
    ∧ (kfAiSummaryFull co cfg c).run_modules = c.run_modules
    ∧ (kfAiSummaryFull co cfg c).exclude_modules = c.exclude_modules
    ∧ (kfAiSummaryFull co cfg c).require_logs = c.require_logs
    ∧ (kfAiSummaryFull co cfg c).profile_runtime = c.profile_runtime
    ∧ (kfAiSummaryFull co cfg c).profile_memory = c.profile_memory
    ∧ (kfAiSummaryFull co cfg c).no_version_check = c.no_version_check
    ∧ (kfAiSummaryFull co cfg c).custom_css_files = c.custom_css_files
    ∧ (kfAiSummaryFull co cfg c).module_order = c.module_order
    ∧ (kfAiSummaryFull co cfg c).fn_clean_exts = c.fn_clean_exts
    ∧ (kfAiSummaryFull co cfg c).fn_clean_trim = c.fn_clean_trim
    ∧ (kfAiSummaryFull co cfg c).preserve_module_raw_data = c.preserve_module_raw_data
    ∧ (kfAiSummaryFull co cfg c).data_dump_file_write_raw = c.data_dump_file_write_raw
    ∧ (kfAiSummaryFull co cfg c).ai_summary = (if cfg.ai_summary_full.isSome then cfg.ai_summary_full.getD c.ai_summary else c.ai_summary)
    ∧ (kfAiSummaryFull co cfg c).ai_summary_full = (if cfg.ai_summary_full.isSome then cfg.ai_summary_full.getD c.ai_summary_full else c.ai_summary_full)
    ∧ (kfAiSummaryFull co cfg c).ai_provider = c.ai_provider
    ∧ (kfAiSummaryFull co cfg c).ai_model = c.ai_model
    ∧ (kfAiSummaryFull co cfg c).ai_custom_endpoint = c.ai_custom_endpoint
    ∧ (kfAiSummaryFull co cfg c).ai_custom_context_window = c.ai_custom_context_window
    ∧ (kfAiSummaryFull co cfg c).ai_prompt_short = c.ai_prompt_short
    ∧ (kfAiSummaryFull co cfg c).ai_prompt_full = c.ai_prompt_full
    ∧ (kfAiSummaryFull co cfg c).no_ai = c.no_ai
    ∧ (kfAiSummaryFull co cfg c).export_plot_formats = c.export_plot_formats
    ∧ (kfAiSummaryFull co cfg c).analysis_dir = c.analysis_dir
    ∧ (kfAiSummaryFull co cfg c).file_list = c.file_list
    ∧ (kfAiSummaryFull co cfg c).fn_ignore_files = c.fn_ignore_files
    ∧ (kfAiSummaryFull co cfg c).fn_ignore_dirs = c.fn_ignore_dirs
    ∧ (kfAiSummaryFull co cfg c).fn_ignore_paths = c.fn_ignore_paths
    ∧ (kfAiSummaryFull co cfg c).sample_names_ignore = c.sample_names_ignore
    ∧ (kfAiSummaryFull co cfg c).sample_names_only_include = c.sample_names_only_include
    ∧ (kfAiSummaryFull co cfg c).top_modules = c.top_modules
    ∧ (kfAiSummaryFull co cfg c).kwargs = c.kwargs := by
  by_cases h : cfg.ai_summary_full.isSome = true <;> simp [kfAiSummaryFull, h]

@[simp] theorem kfAiProvider_fields (co : Collaborators) (cfg : ClConfig) (c : Config) :
    (kfAiProvider co cfg c).quiet = c.quiet
    ∧ (kfAiProvider co cfg c).no_ansi = c.no_ansi
    ∧ (kfAiProvider co cfg c).verbose = c.verbose
    ∧ (kfAiProvider co cfg c).loaded_user_files = c.loaded_user_files
    ∧ (kfAiProvider co cfg c).explicit_user_config_files = c.explicit_user_config_files
    ∧ (kfAiProvider co cfg c).template = c.template
    ∧ (kfAiProvider co cfg c).title = c.title
    ∧ (kfAiProvider co cfg c).report_comment = c.report_comment
    ∧ (kfAiProvider co cfg c).prepend_dirs = c.prepend_dirs
    ∧ (kfAiProvider co cfg c).prepend_dirs_depth = c.prepend_dirs_depth
    ∧ (kfAiProvider co cfg c).output_dir = c.output_dir
    ∧ (kfAiProvider co cfg c).use_filename_as_sample_name = c.use_filename_as_sample_name
    ∧ (kfAiProvider co cfg c).make_data_dir = c.make_data_dir
    ∧ (kfAiProvider co cfg c).force = c.force
    ∧ (kfAiProvider co cfg c).ignore_symlinks = c.ignore_symlinks
    ∧ (kfAiProvider co cfg c).zip_data_dir = c.zip_data_dir
    ∧ (kfAiProvider co cfg c).data_format = c.data_format
    ∧ (kfAiProvider co cfg c).export_plots = c.export_plots
    ∧ (kfAiProvider co cfg c).make_report = c.make_report
    ∧ (kfAiProvider co cfg c).plots_force_flat = c.plots_force_flat
    ∧ (kfAiProvider co cfg c).plots_force_interactive = c.plots_force_interactive
    ∧ (kfAiProvider co cfg c).strict = c.strict
    ∧ (kfAiProvider co cfg c).lint = c.lint
    ∧ (kfAiProvider co cfg c).development = c.development
    ∧ (kfAiProvider co cfg c).make_pdf = c.make_pdf
    ∧ (kfAiProvider co cfg c).simple_output = c.simple_output
    ∧ (kfAiProvider co cfg c).filename = c.filename
    ∧ (kfAiProvider co cfg c).megaqc_upload = c.megaqc_upload
    ∧ (kfAiProvider co cfg c).fn_clean_sample_names = c.fn_clean_sample_names
    ∧ (kfAiProvider co cfg c).sample_names_replace = c.sample_names_replace
    ∧ (kfAiProvider co cfg c).sample_names_rename = c.sample_names_rename
    ∧ (kfAiProvider co cfg c).show_hide_rules = c.show_hide_rules
    ∧ (kfAiProvider co cfg c).run_modules = c.run_modules
    ∧ (kfAiProvider co cfg c).exclude_modules = c.exclude_modules
    ∧ (kfAiProvider co cfg c).require_logs = c.require_logs
    ∧ (kfAiProvider co cfg c).profile_runtime = c.profile_runtime
    ∧ (kfAiProvider co cfg c).profile_memory = c.profile_memory
    ∧ (kfAiProvider co cfg c).no_version_check = c.no_version_check
    ∧ (kfAiProvider co cfg c).custom_css_files = c.custom_css_files
    ∧ (kfAiProvider co cfg c).module_order = c.module_order
    ∧ (kfAiProvider co cfg c).fn_clean_exts = c.fn_clean_exts
    ∧ (kfAiProvider co cfg c).fn_clean_trim = c.fn_clean_trim
    ∧ (kfAiProvider co cfg c).preserve_module_raw_data = c.preserve_module_raw_data
    ∧ (kfAiProvider co cfg c).data_dump_file_write_raw = c.data_dump_file_write_raw
    ∧ (kfAiProvider co cfg c).ai_summary = c.ai_summary
    ∧ (kfAiProvider co cfg c).ai_summary_full = c.ai_summary_full
    ∧ (kfAiProvider co cfg c).ai_provider = (if cfg.ai_provider.isSome then cfg.ai_provider.getD c.ai_provider else c.ai_provider)
    ∧ (kfAiProvider co cfg c).ai_model = c.ai_model
    ∧ (kfAiProvider co cfg c).ai_custom_endpoint = c.ai_custom_endpoint
    ∧ (kfAiProvider co cfg c).ai_custom_context_window = c.ai_custom_context_window
    ∧ (kfAiProvider co cfg c).ai_prompt_short = c.ai_prompt_short
    ∧ (kfAiProvider co cfg c).ai_prompt_full = c.ai_prompt_full
    ∧ (kfAiProvider co cfg c).no_ai = c.no_ai
    ∧ (kfAiProvider co cfg c).export_plot_formats = c.export_plot_formats
    ∧ (kfAiProvider co cfg c).analysis_dir = c.analysis_dir
    ∧ (kfAiProvider co cfg c).file_list = c.file_list
    ∧ (kfAiProvider co cfg c).fn_ignore_files = c.fn_ignore_files
    ∧ (kfAiProvider co cfg c).fn_ignore_dirs = c.fn_ignore_dirs
    ∧ (kfAiProvider co cfg c).fn_ignore_paths = c.fn_ignore_paths
    ∧ (kfAiProvider co cfg c).sample_names_ignore = c.sample_names_ignore
    ∧ (kfAiProvider co cfg c).sample_names_only_include = c.sample_names_only_include
    ∧ (kfAiProvider co cfg c).top_modules = c.top_modules
    ∧ (kfAiProvider co cfg c).kwargs = c.kwargs := by
  by_cases h : cfg.ai_provider.isSome = true <;> simp [kfAiProvider, h]

@[simp] theorem kfAiModel_fields (co : Collaborators) (cfg : ClConfig) (c : Config) :
    (kfAiModel co cfg c).quiet = c.quiet
    ∧ (kfAiModel co cfg c).no_ansi = c.no_ansi
    ∧ (kfAiModel co cfg c).verbose = c.verbose
    ∧ (kfAiModel co cfg c).loaded_user_files = c.loaded_user_files
    ∧ (kfAiModel co cfg c).explicit_user_config_files = c.explicit_user_config_files
    ∧ (kfAiModel co cfg c).template = c.template
    ∧ (kfAiModel co cfg c).title = c.title
    ∧ (kfAiModel co cfg c).report_comment = c.report_comment
    ∧ (kfAiModel co cfg c).prepend_dirs = c.prepend_dirs
    ∧ (kfAiModel co cfg c).prepend_dirs_depth = c.prepend_dirs_depth
    ∧ (kfAiModel co cfg c).output_dir = c.output_dir
    ∧ (kfAiModel co cfg c).use_filename_as_sample_name = c.use_filename_as_sample_name
    ∧ (kfAiModel co cfg c).make_data_dir = c.make_data_dir
    ∧ (kfAiModel co cfg c).force = c.force
    ∧ (kfAiModel co cfg c).ignore_symlinks = c.ignore_symlinks
    ∧ (kfAiModel co cfg c).zip_data_dir = c.zip_data_dir
    ∧ (kfAiModel co cfg c).data_format = c.data_format
    ∧ (kfAiModel co cfg c).export_plots = c.export_plots
    ∧ (kfAiModel co cfg c).make_report = c.make_report
    ∧ (kfAiModel co cfg c).plots_force_flat = c.plots_force_flat
    ∧ (kfAiModel co cfg c).plots_force_interactive = c.plots_force_interactive
    ∧ (kfAiModel co cfg c).strict = c.strict
    ∧ (kfAiModel co cfg c).lint = c.lint
    ∧ (kfAiModel co cfg c).development = c.development
    ∧ (kfAiModel co cfg c).make_pdf = c.make_pdf
    ∧ (kfAiModel co cfg c).simple_output = c.simple_output
    ∧ (kfAiModel co cfg c).filename = c.filename
    ∧ (kfAiModel co cfg c).megaqc_upload = c.megaqc_upload
    ∧ (kfAiModel co cfg c).fn_clean_sample_names = c.fn_clean_sample_names
    ∧ (kfAiModel co cfg c).sample_names_replace = c.sample_names_replace
    ∧ (kfAiModel co cfg c).sample_names_rename = c.sample_names_rename
    ∧ (kfAiModel co cfg c).show_hide_rules = c.show_hide_rules
    ∧ (kfAiModel co cfg c).run_modules = c.run_modules
    ∧ (kfAiModel co cfg c).exclude_modules = c.exclude_modules
    ∧ (kfAiModel co cfg c).require_logs = c.require_logs
    ∧ (kfAiModel co cfg c).profile_runtime = c.profile_runtime
    ∧ (kfAiModel co cfg c).profile_memory = c.profile_memory
    ∧ (kfAiModel co cfg c).no_version_check = c.no_version_check
    ∧ (kfAiModel co cfg c).custom_css_files = c.custom_css_files
    ∧ (kfAiModel co cfg c).module_order = c.module_order
    ∧ (kfAiModel co cfg c).fn_clean_exts = c.fn_clean_exts
    ∧ (kfAiModel co cfg c).fn_clean_trim = c.fn_clean_trim
    ∧ (kfAiModel co cfg c).preserve_module_raw_data = c.preserve_module_raw_data
    ∧ (kfAiModel co cfg c).data_dump_file_write_raw = c.data_dump_file_write_raw
    ∧ (kfAiModel co cfg c).ai_summary = c.ai_summary
    ∧ (kfAiModel co cfg c).ai_summary_full = c.ai_summary_full
    ∧ (kfAiModel co cfg c).ai_provider = c.ai_provider
    ∧ (kfAiModel co cfg c).ai_model = (if cfg.ai_model.isSome then cfg.ai_model.getD c.ai_model else c.ai_model)
    ∧ (kfAiModel co cfg c).ai_custom_endpoint = c.ai_custom_endpoint
    ∧ (kfAiModel co cfg c).ai_custom_context_window = c.ai_custom_context_window
    ∧ (kfAiModel co cfg c).ai_prompt_short = c.ai_prompt_short
    ∧ (kfAiModel co cfg c).ai_prompt_full = c.ai_prompt_full
    ∧ (kfAiModel co cfg c).no_ai = c.no_ai
    ∧ (kfAiModel co cfg c).export_plot_formats = c.export_plot_formats
    ∧ (kfAiModel co cfg c).analysis_dir = c.analysis_dir
    ∧ (kfAiModel co cfg c).file_list = c.file_list
    ∧ (kfAiModel co cfg c).fn_ignore_files = c.fn_ignore_files
    ∧ (kfAiModel co cfg c).fn_ignore_dirs = c.fn_ignore_dirs
    ∧ (kfAiModel co cfg c).fn_ignore_paths = c.fn_ignore_paths
    ∧ (kfAiModel co cfg c).sample_names_ignore = c.sample_names_ignore
    ∧ (kfAiModel co cfg c).sample_names_only_include = c.sample_names_only_include
    ∧ (kfAiModel co cfg c).top_modules = c.top_modules
    ∧ (kfAiModel co cfg c).kwargs = c.kwargs := by
  by_cases h : cfg.ai_model.isSome = true <;> simp [kfAiModel, h]

@[simp] theorem kfAiCustomEndpoint_fields (co : Collaborators) (cfg : ClConfig) (c : Config) :
    (kfAiCustomEndpoint co cfg c).quiet = c.quiet
    ∧ (kfAiCustomEndpoint co cfg c).no_ansi = c.no_ansi
    ∧ (kfAiCustomEndpoint co cfg c).verbose = c.verbose
    ∧ (kfAiCustomEndpoint co cfg c).loaded_user_files = c.loaded_user_files
    ∧ (kfAiCustomEndpoint co cfg c).explicit_user_config_files = c.explicit_user_config_files
    ∧ (kfAiCustomEndpoint co cfg c).template = c.template
    ∧ (kfAiCustomEndpoint co cfg c).title = c.title
    ∧ (kfAiCustomEndpoint co cfg c).report_comment = c.report_comment
    ∧ (kfAiCustomEndpoint co cfg c).prepend_dirs = c.prepend_dirs
    ∧ (kfAiCustomEndpoint co cfg c).prepend_dirs_depth = c.prepend_dirs_depth
    ∧ (kfAiCustomEndpoint co cfg c).output_dir = c.output_dir
    ∧ (kfAiCustomEndpoint co cfg c).use_filename_as_sample_name = c.use_filename_as_sample_name
    ∧ (kfAiCustomEndpoint co cfg c).make_data_dir = c.make_data_dir
    ∧ (kfAiCustomEndpoint co cfg c).force = c.force
    ∧ (kfAiCustomEndpoint co cfg c).ignore_symlinks = c.ignore_symlinks
    ∧ (kfAiCustomEndpoint co cfg c).zip_data_dir = c.zip_data_dir
    ∧ (kfAiCustomEndpoint co cfg c).data_format = c.data_format
    ∧ (kfAiCustomEndpoint co cfg c).export_plots = c.export_plots
    ∧ (kfAiCustomEndpoint co cfg c).make_report = c.make_report
    ∧ (kfAiCustomEndpoint co cfg c).plots_force_flat = c.plots_force_flat
    ∧ (kfAiCustomEndpoint co cfg c).plots_force_interactive = c.plots_force_interactive
    ∧ (kfAiCustomEndpoint co cfg c).strict = c.strict
    ∧ (kfAiCustomEndpoint co cfg c).lint = c.lint
    ∧ (kfAiCustomEndpoint co cfg c).development = c.development
    ∧ (kfAiCustomEndpoint co cfg c).make_pdf = c.make_pdf
    ∧ (kfAiCustomEndpoint co cfg c).simple_output = c.simple_output
    ∧ (kfAiCustomEndpoint co cfg c).filename = c.filename
    ∧ (kfAiCustomEndpoint co cfg c).megaqc_upload = c.megaqc_upload
    ∧ (kfAiCustomEndpoint co cfg c).fn_clean_sample_names = c.fn_clean_sample_names
    ∧ (kfAiCustomEndpoint co cfg c).sample_names_replace = c.sample_names_replace
    ∧ (kfAiCustomEndpoint co cfg c).sample_names_rename = c.sample_names_rename
    ∧ (kfAiCustomEndpoint co cfg c).show_hide_rules = c.show_hide_rules
    ∧ (kfAiCustomEndpoint co cfg c).run_modules = c.run_modules
    ∧ (kfAiCustomEndpoint co cfg c).exclude_modules = c.exclude_modules
    ∧ (kfAiCustomEndpoint co cfg c).require_logs = c.require_logs
    ∧ (kfAiCustomEndpoint co cfg c).profile_runtime = c.profile_runtime
    ∧ (kfAiCustomEndpoint co cfg c).profile_memory = c.profile_memory
    ∧ (kfAiCustomEndpoint co cfg c).no_version_check = c.no_version_check
    ∧ (kfAiCustomEndpoint co cfg c).custom_css_files = c.custom_css_files
    ∧ (kfAiCustomEndpoint co cfg c).module_order = c.module_order
    ∧ (kfAiCustomEndpoint co cfg c).fn_clean_exts = c.fn_clean_exts
    ∧ (kfAiCustomEndpoint co cfg c).fn_clean_trim = c.fn_clean_trim
    ∧ (kfAiCustomEndpoint co cfg c).preserve_module_raw_data = c.preserve_module_raw_data
    ∧ (kfAiCustomEndpoint co cfg c).data_dump_file_write_raw = c.data_dump_file_write_raw
    ∧ (kfAiCustomEndpoint co cfg c).ai_summary = c.ai_summary
    ∧ (kfAiCustomEndpoint co cfg c).ai_summary_full = c.ai_summary_full
    ∧ (kfAiCustomEndpoint co cfg c).ai_provider = c.ai_provider
    ∧ (kfAiCustomEndpoint co cfg c).ai_model = c.ai_model
    ∧ (kfAiCustomEndpoint co cfg c).ai_custom_endpoint = (if cfg.ai_custom_endpoint.isSome then cfg.ai_custom_endpoint.getD c.ai_custom_endpoint else c.ai_custom_endpoint)
    ∧ (kfAiCustomEndpoint co cfg c).ai_custom_context_window = c.ai_custom_context_window
    ∧ (kfAiCustomEndpoint co cfg c).ai_prompt_short = c.ai_prompt_short
    ∧ (kfAiCustomEndpoint co cfg c).ai_prompt_full = c.ai_prompt_full
    ∧ (kfAiCustomEndpoint co cfg c).no_ai = c.no_ai
    ∧ (kfAiCustomEndpoint co cfg c).export_plot_formats = c.export_plot_formats
    ∧ (kfAiCustomEndpoint co cfg c).analysis_dir = c.analysis_dir
    ∧ (kfAiCustomEndpoint co cfg c).file_list = c.file_list
    ∧ (kfAiCustomEndpoint co cfg c).fn_ignore_files = c.fn_ignore_files
    ∧ (kfAiCustomEndpoint co cfg c).fn_ignore_dirs = c.fn_ignore_dirs
    ∧ (kfAiCustomEndpoint co cfg c).fn_ignore_paths = c.fn_ignore_paths
    ∧ (kfAiCustomEndpoint co cfg c).sample_names_ignore = c.sample_names_ignore
    ∧ (kfAiCustomEndpoint co cfg c).sample_names_only_include = c.sample_names_only_include
    ∧ (kfAiCustomEndpoint co cfg c).top_modules = c.top_modules
    ∧ (kfAiCustomEndpoint co cfg c).kwargs = c.kwargs := by
  by_cases h : cfg.ai_custom_endpoint.isSome = true <;> simp [kfAiCustomEndpoint, h]

@[simp] theorem kfAiCustomContextWindow_fields (co : Collaborators) (cfg : ClConfig) (c : Config) :
    (kfAiCustomContextWindow co cfg c).quiet = c.quiet
    ∧ (kfAiCustomContextWindow co cfg c).no_ansi = c.no_ansi
    ∧ (kfAiCustomContextWindow co cfg c).verbose = c.verbose
    ∧ (kfAiCustomContextWindow co cfg c).loaded_user_files = c.loaded_user_files
    ∧ (kfAiCustomContextWindow co cfg c).explicit_user_config_files = c.explicit_user_config_files
    ∧ (kfAiCustomContextWindow co cfg c).template = c.template
    ∧ (kfAiCustomContextWindow co cfg c).title = c.title
    ∧ (kfAiCustomContextWindow co cfg c).report_comment = c.report_comment
    ∧ (kfAiCustomContextWindow co cfg c).prepend_dirs = c.prepend_dirs
    ∧ (kfAiCustomContextWindow co cfg c).prepend_dirs_depth = c.prepend_dirs_depth
    ∧ (kfAiCustomContextWindow co cfg c).output_dir = c.output_dir
    ∧ (kfAiCustomContextWindow co cfg c).use_filename_as_sample_name = c.use_filename_as_sample_name
    ∧ (kfAiCustomContextWindow co cfg c).make_data_dir = c.make_data_dir
    ∧ (kfAiCustomContextWindow co cfg c).force = c.force
    ∧ (kfAiCustomContextWindow co cfg c).ignore_symlinks = c.ignore_symlinks
    ∧ (kfAiCustomContextWindow co cfg c).zip_data_dir = c.zip_data_dir
    ∧ (kfAiCustomContextWindow co cfg c).data_format = c.data_format
    ∧ (kfAiCustomContextWindow co cfg c).export_plots = c.export_plots
    ∧ (kfAiCustomContextWindow co cfg c).make_report = c.make_report
    ∧ (kfAiCustomContextWindow co cfg c).plots_force_flat = c.plots_force_flat
    ∧ (kfAiCustomContextWindow co cfg c).plots_force_interactive = c.plots_force_interactive
    ∧ (kfAiCustomContextWindow co cfg c).strict = c.strict
    ∧ (kfAiCustomContextWindow co cfg c).lint = c.lint
    ∧ (kfAiCustomContextWindow co cfg c).development = c.development
    ∧ (kfAiCustomContextWindow co cfg c).make_pdf = c.make_pdf
    ∧ (kfAiCustomContextWindow co cfg c).simple_output = c.simple_output
    ∧ (kfAiCustomContextWindow co cfg c).filename = c.filename
    ∧ (kfAiCustomContextWindow co cfg c).megaqc_upload = c.megaqc_upload
    ∧ (kfAiCustomContextWindow co cfg c).fn_clean_sample_names = c.fn_clean_sample_names
    ∧ (kfAiCustomContextWindow co cfg c).sample_names_replace = c.sample_names_replace
    ∧ (kfAiCustomContextWindow co cfg c).sample_names_rename = c.sample_names_rename
    ∧ (kfAiCustomContextWindow co cfg c).show_hide_rules = c.show_hide_rules
    ∧ (kfAiCustomContextWindow co cfg c).run_modules = c.run_modules
    ∧ (kfAiCustomContextWindow co cfg c).exclude_modules = c.exclude_modules
    ∧ (kfAiCustomContextWindow co cfg c).require_logs = c.require_logs
    ∧ (kfAiCustomContextWindow co cfg c).profile_runtime = c.profile_runtime
    ∧ (kfAiCustomContextWindow co cfg c).profile_memory = c.profile_memory
    ∧ (kfAiCustomContextWindow co cfg c).no_version_check = c.no_version_check
    ∧ (kfAiCustomContextWindow co cfg c).custom_css_files = c.custom_css_files
    ∧ (kfAiCustomContextWindow co cfg c).module_order = c.module_order
    ∧ (kfAiCustomContextWindow co cfg c).fn_clean_exts = c.fn_clean_exts
    ∧ (kfAiCustomContextWindow co cfg c).fn_clean_trim = c.fn_clean_trim
    ∧ (kfAiCustomContextWindow co cfg c).preserve_module_raw_data = c.preserve_module_raw_data
    ∧ (kfAiCustomContextWindow co cfg c).data_dump_file_write_raw = c.data_dump_file_write_raw
    ∧ (kfAiCustomContextWindow co cfg c).ai_summary = c.ai_summary
    ∧ (kfAiCustomContextWindow co cfg c).ai_summary_full = c.ai_summary_full
    ∧ (kfAiCustomContextWindow co cfg c).ai_provider = c.ai_provider
    ∧ (kfAiCustomContextWindow co cfg c).ai_model = c.ai_model
    ∧ (kfAiCustomContextWindow co cfg c).ai_custom_endpoint = c.ai_custom_endpoint
    ∧ (kfAiCustomContextWindow co cfg c).ai_custom_context_window = (if cfg.ai_custom_context_window.isSome then cfg.ai_custom_context_window.getD c.ai_custom_context_window else c.ai_custom_context_window)
    ∧ (kfAiCustomContextWindow co cfg c).ai_prompt_short = c.ai_prompt_short
    ∧ (kfAiCustomContextWindow co cfg c).ai_prompt_full = c.ai_prompt_full
    ∧ (kfAiCustomContextWindow co cfg c).no_ai = c.no_ai
    ∧ (kfAiCustomContextWindow co cfg c).export_plot_formats = c.export_plot_formats
    ∧ (kfAiCustomContextWindow co cfg c).analysis_dir = c.analysis_dir
    ∧ (kfAiCustomContextWindow co cfg c).file_list = c.file_list
    ∧ (kfAiCustomContextWindow co cfg c).fn_ignore_files = c.fn_ignore_files
    ∧ (kfAiCustomContextWindow co cfg c).fn_ignore_dirs = c.fn_ignore_dirs
    ∧ (kfAiCustomContextWindow co cfg c).fn_ignore_paths = c.fn_ignore_paths
    ∧ (kfAiCustomContextWindow co cfg c).sample_names_ignore = c.sample_names_ignore
    ∧ (kfAiCustomContextWindow co cfg c).sample_names_only_include = c.sample_names_only_include
    ∧ (kfAiCustomContextWindow co cfg c).top_modules = c.top_modules
    ∧ (kfAiCustomContextWindow co cfg c).kwargs = c.kwargs := by
  by_cases h : cfg.ai_custom_context_window.isSome = true <;> simp [kfAiCustomContextWindow, h]

@[simp] theorem kfAiPromptShort_fields (co : Collaborators) (cfg : ClConfig) (c : Config) :
    (kfAiPromptShort co cfg c).quiet = c.quiet
    ∧ (kfAiPromptShort co cfg c).no_ansi = c.no_ansi
    ∧ (kfAiPromptShort co cfg c).verbose = c.verbose
    ∧ (kfAiPromptShort co cfg c).loaded_user_files = c.loaded_user_files
    ∧ (kfAiPromptShort co cfg c).explicit_user_config_files = c.explicit_user_config_files
    ∧ (kfAiPromptShort co cfg c).template = c.template
    ∧ (kfAiPromptShort co cfg c).title = c.title
    ∧ (kfAiPromptShort co cfg c).report_comment = c.report_comment
    ∧ (kfAiPromptShort co cfg c).prepend_dirs = c.prepend_dirs
    ∧ (kfAiPromptShort co cfg c).prepend_dirs_depth = c.prepend_dirs_depth
    ∧ (kfAiPromptShort co cfg c).output_dir = c.output_dir
    ∧ (kfAiPromptShort co cfg c).use_filename_as_sample_name = c.use_filename_as_sample_name
    ∧ (kfAiPromptShort co cfg c).make_data_dir = c.make_data_dir
    ∧ (kfAiPromptShort co cfg c).force = c.force
    ∧ (kfAiPromptShort co cfg c).ignore_symlinks = c.ignore_symlinks
    ∧ (kfAiPromptShort co cfg c).zip_data_dir = c.zip_data_dir
    ∧ (kfAiPromptShort co cfg c).data_format = c.data_format
    ∧ (kfAiPromptShort co cfg c).export_plots = c.export_plots
    ∧ (kfAiPromptShort co cfg c).make_report = c.make_report
    ∧ (kfAiPromptShort co cfg c).plots_force_flat = c.plots_force_flat
    ∧ (kfAiPromptShort co cfg c).plots_force_interactive = c.plots_force_interactive
    ∧ (kfAiPromptShort co cfg c).strict = c.strict
    ∧ (kfAiPromptShort co cfg c).lint = c.lint
    ∧ (kfAiPromptShort co cfg c).development = c.development
    ∧ (kfAiPromptShort co cfg c).make_pdf = c.make_pdf
    ∧ (kfAiPromptShort co cfg c).simple_output = c.simple_output
    ∧ (kfAiPromptShort co cfg c).filename = c.filename
    ∧ (kfAiPromptShort co cfg c).megaqc_upload = c.megaqc_upload
    ∧ (kfAiPromptShort co cfg c).fn_clean_sample_names = c.fn_clean_sample_names
    ∧ (kfAiPromptShort co cfg c).sample_names_replace = c.sample_names_replace
    ∧ (kfAiPromptShort co cfg c).sample_names_rename = c.sample_names_rename
    ∧ (kfAiPromptShort co cfg c).show_hide_rules = c.show_hide_rules
    ∧ (kfAiPromptShort co cfg c).run_modules = c.run_modules
    ∧ (kfAiPromptShort co cfg c).exclude_modules = c.exclude_modules
    ∧ (kfAiPromptShort co cfg c).require_logs = c.require_logs
    ∧ (kfAiPromptShort co cfg c).profile_runtime = c.profile_runtime
    ∧ (kfAiPromptShort co cfg c).profile_memory = c.profile_memory
    ∧ (kfAiPromptShort co cfg c).no_version_check = c.no_version_check
    ∧ (kfAiPromptShort co cfg c).custom_css_files = c.custom_css_files
    ∧ (kfAiPromptShort co cfg c).module_order = c.module_order
    ∧ (kfAiPromptShort co cfg c).fn_clean_exts = c.fn_clean_exts
    ∧ (kfAiPromptShort co cfg c).fn_clean_trim = c.fn_clean_trim
    ∧ (kfAiPromptShort co cfg c).preserve_module_raw_data = c.preserve_module_raw_data
    ∧ (kfAiPromptShort co cfg c).data_dump_file_write_raw = c.data_dump_file_write_raw
    ∧ (kfAiPromptShort co cfg c).ai_summary = c.ai_summary
    ∧ (kfAiPromptShort co cfg c).ai_summary_full = c.ai_summary_full
    ∧ (kfAiPromptShort co cfg c).ai_provider = c.ai_provider
    ∧ (kfAiPromptShort co cfg c).ai_model = c.ai_model
    ∧ (kfAiPromptShort co cfg c).ai_custom_endpoint = c.ai_custom_endpoint
    ∧ (kfAiPromptShort co cfg c).ai_custom_context_window = c.ai_custom_context_window
    ∧ (kfAiPromptShort co cfg c).ai_prompt_short = (if cfg.ai_prompt_short.isSome then cfg.ai_prompt_short else c.ai_prompt_short)
    ∧ (kfAiPromptShort co cfg c).ai_prompt_full = c.ai_prompt_full
    ∧ (kfAiPromptShort co cfg c).no_ai = c.no_ai
    ∧ (kfAiPromptShort co cfg c).export_plot_formats = c.export_plot_formats
    ∧ (kfAiPromptShort co cfg c).analysis_dir = c.analysis_dir
    ∧ (kfAiPromptShort co cfg c).file_list = c.file_list
    ∧ (kfAiPromptShort co cfg c).fn_ignore_files = c.fn_ignore_files
    ∧ (kfAiPromptShort co cfg c).fn_ignore_dirs = c.fn_ignore_dirs
    ∧ (kfAiPromptShort co cfg c).fn_ignore_paths = c.fn_ignore_paths
    ∧ (kfAiPromptShort co cfg c).sample_names_ignore = c.sample_names_ignore
    ∧ (kfAiPromptShort co cfg c).sample_names_only_include = c.sample_names_only_include
    ∧ (kfAiPromptShort co cfg c).top_modules = c.top_modules
    ∧ (kfAiPromptShort co cfg c).kwargs = c.kwargs := by
  by_cases h : cfg.ai_prompt_short.isSome = true <;> simp [kfAiPromptShort, h]

@[simp] theorem kfAiPromptFull_fields (co : Collaborators) (cfg : ClConfig) (c : Config) :
    (kfAiPromptFull co cfg c).quiet = c.quiet
    ∧ (kfAiPromptFull co cfg c).no_ansi = c.no_ansi
    ∧ (kfAiPromptFull co cfg c).verbose = c.verbose
    ∧ (kfAiPromptFull co cfg c).loaded_user_files = c.loaded_user_files
    ∧ (kfAiPromptFull co cfg c).explicit_user_config_files = c.explicit_user_config_files
    ∧ (kfAiPromptFull co cfg c).template = c.template
    ∧ (kfAiPromptFull co cfg c).title = c.title
    ∧ (kfAiPromptFull co cfg c).report_comment = c.report_comment
    ∧ (kfAiPromptFull co cfg c).prepend_dirs = c.prepend_dirs
    ∧ (kfAiPromptFull co cfg c).prepend_dirs_depth = c.prepend_dirs_depth
    ∧ (kfAiPromptFull co cfg c).output_dir = c.output_dir
    ∧ (kfAiPromptFull co cfg c).use_filename_as_sample_name = c.use_filename_as_sample_name
    ∧ (kfAiPromptFull co cfg c).make_data_dir = c.make_data_dir
    ∧ (kfAiPromptFull co cfg c).force = c.force
    ∧ (kfAiPromptFull co cfg c).ignore_symlinks = c.ignore_symlinks
    ∧ (kfAiPromptFull co cfg c).zip_data_dir = c.zip_data_dir
    ∧ (kfAiPromptFull co cfg c).data_format = c.data_format
    ∧ (kfAiPromptFull co cfg c).export_plots = c.export_plots
    ∧ (kfAiPromptFull co cfg c).make_report = c.make_report
    ∧ (kfAiPromptFull co cfg c).plots_force_flat = c.plots_force_flat
    ∧ (kfAiPromptFull co cfg c).plots_force_interactive = c.plots_force_interactive
    ∧ (kfAiPromptFull co cfg c).strict = c.strict
    ∧ (kfAiPromptFull co cfg c).lint = c.lint
    ∧ (kfAiPromptFull co cfg c).development = c.development
    ∧ (kfAiPromptFull co cfg c).make_pdf = c.make_pdf
    ∧ (kfAiPromptFull co cfg c).simple_output = c.simple_output
    ∧ (kfAiPromptFull co cfg c).filename = c.filename
    ∧ (kfAiPromptFull co cfg c).megaqc_upload = c.megaqc_upload
    ∧ (kfAiPromptFull co cfg c).fn_clean_sample_names = c.fn_clean_sample_names
    ∧ (kfAiPromptFull co cfg c).sample_names_replace = c.sample_names_replace
    ∧ (kfAiPromptFull co cfg c).sample_names_rename = c.sample_names_rename
    ∧ (kfAiPromptFull co cfg c).show_hide_rules = c.show_hide_rules
    ∧ (kfAiPromptFull co cfg c).run_modules = c.run_modules
    ∧ (kfAiPromptFull co cfg c).exclude_modules = c.exclude_modules
    ∧ (kfAiPromptFull co cfg c).require_logs = c.require_logs
    ∧ (kfAiPromptFull co cfg c).profile_runtime = c.profile_runtime
    ∧ (kfAiPromptFull co cfg c).profile_memory = c.profile_memory
    ∧ (kfAiPromptFull co cfg c).no_version_check = c.no_version_check
    ∧ (kfAiPromptFull co cfg c).custom_css_files = c.custom_css_files
    ∧ (kfAiPromptFull co cfg c).module_order = c.module_order
    ∧ (kfAiPromptFull co cfg c).fn_clean_exts = c.fn_clean_exts
    ∧ (kfAiPromptFull co cfg c).fn_clean_trim = c.fn_clean_trim
    ∧ (kfAiPromptFull co cfg c).preserve_module_raw_data = c.preserve_module_raw_data
    ∧ (kfAiPromptFull co cfg c).data_dump_file_write_raw = c.data_dump_file_write_raw
    ∧ (kfAiPromptFull co cfg c).ai_summary = c.ai_summary
    ∧ (kfAiPromptFull co cfg c).ai_summary_full = c.ai_summary_full
    ∧ (kfAiPromptFull co cfg c).ai_provider = c.ai_provider
    ∧ (kfAiPromptFull co cfg c).ai_model = c.ai_model
    ∧ (kfAiPromptFull co cfg c).ai_custom_endpoint = c.ai_custom_endpoint
    ∧ (kfAiPromptFull co cfg c).ai_custom_context_window = c.ai_custom_context_window
    ∧ (kfAiPromptFull co cfg c).ai_prompt_short = c.ai_prompt_short
    ∧ (kfAiPromptFull co cfg c).ai_prompt_full = (if cfg.ai_prompt_full.isSome then cfg.ai_prompt_full else c.ai_prompt_full)
    ∧ (kfAiPromptFull co cfg c).no_ai = c.no_ai
    ∧ (kfAiPromptFull co cfg c).export_plot_formats = c.export_plot_formats
    ∧ (kfAiPromptFull co cfg c).analysis_dir = c.analysis_dir
    ∧ (kfAiPromptFull co cfg c).file_list = c.file_list
    ∧ (kfAiPromptFull co cfg c).fn_ignore_files = c.fn_ignore_files
    ∧ (kfAiPromptFull co cfg c).fn_ignore_dirs = c.fn_ignore_dirs
    ∧ (kfAiPromptFull co cfg c).fn_ignore_paths = c.fn_ignore_paths
    ∧ (kfAiPromptFull co cfg c).sample_names_ignore = c.sample_names_ignore
    ∧ (kfAiPromptFull co cfg c).sample_names_only_include = c.sample_names_only_include
    ∧ (kfAiPromptFull co cfg c).top_modules = c.top_modules
    ∧ (kfAiPromptFull co cfg c).kwargs = c.kwargs := by
  by_cases h : cfg.ai_prompt_full.isSome = true <;> simp [kfAiPromptFull, h]

@[simp] theorem kfNoAi_fields (co : Collaborators) (cfg : ClConfig) (c : Config) :
    (kfNoAi co cfg c).quiet = c.quiet
    ∧ (kfNoAi co cfg c).no_ansi = c.no_ansi
    ∧ (kfNoAi co cfg c).verbose = c.verbose
    ∧ (kfNoAi co cfg c).loaded_user_files = c.loaded_user_files
    ∧ (kfNoAi co cfg c).explicit_user_config_files = c.explicit_user_config_files
    ∧ (kfNoAi co cfg c).template = c.template
    ∧ (kfNoAi co cfg c).title = c.title
    ∧ (kfNoAi co cfg c).report_comment = c.report_comment
    ∧ (kfNoAi co cfg c).prepend_dirs = c.prepend_dirs
    ∧ (kfNoAi co cfg c).prepend_dirs_depth = c.prepend_dirs_depth
    ∧ (kfNoAi co cfg c).output_dir = c.output_dir
    ∧ (kfNoAi co cfg c).use_filename_as_sample_name = c.use_filename_as_sample_name
    ∧ (kfNoAi co cfg c).make_data_dir = c.make_data_dir
    ∧ (kfNoAi co cfg c).force = c.force
    ∧ (kfNoAi co cfg c).ignore_symlinks = c.ignore_symlinks
    ∧ (kfNoAi co cfg c).zip_data_dir = c.zip_data_dir
    ∧ (kfNoAi co cfg c).data_format = c.data_format
    ∧ (kfNoAi co cfg c).export_plots = c.export_plots
    ∧ (kfNoAi co cfg c).make_report = c.make_report
    ∧ (kfNoAi co cfg c).plots_force_flat = c.plots_force_flat
    ∧ (kfNoAi co cfg c).plots_force_interactive = c.plots_force_interactive
    ∧ (kfNoAi co cfg c).strict = c.strict
    ∧ (kfNoAi co cfg c).lint = c.lint
    ∧ (kfNoAi co cfg c).development = c.development
    ∧ (kfNoAi co cfg c).make_pdf = c.make_pdf
    ∧ (kfNoAi co cfg c).simple_output = c.simple_output
    ∧ (kfNoAi co cfg c).filename = c.filename
    ∧ (kfNoAi co cfg c).megaqc_upload = c.megaqc_upload
    ∧ (kfNoAi co cfg c).fn_clean_sample_names = c.fn_clean_sample_names
    ∧ (kfNoAi co cfg c).sample_names_replace = c.sample_names_replace
    ∧ (kfNoAi co cfg c).sample_names_rename = c.sample_names_rename
    ∧ (kfNoAi co cfg c).show_hide_rules = c.show_hide_rules
    ∧ (kfNoAi co cfg c).run_modules = c.run_modules
    ∧ (kfNoAi co cfg c).exclude_modules = c.exclude_modules
    ∧ (kfNoAi co cfg c).require_logs = c.require_logs
    ∧ (kfNoAi co cfg c).profile_runtime = c.profile_runtime
    ∧ (kfNoAi co cfg c).profile_memory = c.profile_memory
    ∧ (kfNoAi co cfg c).no_version_check = c.no_version_check
    ∧ (kfNoAi co cfg c).custom_css_files = c.custom_css_files
    ∧ (kfNoAi co cfg c).module_order = c.module_order
    ∧ (kfNoAi co cfg c).fn_clean_exts = c.fn_clean_exts
    ∧ (kfNoAi co cfg c).fn_clean_trim = c.fn_clean_trim
    ∧ (kfNoAi co cfg c).preserve_module_raw_data = c.preserve_module_raw_data
    ∧ (kfNoAi co cfg c).data_dump_file_write_raw = c.data_dump_file_write_raw
    ∧ (kfNoAi co cfg c).ai_summary = c.ai_summary
    ∧ (kfNoAi co cfg c).ai_summary_full = c.ai_summary_full
    ∧ (kfNoAi co cfg c).ai_provider = c.ai_provider
    ∧ (kfNoAi co cfg c).ai_model = c.ai_model
    ∧ (kfNoAi co cfg c).ai_custom_endpoint = c.ai_custom_endpoint
    ∧ (kfNoAi co cfg c).ai_custom_context_window = c.ai_custom_context_window
    ∧ (kfNoAi co cfg c).ai_prompt_short = c.ai_prompt_short
    ∧ (kfNoAi co cfg c).ai_prompt_full = c.ai_prompt_full
    ∧ (kfNoAi co cfg c).no_ai = (if cfg.no_ai.isSome then cfg.no_ai.getD c.no_ai else c.no_ai)
    ∧ (kfNoAi co cfg c).export_plot_formats = c.export_plot_formats
    ∧ (kfNoAi co cfg c).analysis_dir = c.analysis_dir
    ∧ (kfNoAi co cfg c).file_list = c.file_list
    ∧ (kfNoAi co cfg c).fn_ignore_files = c.fn_ignore_files
    ∧ (kfNoAi co cfg c).fn_ignore_dirs = c.fn_ignore_dirs
    ∧ (kfNoAi co cfg c).fn_ignore_paths = c.fn_ignore_paths
    ∧ (kfNoAi co cfg c).sample_names_ignore = c.sample_names_ignore
    ∧ (kfNoAi co cfg c).sample_names_only_include = c.sample_names_only_include
    ∧ (kfNoAi co cfg c).top_modules = c.top_modules
    ∧ (kfNoAi co cfg c).kwargs = c.kwargs := by
  by_cases h : cfg.no_ai.isSome = true <;> simp [kfNoAi, h]

/- Phase-level characterisation lemmas over every store field. -/

@[simp] theorem pngStep_fields (c : Config) :
    (pngStep c).quiet = c.quiet
    ∧ (pngStep c).no_ansi = c.no_ansi
    ∧ (pngStep c).verbose = c.verbose
    ∧ (pngStep c).loaded_user_files = c.loaded_user_files
    ∧ (pngStep c).explicit_user_config_files = c.explicit_user_config_files
    ∧ (pngStep c).template = c.template
    ∧ (pngStep c).title = c.title
    ∧ (pngStep c).report_comment = c.report_comment
    ∧ (pngStep c).prepend_dirs = c.prepend_dirs
    ∧ (pngStep c).prepend_dirs_depth = c.prepend_dirs_depth
    ∧ (pngStep c).output_dir = c.output_dir
    ∧ (pngStep c).use_filename_as_sample_name = c.use_filename_as_sample_name
    ∧ (pngStep c).make_data_dir = c.make_data_dir
    ∧ (pngStep c).force = c.force
    ∧ (pngStep c).ignore_symlinks = c.ignore_symlinks
    ∧ (pngStep c).zip_data_dir = c.zip_data_dir
    ∧ (pngStep c).data_format = c.data_format
    ∧ (pngStep c).export_plots = c.export_plots
    ∧ (pngStep c).make_report = c.make_report
    ∧ (pngStep c).plots_force_flat = c.plots_force_flat
    ∧ (pngStep c).plots_force_interactive = c.plots_force_interactive
    ∧ (pngStep c).strict = c.strict
    ∧ (pngStep c).lint = c.lint
    ∧ (pngStep c).development = c.development
    ∧ (pngStep c).make_pdf = c.make_pdf
    ∧ (pngStep c).simple_output = c.simple_output
    ∧ (pngStep c).filename = c.filename
    ∧ (pngStep c).megaqc_upload = c.megaqc_upload
    ∧ (pngStep c).fn_clean_sample_names = c.fn_clean_sample_names
    ∧ (pngStep c).sample_names_replace = c.sample_names_replace
    ∧ (pngStep c).sample_names_rename = c.sample_names_rename
    ∧ (pngStep c).show_hide_rules = c.show_hide_rules
    ∧ (pngStep c).run_modules = c.run_modules
    ∧ (pngStep c).exclude_modules = c.exclude_modules
    ∧ (pngStep c).require_logs = c.require_logs
    ∧ (pngStep c).profile_runtime = c.profile_runtime
    ∧ (pngStep c).profile_memory = c.profile_memory
    ∧ (pngStep c).no_version_check = c.no_version_check
    ∧ (pngStep c).custom_css_files = c.custom_css_files
    ∧ (pngStep c).module_order = c.module_order
    ∧ (pngStep c).fn_clean_exts = c.fn_clean_exts
    ∧ (pngStep c).fn_clean_trim = c.fn_clean_trim
    ∧ (pngStep c).preserve_module_raw_data = c.preserve_module_raw_data
    ∧ (pngStep c).data_dump_file_write_raw = c.data_dump_file_write_raw
    ∧ (pngStep c).ai_summary = c.ai_summary
    ∧ (pngStep c).ai_summary_full = c.ai_summary_full
    ∧ (pngStep c).ai_provider = c.ai_provider
    ∧ (pngStep c).ai_model = c.ai_model
    ∧ (pngStep c).ai_custom_endpoint = c.ai_custom_endpoint
    ∧ (pngStep c).ai_custom_context_window = c.ai_custom_context_window
    ∧ (pngStep c).ai_prompt_short = c.ai_prompt_short
    ∧ (pngStep c).ai_prompt_full = c.ai_prompt_full
    ∧ (pngStep c).no_ai = c.no_ai
    ∧ (pngStep c).export_plot_formats = (if c.development = true ∧ "png" ∉ c.export_plot_formats then c.export_plot_formats ++ ["png"] else c.export_plot_formats)
    ∧ (pngStep c).analysis_dir = c.analysis_dir
    ∧ (pngStep c).file_list = c.file_list
    ∧ (pngStep c).fn_ignore_files = c.fn_ignore_files
    ∧ (pngStep c).fn_ignore_dirs = c.fn_ignore_dirs
    ∧ (pngStep c).fn_ignore_paths = c.fn_ignore_paths
    ∧ (pngStep c).sample_names_ignore = c.sample_names_ignore
    ∧ (pngStep c).sample_names_only_include = c.sample_names_only_include
    ∧ (pngStep c).top_modules = c.top_modules
    ∧ (pngStep c).kwargs = c.kwargs := by
  by_cases h : c.development = true ∧ "png" ∉ c.export_plot_formats <;> simp [pngStep, h]

@[simp] theorem ignoresPhase_fields (cfg : ClConfig) (c : Config) :
    (ignoresPhase cfg c).quiet = c.quiet
    ∧ (ignoresPhase cfg c).no_ansi = c.no_ansi
    ∧ (ignoresPhase cfg c).verbose = c.verbose
    ∧ (ignoresPhase cfg c).loaded_user_files = c.loaded_user_files
    ∧ (ignoresPhase cfg c).explicit_user_config_files = c.explicit_user_config_files
    ∧ (ignoresPhase cfg c).template = c.template
    ∧ (ignoresPhase cfg c).title = c.title
    ∧ (ignoresPhase cfg c).report_comment = c.report_comment
    ∧ (ignoresPhase cfg c).prepend_dirs = c.prepend_dirs
    ∧ (ignoresPhase cfg c).prepend_dirs_depth = c.prepend_dirs_depth
    ∧ (ignoresPhase cfg c).output_dir = c.output_dir
    ∧ (ignoresPhase cfg c).use_filename_as_sample_name = c.use_filename_as_sample_name
    ∧ (ignoresPhase cfg c).make_data_dir = c.make_data_dir
    ∧ (ignoresPhase cfg c).force = c.force
    ∧ (ignoresPhase cfg c).ignore_symlinks = c.ignore_symlinks
    ∧ (ignoresPhase cfg c).zip_data_dir = c.zip_data_dir
    ∧ (ignoresPhase cfg c).data_format = c.data_format
    ∧ (ignoresPhase cfg c).export_plots = c.export_plots
    ∧ (ignoresPhase cfg c).make_report = c.make_report
    ∧ (ignoresPhase cfg c).plots_force_flat = c.plots_force_flat
    ∧ (ignoresPhase cfg c).plots_force_interactive = c.plots_force_interactive
    ∧ (ignoresPhase cfg c).strict = c.strict
    ∧ (ignoresPhase cfg c).lint = c.lint
    ∧ (ignoresPhase cfg c).development = c.development
    ∧ (ignoresPhase cfg c).make_pdf = c.make_pdf
    ∧ (ignoresPhase cfg c).simple_output = c.simple_output
    ∧ (ignoresPhase cfg c).filename = c.filename
    ∧ (ignoresPhase cfg c).megaqc_upload = c.megaqc_upload
    ∧ (ignoresPhase cfg c).fn_clean_sample_names = c.fn_clean_sample_names
    ∧ (ignoresPhase cfg c).sample_names_replace = c.sample_names_replace
    ∧ (ignoresPhase cfg c).sample_names_rename = c.sample_names_rename
    ∧ (ignoresPhase cfg c).show_hide_rules = c.show_hide_rules
    ∧ (ignoresPhase cfg c).run_modules = c.run_modules
    ∧ (ignoresPhase cfg c).exclude_modules = c.exclude_modules
    ∧ (ignoresPhase cfg c).require_logs = c.require_logs
    ∧ (ignoresPhase cfg c).profile_runtime = c.profile_runtime
    ∧ (ignoresPhase cfg c).profile_memory = c.profile_memory
    ∧ (ignoresPhase cfg c).no_version_check = c.no_version_check
    ∧ (ignoresPhase cfg c).custom_css_files = c.custom_css_files
    ∧ (ignoresPhase cfg c).module_order = c.module_order
    ∧ (ignoresPhase cfg c).fn_clean_exts = c.fn_clean_exts
    ∧ (ignoresPhase cfg c).fn_clean_trim = c.fn_clean_trim
    ∧ (ignoresPhase cfg c).preserve_module_raw_data = c.preserve_module_raw_data
    ∧ (ignoresPhase cfg c).data_dump_file_write_raw = c.data_dump_file_write_raw
    ∧ (ignoresPhase cfg c).ai_summary = c.ai_summary
    ∧ (ignoresPhase cfg c).ai_summary_full = c.ai_summary_full
    ∧ (ignoresPhase cfg c).ai_provider = c.ai_provider
    ∧ (ignoresPhase cfg c).ai_model = c.ai_model
    ∧ (ignoresPhase cfg c).ai_custom_endpoint = c.ai_custom_endpoint
    ∧ (ignoresPhase cfg c).ai_custom_context_window = c.ai_custom_context_window
    ∧ (ignoresPhase cfg c).ai_prompt_short = c.ai_prompt_short
    ∧ (ignoresPhase cfg c).ai_prompt_full = c.ai_prompt_full
    ∧ (ignoresPhase cfg c).no_ai = c.no_ai
    ∧ (ignoresPhase cfg c).export_plot_formats = c.export_plot_formats
    ∧ (ignoresPhase cfg c).analysis_dir = c.analysis_dir
    ∧ (ignoresPhase cfg c).file_list = c.file_list
    ∧ (ignoresPhase cfg c).fn_ignore_files = (if cfg.ignore.length > 0 then c.fn_ignore_files ++ cfg.ignore else c.fn_ignore_files)
    ∧ (ignoresPhase cfg c).fn_ignore_dirs = (if cfg.ignore.length > 0 then c.fn_ignore_dirs ++ cfg.ignore else c.fn_ignore_dirs)
    ∧ (ignoresPhase cfg c).fn_ignore_paths = (if cfg.ignore.length > 0 then c.fn_ignore_paths ++ cfg.ignore else c.fn_ignore_paths)
    ∧ (ignoresPhase cfg c).sample_names_ignore = (if cfg.ignore_samples.length > 0 then c.sample_names_ignore ++ cfg.ignore_samples else c.sample_names_ignore)
    ∧ (ignoresPhase cfg c).sample_names_only_include = (if cfg.only_samples.length > 0 then c.sample_names_only_include ++ cfg.only_samples else c.sample_names_only_include)
    ∧ (ignoresPhase cfg c).top_modules = c.top_modules
    ∧ (ignoresPhase cfg c).kwargs = c.kwargs := by
  by_cases h1 : cfg.ignore.length > 0 <;> by_cases h2 : cfg.ignore_samples.length > 0 <;>
    by_cases h3 : cfg.only_samples.length > 0 <;> simp [ignoresPhase, h1, h2, h3]

@[simp] theorem kwargsPhase_fields (cfg : ClConfig) (c : Config) :
    (kwargsPhase cfg c).quiet = c.quiet
    ∧ (kwargsPhase cfg c).no_ansi = c.no_ansi
    ∧ (kwargsPhase cfg c).verbose = c.verbose
    ∧ (kwargsPhase cfg c).loaded_user_files = c.loaded_user_files
    ∧ (kwargsPhase cfg c).explicit_user_config_files = c.explicit_user_config_files
    ∧ (kwargsPhase cfg c).template = c.template
    ∧ (kwargsPhase cfg c).title = c.title
    ∧ (kwargsPhase cfg c).report_comment = c.report_comment
    ∧ (kwargsPhase cfg c).prepend_dirs = c.prepend_dirs
    ∧ (kwargsPhase cfg c).prepend_dirs_depth = c.prepend_dirs_depth
    ∧ (kwargsPhase cfg c).output_dir = c.output_dir
    ∧ (kwargsPhase cfg c).use_filename_as_sample_name = c.use_filename_as_sample_name
    ∧ (kwargsPhase cfg c).make_data_dir = c.make_data_dir
    ∧ (kwargsPhase cfg c).force = c.force
    ∧ (kwargsPhase cfg c).ignore_symlinks = c.ignore_symlinks
    ∧ (kwargsPhase cfg c).zip_data_dir = c.zip_data_dir
    ∧ (kwargsPhase cfg c).data_format = c.data_format
    ∧ (kwargsPhase cfg c).export_plots = c.export_plots
    ∧ (kwargsPhase cfg c).make_report = c.make_report
    ∧ (kwargsPhase cfg c).plots_force_flat = c.plots_force_flat
    ∧ (kwargsPhase cfg c).plots_force_interactive = c.plots_force_interactive
    ∧ (kwargsPhase cfg c).strict = c.strict
    ∧ (kwargsPhase cfg c).lint = c.lint
    ∧ (kwargsPhase cfg c).development = c.development
    ∧ (kwargsPhase cfg c).make_pdf = c.make_pdf
    ∧ (kwargsPhase cfg c).simple_output = c.simple_output
    ∧ (kwargsPhase cfg c).filename = c.filename
    ∧ (kwargsPhase cfg c).megaqc_upload = c.megaqc_upload
    ∧ (kwargsPhase cfg c).fn_clean_sample_names = c.fn_clean_sample_names
    ∧ (kwargsPhase cfg c).sample_names_replace = c.sample_names_replace
    ∧ (kwargsPhase cfg c).sample_names_rename = c.sample_names_rename
    ∧ (kwargsPhase cfg c).show_hide_rules = c.show_hide_rules
    ∧ (kwargsPhase cfg c).run_modules = c.run_modules
    ∧ (kwargsPhase cfg c).exclude_modules = c.exclude_modules
    ∧ (kwargsPhase cfg c).require_logs = c.require_logs
    ∧ (kwargsPhase cfg c).profile_runtime = c.profile_runtime
    ∧ (kwargsPhase cfg c).profile_memory = c.profile_memory
    ∧ (kwargsPhase cfg c).no_version_check = c.no_version_check
    ∧ (kwargsPhase cfg c).custom_css_files = c.custom_css_files
    ∧ (kwargsPhase cfg c).module_order = c.module_order
    ∧ (kwargsPhase cfg c).fn_clean_exts = c.fn_clean_exts
    ∧ (kwargsPhase cfg c).fn_clean_trim = c.fn_clean_trim
    ∧ (kwargsPhase cfg c).preserve_module_raw_data = c.preserve_module_raw_data
    ∧ (kwargsPhase cfg c).data_dump_file_write_raw = c.data_dump_file_write_raw
    ∧ (kwargsPhase cfg c).ai_summary = c.ai_summary
    ∧ (kwargsPhase cfg c).ai_summary_full = c.ai_summary_full
    ∧ (kwargsPhase cfg c).ai_provider = c.ai_provider
    ∧ (kwargsPhase cfg c).ai_model = c.ai_model
    ∧ (kwargsPhase cfg c).ai_custom_endpoint = c.ai_custom_endpoint
    ∧ (kwargsPhase cfg c).ai_custom_context_window = c.ai_custom_context_window
    ∧ (kwargsPhase cfg c).ai_prompt_short = c.ai_prompt_short
    ∧ (kwargsPhase cfg c).ai_prompt_full = c.ai_prompt_full
    ∧ (kwargsPhase cfg c).no_ai = c.no_ai
    ∧ (kwargsPhase cfg c).export_plot_formats = c.export_plot_formats
    ∧ (kwargsPhase cfg c).analysis_dir = c.analysis_dir
    ∧ (kwargsPhase cfg c).file_list = c.file_list
    ∧ (kwargsPhase cfg c).fn_ignore_files = c.fn_ignore_files
    ∧ (kwargsPhase cfg c).fn_ignore_dirs = c.fn_ignore_dirs
    ∧ (kwargsPhase cfg c).fn_ignore_paths = c.fn_ignore_paths
    ∧ (kwargsPhase cfg c).sample_names_ignore = c.sample_names_ignore
    ∧ (kwargsPhase cfg c).sample_names_only_include = c.sample_names_only_include
    ∧ (kwargsPhase cfg c).top_modules = c.top_modules
    ∧ (kwargsPhase cfg c).kwargs = (if (cfg.unknown_options.getD []).length > 0 then cfg.unknown_options.getD [] else c.kwargs) := by
  by_cases h : (cfg.unknown_options.getD []).length > 0 <;> simp [kwargsPhase, h]

set_option maxHeartbeats 1000000 in
@[simp] theorem finishPass_fields (r : ReportState) (cfg : ClConfig) (ev : List Event) (c : Config) :
    (finishPass r cfg ev c).config.quiet = c.quiet
    ∧ (finishPass r cfg ev c).config.no_ansi = c.no_ansi
    ∧ (finishPass r cfg ev c).config.verbose = c.verbose
    ∧ (finishPass r cfg ev c).config.loaded_user_files = c.loaded_user_files
    ∧ (finishPass r cfg ev c).config.explicit_user_config_files = c.explicit_user_config_files
    ∧ (finishPass r cfg ev c).config.template = c.template
    ∧ (finishPass r cfg ev c).config.title = c.title
    ∧ (finishPass r cfg ev c).config.report_comment = c.report_comment
    ∧ (finishPass r cfg ev c).config.prepend_dirs = c.prepend_dirs
    ∧ (finishPass r cfg ev c).config.prepend_dirs_depth = c.prepend_dirs_depth
    ∧ (finishPass r cfg ev c).config.output_dir = c.output_dir
    ∧ (finishPass r cfg ev c).config.use_filename_as_sample_name = c.use_filename_as_sample_name
    ∧ (finishPass r cfg ev c).config.make_data_dir = c.make_data_dir
    ∧ (finishPass r cfg ev c).config.force = c.force
    ∧ (finishPass r cfg ev c).config.ignore_symlinks = c.ignore_symlinks
    ∧ (finishPass r cfg ev c).config.zip_data_dir = c.zip_data_dir
    ∧ (finishPass r cfg ev c).config.data_format = c.data_format
    ∧ (finishPass r cfg ev c).config.export_plots = c.export_plots
    ∧ (finishPass r cfg ev c).config.make_report = c.make_report
    ∧ (finishPass r cfg ev c).config.plots_force_flat = c.plots_force_flat
    ∧ (finishPass r cfg ev c).config.plots_force_interactive = c.plots_force_interactive
    ∧ (finishPass r cfg ev c).config.strict = c.strict
    ∧ (finishPass r cfg ev c).config.lint = c.lint
    ∧ (finishPass r cfg ev c).config.development = c.development
    ∧ (finishPass r cfg ev c).config.make_pdf = c.make_pdf
    ∧ (finishPass r cfg ev c).config.simple_output = c.simple_output
    ∧ (finishPass r cfg ev c).config.filename = c.filename
    ∧ (finishPass r cfg ev c).config.megaqc_upload = c.megaqc_upload
    ∧ (finishPass r cfg ev c).config.fn_clean_sample_names = c.fn_clean_sample_names
    ∧ (finishPass r cfg ev c).config.sample_names_replace = c.sample_names_replace
    ∧ (finishPass r cfg ev c).config.sample_names_rename = c.sample_names_rename
    ∧ (finishPass r cfg ev c).config.show_hide_rules = c.show_hide_rules
    ∧ (finishPass r cfg ev c).config.run_modules = c.run_modules
    ∧ (finishPass r cfg ev c).config.exclude_modules = c.exclude_modules
    ∧ (finishPass r cfg ev c).config.require_logs = c.require_logs
    ∧ (finishPass r cfg ev c).config.profile_runtime = c.profile_runtime
    ∧ (finishPass r cfg ev c).config.profile_memory = c.profile_memory
    ∧ (finishPass r cfg ev c).config.no_version_check = c.no_version_check
    ∧ (finishPass r cfg ev c).config.custom_css_files = c.custom_css_files
    ∧ (finishPass r cfg ev c).config.module_order = c.module_order
    ∧ (finishPass r cfg ev c).config.fn_clean_exts = c.fn_clean_exts
    ∧ (finishPass r cfg ev c).config.fn_clean_trim = c.fn_clean_trim
    ∧ (finishPass r cfg ev c).config.preserve_module_raw_data = c.preserve_module_raw_data
    ∧ (finishPass r cfg ev c).config.data_dump_file_write_raw = c.data_dump_file_write_raw
    ∧ (finishPass r cfg ev c).config.ai_summary = c.ai_summary
    ∧ (finishPass r cfg ev c).config.ai_summary_full = c.ai_summary_full
    ∧ (finishPass r cfg ev c).config.ai_provider = c.ai_provider
    ∧ (finishPass r cfg ev c).config.ai_model = c.ai_model
    ∧ (finishPass r cfg ev c).config.ai_custom_endpoint = c.ai_custom_endpoint
    ∧ (finishPass r cfg ev c).config.ai_custom_context_window = c.ai_custom_context_window
    ∧ (finishPass r cfg ev c).config.ai_prompt_short = c.ai_prompt_short
    ∧ (finishPass r cfg ev c).config.ai_prompt_full = c.ai_prompt_full
    ∧ (finishPass r cfg ev c).config.no_ai = c.no_ai
    ∧ (finishPass r cfg ev c).config.export_plot_formats = c.export_plot_formats
    ∧ (finishPass r cfg ev c).config.analysis_dir = c.analysis_dir
    ∧ (finishPass r cfg ev c).config.file_list = (if cfg.file_list.isSome ∧ 1 < c.analysis_dir.length then c.file_list
        else if cfg.file_list.isSome then cfg.file_list.getD c.file_list else c.file_list)
    ∧ (finishPass r cfg ev c).config.fn_ignore_files = (if cfg.file_list.isSome ∧ 1 < c.analysis_dir.length then c.fn_ignore_files
        else if cfg.ignore.length > 0 then c.fn_ignore_files ++ cfg.ignore else c.fn_ignore_files)
    ∧ (finishPass r cfg ev c).config.fn_ignore_dirs = (if cfg.file_list.isSome ∧ 1 < c.analysis_dir.length then c.fn_ignore_dirs
        else if cfg.ignore.length > 0 then c.fn_ignore_dirs ++ cfg.ignore else c.fn_ignore_dirs)
    ∧ (finishPass r cfg ev c).config.fn_ignore_paths = (if cfg.file_list.isSome ∧ 1 < c.analysis_dir.length then c.fn_ignore_paths
        else if cfg.ignore.length > 0 then c.fn_ignore_paths ++ cfg.ignore else c.fn_ignore_paths)
    ∧ (finishPass r cfg ev c).config.sample_names_ignore = (if cfg.file_list.isSome ∧ 1 < c.analysis_dir.length then c.sample_names_ignore
        else if cfg.ignore_samples.length > 0 then c.sample_names_ignore ++ cfg.ignore_samples else c.sample_names_ignore)
    ∧ (finishPass r cfg ev c).config.sample_names_only_include = (if cfg.file_list.isSome ∧ 1 < c.analysis_dir.length then c.sample_names_only_include
        else if cfg.only_samples.length > 0 then c.sample_names_only_include ++ cfg.only_samples else c.sample_names_only_include)
    ∧ (finishPass r cfg ev c).config.top_modules = c.top_modules
    ∧ (finishPass r cfg ev c).config.kwargs = (if cfg.file_list.isSome ∧ 1 < c.analysis_dir.length then c.kwargs
        else if (cfg.unknown_options.getD []).length > 0 then cfg.unknown_options.getD [] else c.kwargs)
    ∧ (finishPass r cfg ev c).error = (if cfg.file_list.isSome ∧ 1 < c.analysis_dir.length then some { message := fileListErrorMsg } else none)
    ∧ (finishPass r cfg ev c).events = (if cfg.file_list.isSome ∧ 1 < c.analysis_dir.length then ev
        else ev ++ [Event.hook "config_loaded", Event.hook "execution_start"]) := by
  by_cases h1 : cfg.file_list.isSome = true <;> by_cases h2 : 1 < c.analysis_dir.length <;>
    simp [finishPass, h1, h2]

set_option maxHeartbeats 1000000 in
@[simp] theorem resolvedStore_fields (co : Collaborators) (cfg : ClConfig) (dirs : List String) :
    (resolvedStore co cfg dirs).quiet = (pngStep (preDerivState co cfg)).quiet
    ∧ (resolvedStore co cfg dirs).no_ansi = (pngStep (preDerivState co cfg)).no_ansi
    ∧ (resolvedStore co cfg dirs).verbose = (pngStep (preDerivState co cfg)).verbose
    ∧ (resolvedStore co cfg dirs).loaded_user_files = (pngStep (preDerivState co cfg)).loaded_user_files
    ∧ (resolvedStore co cfg dirs).explicit_user_config_files = (pngStep (preDerivState co cfg)).explicit_user_config_files
    ∧ (resolvedStore co cfg dirs).template = (pngStep (preDerivState co cfg)).template
    ∧ (resolvedStore co cfg dirs).title = (pngStep (preDerivState co cfg)).title
    ∧ (resolvedStore co cfg dirs).report_comment = (pngStep (preDerivState co cfg)).report_comment
    ∧ (resolvedStore co cfg dirs).prepend_dirs = (pngStep (preDerivState co cfg)).prepend_dirs
    ∧ (resolvedStore co cfg dirs).prepend_dirs_depth = (pngStep (preDerivState co cfg)).prepend_dirs_depth
    ∧ (resolvedStore co cfg dirs).output_dir = (pngStep (preDerivState co cfg)).output_dir
    ∧ (resolvedStore co cfg dirs).use_filename_as_sample_name = (pngStep (preDerivState co cfg)).use_filename_as_sample_name
    ∧ (resolvedStore co cfg dirs).make_data_dir = (pngStep (preDerivState co cfg)).make_data_dir
    ∧ (resolvedStore co cfg dirs).force = (pngStep (preDerivState co cfg)).force
    ∧ (resolvedStore co cfg dirs).ignore_symlinks = (pngStep (preDerivState co cfg)).ignore_symlinks
    ∧ (resolvedStore co cfg dirs).zip_data_dir = (pngStep (preDerivState co cfg)).zip_data_dir
    ∧ (resolvedStore co cfg dirs).data_format = (pngStep (preDerivState co cfg)).data_format
    ∧ (resolvedStore co cfg dirs).export_plots = (pngStep (preDerivState co cfg)).export_plots
    ∧ (resolvedStore co cfg dirs).make_report = (pngStep (preDerivState co cfg)).make_report
    ∧ (resolvedStore co cfg dirs).plots_force_flat = (pngStep (preDerivState co cfg)).plots_force_flat
    ∧ (resolvedStore co cfg dirs).plots_force_interactive = (pngStep (preDerivState co cfg)).plots_force_interactive
    ∧ (resolvedStore co cfg dirs).strict = (pngStep (preDerivState co cfg)).strict
    ∧ (resolvedStore co cfg dirs).lint = (pngStep (preDerivState co cfg)).lint
    ∧ (resolvedStore co cfg dirs).development = (pngStep (preDerivState co cfg)).development
    ∧ (resolvedStore co cfg dirs).make_pdf = (pngStep (preDerivState co cfg)).make_pdf
    ∧ (resolvedStore co cfg dirs).simple_output = (pngStep (preDerivState co cfg)).simple_output
    ∧ (resolvedStore co cfg dirs).filename = (pngStep (preDerivState co cfg)).filename
    ∧ (resolvedStore co cfg dirs).megaqc_upload = (pngStep (preDerivState co cfg)).megaqc_upload
    ∧ (resolvedStore co cfg dirs).fn_clean_sample_names = (pngStep (preDerivState co cfg)).fn_clean_sample_names
    ∧ (resolvedStore co cfg dirs).sample_names_replace = (pngStep (preDerivState co cfg)).sample_names_replace
    ∧ (resolvedStore co cfg dirs).sample_names_rename = (pngStep (preDerivState co cfg)).sample_names_rename
    ∧ (resolvedStore co cfg dirs).show_hide_rules = (pngStep (preDerivState co cfg)).show_hide_rules
    ∧ (resolvedStore co cfg dirs).run_modules = (pngStep (preDerivState co cfg)).run_modules
    ∧ (resolvedStore co cfg dirs).exclude_modules = (pngStep (preDerivState co cfg)).exclude_modules
    ∧ (resolvedStore co cfg dirs).require_logs = (pngStep (preDerivState co cfg)).require_logs
    ∧ (resolvedStore co cfg dirs).profile_runtime = (pngStep (preDerivState co cfg)).profile_runtime
    ∧ (resolvedStore co cfg dirs).profile_memory = (pngStep (preDerivState co cfg)).profile_memory
    ∧ (resolvedStore co cfg dirs).no_version_check = (pngStep (preDerivState co cfg)).no_version_check
    ∧ (resolvedStore co cfg dirs).custom_css_files = (pngStep (preDerivState co cfg)).custom_css_files
    ∧ (resolvedStore co cfg dirs).module_order = (pngStep (preDerivState co cfg)).module_order
    ∧ (resolvedStore co cfg dirs).fn_clean_exts = (pngStep (preDerivState co cfg)).fn_clean_exts
    ∧ (resolvedStore co cfg dirs).fn_clean_trim = (pngStep (preDerivState co cfg)).fn_clean_trim
    ∧ (resolvedStore co cfg dirs).preserve_module_raw_data = (pngStep (preDerivState co cfg)).preserve_module_raw_data
    ∧ (resolvedStore co cfg dirs).data_dump_file_write_raw = (pngStep (preDerivState co cfg)).data_dump_file_write_raw
    ∧ (resolvedStore co cfg dirs).ai_summary = (pngStep (preDerivState co cfg)).ai_summary
    ∧ (resolvedStore co cfg dirs).ai_summary_full = (pngStep (preDerivState co cfg)).ai_summary_full
    ∧ (resolvedStore co cfg dirs).ai_provider = (pngStep (preDerivState co cfg)).ai_provider
    ∧ (resolvedStore co cfg dirs).ai_model = (pngStep (preDerivState co cfg)).ai_model
    ∧ (resolvedStore co cfg dirs).ai_custom_endpoint = (pngStep (preDerivState co cfg)).ai_custom_endpoint
    ∧ (resolvedStore co cfg dirs).ai_custom_context_window = (pngStep (preDerivState co cfg)).ai_custom_context_window
    ∧ (resolvedStore co cfg dirs).ai_prompt_short = (pngStep (preDerivState co cfg)).ai_prompt_short
    ∧ (resolvedStore co cfg dirs).ai_prompt_full = (pngStep (preDerivState co cfg)).ai_prompt_full
    ∧ (resolvedStore co cfg dirs).no_ai = (pngStep (preDerivState co cfg)).no_ai
    ∧ (resolvedStore co cfg dirs).export_plot_formats = (pngStep (preDerivState co cfg)).export_plot_formats
    ∧ (resolvedStore co cfg dirs).analysis_dir = (if dirs.length > 0 then dirs else (pngStep (preDerivState co cfg)).analysis_dir)
    ∧ (resolvedStore co cfg dirs).file_list = (pngStep (preDerivState co cfg)).file_list
    ∧ (resolvedStore co cfg dirs).fn_ignore_files = (pngStep (preDerivState co cfg)).fn_ignore_files
    ∧ (resolvedStore co cfg dirs).fn_ignore_dirs = (pngStep (preDerivState co cfg)).fn_ignore_dirs
    ∧ (resolvedStore co cfg dirs).fn_ignore_paths = (pngStep (preDerivState co cfg)).fn_ignore_paths
    ∧ (resolvedStore co cfg dirs).sample_names_ignore = (pngStep (preDerivState co cfg)).sample_names_ignore
    ∧ (resolvedStore co cfg dirs).sample_names_only_include = (pngStep (preDerivState co cfg)).sample_names_only_include
    ∧ (resolvedStore co cfg dirs).top_modules = (pngStep (preDerivState co cfg)).top_modules
    ∧ (resolvedStore co cfg dirs).kwargs = (pngStep (preDerivState co cfg)).kwargs := by
  by_cases h : dirs.length > 0 <;> simp [resolvedStore, h]


/- Helper lemmas shared by the claim theorems. -/

/-- The config part of a pass outcome does not depend on the previous report
state (which is only echoed into an error outcome). -/
theorem finishPass_config_indep (r₁ r₂ : ReportState) (cfg : ClConfig)
    (ev : List Event) (c : Config) :
    (finishPass r₁ cfg ev c).config = (finishPass r₂ cfg ev c).config := by
  by_cases h : cfg.file_list.isSome ∧ 1 < c.analysis_dir.length <;> simp [finishPass, h]

/-- A pass that finished without an error did not satisfy the file-list
error condition of line 243. -/
theorem update_config_error_none_not_cond (prev : State) (co : Collaborators)
    (cfg : ClConfig) (dirs : List String) (ltf pi : Bool)
    (herr : (update_config prev co (some cfg) dirs ltf pi).error = none) :
    ¬ (cfg.file_list.isSome = true ∧
      1 < (if 0 < dirs.length then dirs else (preFieldState co cfg).analysis_dir).length) := by
  intro hc
  simp [update_config, preDerivState, applyKeyFields, hc.1, hc.2] at herr

/- Claim theorems. -/

/-- C10: if the override record sets `dirs_depth`, the post-resolution store
has `prepend_dirs` forced to `true` and `prepend_dirs_depth` equal to the
record's value — even when the same record explicitly sets
`prepend_dirs := false`, since the `dirs_depth` assignment (lines 142-144)
runs after the `prepend_dirs` one (lines 139-141) and overwrites it. -/
theorem dirs_depth_forces_prepend_dirs (prev : State) (co : Collaborators)
    (cfg : ClConfig) (dirs : List String) (ltf pi : Bool) (d : Int)
    (h : cfg.dirs_depth = some d) :
    (update_config prev co (some cfg) dirs ltf pi).config.prepend_dirs = true ∧
    (update_config prev co (some cfg) dirs ltf pi).config.prepend_dirs_depth = d := by
  simp [update_config, preDerivState, applyKeyFields, h]

/-- Witness for C10, at a record that also explicitly sets
`prepend_dirs := false`. -/
theorem dirs_depth_forces_prepend_dirs_witness :
    (update_config {} testCollab (some { dirs_depth := some 3, prepend_dirs := some false }) [] false false).config.prepend_dirs = true ∧
    (update_config {} testCollab (some { dirs_depth := some 3, prepend_dirs := some false }) [] false false).config.prepend_dirs_depth = 3 :=
  dirs_depth_forces_prepend_dirs {} testCollab
    { dirs_depth := some 3, prepend_dirs := some false } [] false false 3 rfl

/-- C6 counterexample: with `profile_runtime := some true` and
`profile_memory := some false`, the chained assignment on line 201 sets
`profile_runtime` to `false` — setting `profile_memory` does not force
`profile_runtime` true as the claim states. -/
theorem profile_memory_not_forcing_cex :
    (update_config {} testCollab (some { profile_runtime := some true, profile_memory := some false }) [] false false).config.profile_runtime = false := by
  decide

/-- C6 amended: when `profile_memory` is set, both `profile_runtime` and
`profile_memory` take the record's `profile_memory` value (line 201 is a
chained assignment, not a force-to-true); in particular
`profile_memory := some true` does force `profile_runtime` true. -/
theorem profile_memory_sets_profile_runtime (prev : State) (co : Collaborators)
    (cfg : ClConfig) (dirs : List String) (ltf pi : Bool) (b : Bool)
    (h : cfg.profile_memory = some b) :
    (update_config prev co (some cfg) dirs ltf pi).config.profile_runtime = b ∧
    (update_config prev co (some cfg) dirs ltf pi).config.profile_memory = b := by
  simp [update_config, preDerivState, applyKeyFields, h]

/-- Witness for the amended C6 at `profile_memory := some true`. -/
theorem profile_memory_sets_profile_runtime_witness :
    (update_config {} testCollab (some { profile_memory := some true }) [] false false).config.profile_runtime = true ∧
    (update_config {} testCollab (some { profile_memory := some true }) [] false false).config.profile_memory = true :=
  profile_memory_sets_profile_runtime {} testCollab { profile_memory := some true }
    [] false false true rfl

/-- C5 counterexample: with `ai_summary := some true` and
`ai_summary_full := some false`, lines 218-220 set `ai_summary` to the value
of `ai_summary_full`, i.e. `false` — setting `ai_summary_full` does not
force `ai_summary` true as the claim states. -/
theorem ai_summary_not_forced_cex :
    (update_config {} testCollab (some { ai_summary := some true, ai_summary_full := some false }) [] false false).config.ai_summary = false := by
  decide

/-- C5 amended: when `ai_summary_full` is set, `ai_summary` is set to the
same value (lines 218-220), overriding any `ai_summary` field of the record;
in particular `ai_summary_full := some true` yields
`ai_summary = ai_summary_full = true`. -/
theorem ai_summary_full_sets_ai_summary (prev : State) (co : Collaborators)
    (cfg : ClConfig) (dirs : List String) (ltf pi : Bool) (b : Bool)
    (h : cfg.ai_summary_full = some b) :
    (update_config prev co (some cfg) dirs ltf pi).config.ai_summary = b ∧
    (update_config prev co (some cfg) dirs ltf pi).config.ai_summary_full = b := by
  simp [update_config, preDerivState, applyKeyFields, h]

/-- Witness for the amended C5 at `ai_summary_full := some true`. -/
theorem ai_summary_full_sets_ai_summary_witness :
    (update_config {} testCollab (some { ai_summary_full := some true }) [] false false).config.ai_summary = true ∧
    (update_config {} testCollab (some { ai_summary_full := some true }) [] false false).config.ai_summary_full = true :=
  ai_summary_full_sets_ai_summary {} testCollab { ai_summary_full := some true }
    [] false false true rfl

/-- C3: the store produced by a pass does not depend on the state the pass
started from (the pass begins with `config.load_defaults()`), so running the
same override record twice — the second pass starting from the first pass's
outcome — yields the identical store both times. -/
theorem update_config_resets_store (prev₁ prev₂ : State) (co : Collaborators)
    (cfg? : Option ClConfig) (dirs : List String) (ltf pi : Bool) :
    (update_config prev₁ co cfg? dirs ltf pi).config
      = (update_config prev₂ co cfg? dirs ltf pi).config
    ∧ (update_config (update_config prev₁ co cfg? dirs ltf pi).toState co cfg? dirs ltf pi).config
      = (update_config prev₁ co cfg? dirs ltf pi).config := by
  constructor
  · simp only [update_config]
    exact finishPass_config_indep _ _ _ _ _
  · simp only [update_config]
    exact finishPass_config_indep _ _ _ _ _



/-- C4: whenever the post-resolution template equals the "simple" sentinel —
set directly in the record, forced by `make_pdf`, or taken from a loaded
config file — the store's `plots_force_flat` and `simple_output` flags are
both true (lines 174-179; nothing later writes these three fields). -/
theorem template_simple_forces_flags (prev : State) (co : Collaborators)
    (cfg : ClConfig) (dirs : List String) (ltf pi : Bool)
    (h : (update_config prev co (some cfg) dirs ltf pi).config.template = "simple") :
    (update_config prev co (some cfg) dirs ltf pi).config.plots_force_flat = true ∧
    (update_config prev co (some cfg) dirs ltf pi).config.simple_output = true := by
  simp [update_config, preDerivState, applyKeyFields] at h
  simp [update_config, preDerivState, applyKeyFields]
  by_cases hA : cfg.make_pdf.getD false = true
  · simp [hA]
  · rw [Bool.not_eq_true] at hA
    simp [hA] at h
    simp [hA, h]

/-- Witness for C4 at `template := some "simple"`. -/
theorem template_simple_forces_flags_witness :
    (update_config {} testCollab (some { template := some "simple" }) [] false false).config.plots_force_flat = true ∧
    (update_config {} testCollab (some { template := some "simple" }) [] false false).config.simple_output = true :=
  template_simple_forces_flags {} testCollab { template := some "simple" } [] false false
    (by decide)

/-- C2: `update_config` raises the `RunError` exactly when the record's
`file_list` flag is provided and the resulting analysis-directory list has
more than one entry (lines 242-245); with exactly one directory and
`file_list := some true` the pass succeeds with the store flag set, and a
record that leaves `file_list` unset never raises. -/
theorem file_list_error_iff (prev : State) (co : Collaborators) (cfg : ClConfig)
    (dirs : List String) (ltf pi : Bool) :
    ((update_config prev co (some cfg) dirs ltf pi).error ≠ none
      ↔ cfg.file_list.isSome ∧
        1 < (update_config prev co (some cfg) dirs ltf pi).config.analysis_dir.length)
    ∧ (cfg.file_list = some true →
       (update_config prev co (some cfg) dirs ltf pi).config.analysis_dir.length = 1 →
       (update_config prev co (some cfg) dirs ltf pi).error = none ∧
       (update_config prev co (some cfg) dirs ltf pi).config.file_list = true) := by
  refine ⟨by simp [update_config], fun hfl hlen => ?_⟩
  simp [update_config] at hlen
  simp [update_config, hfl, hlen]

/-- Witness for C2: one analysis directory and `file_list := some true`
succeed with the store flag set. -/
theorem file_list_error_iff_witness :
    (update_config {} testCollab (some { file_list := some true }) ["data"] false false).error = none ∧
    (update_config {} testCollab (some { file_list := some true }) ["data"] false false).config.file_list = true :=
  (file_list_error_iff {} testCollab { file_list := some true } ["data"] false false).2
    rfl (by decide)



/-- Events from the load and key-field phases are Source Loader calls, never
plugin-hook triggers. -/
theorem middleEvents_no_hook (co : Collaborators) (cfg : ClConfig) :
    ∀ e ∈ middleEvents co cfg, e.isHook = false := by
  intro e he
  simp [middleEvents, loadPhase, keyFieldEvents] at he
  rcases he with rfl | ⟨a, -, rfl⟩ | ⟨a, -, rfl⟩ | ⟨-, rfl⟩ | ⟨-, rfl⟩ | ⟨-, rfl⟩ | rfl <;> rfl

/-- C1 counterexample: (i) a record that explicitly sets `make_pdf := false`
and `filename := ""` is silently skipped by the truthiness guards on lines
174 and 180 — the store keeps its pre-existing `make_pdf = true` and
`filename = "report"` instead of taking the explicitly-set falsy values —
and (ii) a record that leaves `sample_filters` unset still has the store's
show-hide sub-section overwritten, because `load_show_hide` is called
unconditionally on line 191; each refutes one clause of the claim as
stated. -/
theorem explicit_falsy_values_skipped_cex :
    (update_config {} coStore (some { make_pdf := some false, filename := some "" }) [] false false).config.make_pdf = true
    ∧ (update_config {} coStore (some { make_pdf := some false, filename := some "" }) [] false false).config.filename = some "report"
    ∧ (update_config {} coStore (some { make_pdf := some false, filename := some "" }) [] false false).config.filename ≠ some ""
    ∧ (preFieldState coShowHide {}).show_hide_rules = [("hide", "old")]
    ∧ (update_config {} coShowHide (some {}) [] false false).config.show_hide_rules = []
    ∧ (update_config {} coShowHide (some {}) [] false false).config.show_hide_rules
        ≠ (preFieldState coShowHide {}).show_hide_rules := by
  refine ⟨?_, ?_, ?_, ?_, ?_, ?_⟩ <;> decide

set_option maxRecDepth 2000 in
/-- C1 (amended): per-field merge semantics of the override record, for every
field.  For the `is not None`-guarded replace-mode fields, an unset field
never overwrites the store value and any explicitly set value — including
falsy values such as the empty string, `false`, or zero — participates in
the merge and replaces the store value; list fields treat an empty list as
unset and otherwise replace, extend, or prepend as the source dictates, and
`no_megaqc_upload` negates into `megaqc_upload`.  The exceptions the code
forces are: the truthiness-guarded fields `make_pdf` (line 174) and
`filename` (line 180) — and the path triggers `replace_names` and
`sample_names` — are applied only when truthy, so an explicitly-set falsy
value is silently skipped and the store value kept; `sample_filters`
violates the unset-never-overwrites invariant because `load_show_hide` is
called unconditionally (line 191), rewriting the show-hide sub-section even
when the field is unset; `check_config` is never read, so setting it does
not participate at all; the verbosity fields (`quiet`, `verbose`,
`no_ansi`) are applied before the config files are loaded (lines 97-102),
so their effect is stated at that stage; and fields that are targets of
cross-field derivations (`template` via `make_pdf`, `prepend_dirs` via
`dirs_depth`, `plots_force_flat` via the simple-template check,
`ai_summary` via `ai_summary_full`, `profile_runtime` via `profile_memory`)
follow the unset/set rule whenever the deriving field does not fire. -/
theorem field_merge_guard_semantics (prev : State) (co : Collaborators)
    (cfg : ClConfig) (dirs : List String) (ltf pi : Bool) :
    (cfg.file_list = none → (update_config prev co (some cfg) dirs ltf pi).config.file_list = (preFieldState co cfg).file_list)
    ∧ (∀ b, cfg.file_list = some b → (update_config prev co (some cfg) dirs ltf pi).error = none → (update_config prev co (some cfg) dirs ltf pi).config.file_list = b)
    ∧ (cfg.dirs_depth = none → cfg.prepend_dirs = none → (update_config prev co (some cfg) dirs ltf pi).config.prepend_dirs = (preFieldState co cfg).prepend_dirs)
    ∧ (cfg.dirs_depth = none → ∀ b, cfg.prepend_dirs = some b → (update_config prev co (some cfg) dirs ltf pi).config.prepend_dirs = b)
    ∧ (cfg.dirs_depth = none → (update_config prev co (some cfg) dirs ltf pi).config.prepend_dirs_depth = (preFieldState co cfg).prepend_dirs_depth)
    ∧ (∀ d, cfg.dirs_depth = some d → (update_config prev co (some cfg) dirs ltf pi).config.prepend_dirs_depth = d)
    ∧ (cfg.fn_clean_sample_names = none → (update_config prev co (some cfg) dirs ltf pi).config.fn_clean_sample_names = (preFieldState co cfg).fn_clean_sample_names)
    ∧ (∀ b, cfg.fn_clean_sample_names = some b → (update_config prev co (some cfg) dirs ltf pi).config.fn_clean_sample_names = b)
    ∧ (cfg.title = none → (update_config prev co (some cfg) dirs ltf pi).config.title = (preFieldState co cfg).title)
    ∧ (∀ t, cfg.title = some t → (update_config prev co (some cfg) dirs ltf pi).config.title = some t)
    ∧ (cfg.report_comment = none → (update_config prev co (some cfg) dirs ltf pi).config.report_comment = (preFieldState co cfg).report_comment)
    ∧ (∀ t, cfg.report_comment = some t → (update_config prev co (some cfg) dirs ltf pi).config.report_comment = some t)
    ∧ (cfg.make_pdf.getD false = false → cfg.template = none → (update_config prev co (some cfg) dirs ltf pi).config.template = (preFieldState co cfg).template)
    ∧ (cfg.make_pdf.getD false = false → ∀ t, cfg.template = some t → (update_config prev co (some cfg) dirs ltf pi).config.template = t)
    ∧ (cfg.require_logs = none → (update_config prev co (some cfg) dirs ltf pi).config.require_logs = (preFieldState co cfg).require_logs)
    ∧ (∀ b, cfg.require_logs = some b → (update_config prev co (some cfg) dirs ltf pi).config.require_logs = b)
    ∧ (cfg.output_dir = none → (update_config prev co (some cfg) dirs ltf pi).config.output_dir = (preFieldState co cfg).output_dir)
    ∧ (∀ p, cfg.output_dir = some p → (update_config prev co (some cfg) dirs ltf pi).config.output_dir = co.realpath p)
    ∧ (cfg.use_filename_as_sample_name = none → (update_config prev co (some cfg) dirs ltf pi).config.use_filename_as_sample_name = (preFieldState co cfg).use_filename_as_sample_name)
    ∧ (∀ v, cfg.use_filename_as_sample_name = some v → (update_config prev co (some cfg) dirs ltf pi).config.use_filename_as_sample_name = v)
    ∧ (cfg.replace_names = none → (update_config prev co (some cfg) dirs ltf pi).config.sample_names_replace = (preFieldState co cfg).sample_names_replace)
    ∧ (cfg.replace_names = some "" → (update_config prev co (some cfg) dirs ltf pi).config.sample_names_replace = (preFieldState co cfg).sample_names_replace)
    ∧ (∀ p, cfg.replace_names = some p → p ≠ "" → (update_config prev co (some cfg) dirs ltf pi).config.sample_names_replace = co.load_replace_names p)
    ∧ (cfg.sample_names = none → (update_config prev co (some cfg) dirs ltf pi).config.sample_names_rename = (preFieldState co cfg).sample_names_rename)
    ∧ (cfg.sample_names = some "" → (update_config prev co (some cfg) dirs ltf pi).config.sample_names_rename = (preFieldState co cfg).sample_names_rename)
    ∧ (∀ p, cfg.sample_names = some p → p ≠ "" → (update_config prev co (some cfg) dirs ltf pi).config.sample_names_rename = co.load_sample_names p)
    ∧ ((update_config prev co (some cfg) dirs ltf pi).config.show_hide_rules = co.load_show_hide (if strTruthy cfg.sample_filters then cfg.sample_filters else none))
    ∧ (cfg.filename = none → (update_config prev co (some cfg) dirs ltf pi).config.filename = (preFieldState co cfg).filename)
    ∧ (cfg.filename = some "" → (update_config prev co (some cfg) dirs ltf pi).config.filename = (preFieldState co cfg).filename)
    ∧ (∀ t, cfg.filename = some t → t ≠ "" → (update_config prev co (some cfg) dirs ltf pi).config.filename = some t)
    ∧ (cfg.make_data_dir = none → (update_config prev co (some cfg) dirs ltf pi).config.make_data_dir = (preFieldState co cfg).make_data_dir)
    ∧ (∀ b, cfg.make_data_dir = some b → (update_config prev co (some cfg) dirs ltf pi).config.make_data_dir = b)
    ∧ (cfg.data_format = none → (update_config prev co (some cfg) dirs ltf pi).config.data_format = (preFieldState co cfg).data_format)
    ∧ (∀ v, cfg.data_format = some v → (update_config prev co (some cfg) dirs ltf pi).config.data_format = v)
    ∧ (cfg.zip_data_dir = none → (update_config prev co (some cfg) dirs ltf pi).config.zip_data_dir = (preFieldState co cfg).zip_data_dir)
    ∧ (∀ b, cfg.zip_data_dir = some b → (update_config prev co (some cfg) dirs ltf pi).config.zip_data_dir = b)
    ∧ (cfg.force = none → (update_config prev co (some cfg) dirs ltf pi).config.force = (preFieldState co cfg).force)
    ∧ (∀ b, cfg.force = some b → (update_config prev co (some cfg) dirs ltf pi).config.force = b)
    ∧ (cfg.ignore_symlinks = none → (update_config prev co (some cfg) dirs ltf pi).config.ignore_symlinks = (preFieldState co cfg).ignore_symlinks)
    ∧ (∀ b, cfg.ignore_symlinks = some b → (update_config prev co (some cfg) dirs ltf pi).config.ignore_symlinks = b)
    ∧ (cfg.make_report = none → (update_config prev co (some cfg) dirs ltf pi).config.make_report = (preFieldState co cfg).make_report)
    ∧ (∀ b, cfg.make_report = some b → (update_config prev co (some cfg) dirs ltf pi).config.make_report = b)
    ∧ (cfg.export_plots = none → (update_config prev co (some cfg) dirs ltf pi).config.export_plots = (preFieldState co cfg).export_plots)
    ∧ (∀ b, cfg.export_plots = some b → (update_config prev co (some cfg) dirs ltf pi).config.export_plots = b)
    ∧ ((update_config prev co (some cfg) dirs ltf pi).config.template ≠ "simple" → cfg.plots_force_flat = none → (update_config prev co (some cfg) dirs ltf pi).config.plots_force_flat = (preFieldState co cfg).plots_force_flat)
    ∧ ((update_config prev co (some cfg) dirs ltf pi).config.template ≠ "simple" → ∀ b, cfg.plots_force_flat = some b → (update_config prev co (some cfg) dirs ltf pi).config.plots_force_flat = b)
    ∧ (cfg.plots_force_interactive = none → (update_config prev co (some cfg) dirs ltf pi).config.plots_force_interactive = (preFieldState co cfg).plots_force_interactive)
    ∧ (∀ b, cfg.plots_force_interactive = some b → (update_config prev co (some cfg) dirs ltf pi).config.plots_force_interactive = b)
    ∧ (cfg.strict = none → (update_config prev co (some cfg) dirs ltf pi).config.strict = (preFieldState co cfg).strict ∧ (update_config prev co (some cfg) dirs ltf pi).config.lint = (preFieldState co cfg).lint)
    ∧ (∀ b, cfg.strict = some b → (update_config prev co (some cfg) dirs ltf pi).config.strict = b ∧ (update_config prev co (some cfg) dirs ltf pi).config.lint = b)
    ∧ (cfg.development = none → (update_config prev co (some cfg) dirs ltf pi).config.development = (preFieldState co cfg).development)
    ∧ (∀ b, cfg.development = some b → (update_config prev co (some cfg) dirs ltf pi).config.development = b)
    ∧ (cfg.make_pdf = none → (update_config prev co (some cfg) dirs ltf pi).config.make_pdf = (preFieldState co cfg).make_pdf)
    ∧ (cfg.make_pdf = some false → (update_config prev co (some cfg) dirs ltf pi).config.make_pdf = (preFieldState co cfg).make_pdf)
    ∧ (cfg.make_pdf = some true → (update_config prev co (some cfg) dirs ltf pi).config.make_pdf = true)
    ∧ (cfg.no_megaqc_upload = none → (update_config prev co (some cfg) dirs ltf pi).config.megaqc_upload = (preFieldState co cfg).megaqc_upload)
    ∧ (∀ b, cfg.no_megaqc_upload = some b → (update_config prev co (some cfg) dirs ltf pi).config.megaqc_upload = !b)
    ∧ (cfg.quiet = none → (applyVerbosity cfg co.defaults).quiet = co.defaults.quiet)
    ∧ (∀ b, cfg.quiet = some b → (applyVerbosity cfg co.defaults).quiet = b)
    ∧ (cfg.verbose = none → (applyVerbosity cfg co.defaults).verbose = co.defaults.verbose)
    ∧ (∀ b, cfg.verbose = some b → (applyVerbosity cfg co.defaults).verbose = b)
    ∧ (cfg.no_ansi = none → (applyVerbosity cfg co.defaults).no_ansi = co.defaults.no_ansi)
    ∧ (∀ b, cfg.no_ansi = some b → (applyVerbosity cfg co.defaults).no_ansi = b)
    ∧ (cfg.profile_memory = none → cfg.profile_runtime = none → (update_config prev co (some cfg) dirs ltf pi).config.profile_runtime = (preFieldState co cfg).profile_runtime)
    ∧ (cfg.profile_memory = none → ∀ b, cfg.profile_runtime = some b → (update_config prev co (some cfg) dirs ltf pi).config.profile_runtime = b)
    ∧ (cfg.profile_memory = none → (update_config prev co (some cfg) dirs ltf pi).config.profile_memory = (preFieldState co cfg).profile_memory)
    ∧ (∀ b, cfg.profile_memory = some b → (update_config prev co (some cfg) dirs ltf pi).config.profile_memory = b)
    ∧ (cfg.no_version_check = none → (update_config prev co (some cfg) dirs ltf pi).config.no_version_check = (preFieldState co cfg).no_version_check)
    ∧ (∀ b, cfg.no_version_check = some b → (update_config prev co (some cfg) dirs ltf pi).config.no_version_check = b)
    ∧ (cfg.ignore = [] → (update_config prev co (some cfg) dirs ltf pi).config.fn_ignore_files = (preFieldState co cfg).fn_ignore_files ∧ (update_config prev co (some cfg) dirs ltf pi).config.fn_ignore_dirs = (preFieldState co cfg).fn_ignore_dirs ∧ (update_config prev co (some cfg) dirs ltf pi).config.fn_ignore_paths = (preFieldState co cfg).fn_ignore_paths)
    ∧ ((update_config prev co (some cfg) dirs ltf pi).error = none → (update_config prev co (some cfg) dirs ltf pi).config.fn_ignore_files = (preFieldState co cfg).fn_ignore_files ++ cfg.ignore ∧ (update_config prev co (some cfg) dirs ltf pi).config.fn_ignore_dirs = (preFieldState co cfg).fn_ignore_dirs ++ cfg.ignore ∧ (update_config prev co (some cfg) dirs ltf pi).config.fn_ignore_paths = (preFieldState co cfg).fn_ignore_paths ++ cfg.ignore)
    ∧ (cfg.ignore_samples = [] → (update_config prev co (some cfg) dirs ltf pi).config.sample_names_ignore = (preFieldState co cfg).sample_names_ignore)
    ∧ ((update_config prev co (some cfg) dirs ltf pi).error = none → (update_config prev co (some cfg) dirs ltf pi).config.sample_names_ignore = (preFieldState co cfg).sample_names_ignore ++ cfg.ignore_samples)
    ∧ (cfg.only_samples = [] → (update_config prev co (some cfg) dirs ltf pi).config.sample_names_only_include = (preFieldState co cfg).sample_names_only_include)
    ∧ ((update_config prev co (some cfg) dirs ltf pi).error = none → (update_config prev co (some cfg) dirs ltf pi).config.sample_names_only_include = (preFieldState co cfg).sample_names_only_include ++ cfg.only_samples)
    ∧ (cfg.run_modules = [] → (update_config prev co (some cfg) dirs ltf pi).config.run_modules = (preFieldState co cfg).run_modules)
    ∧ (cfg.run_modules ≠ [] → (update_config prev co (some cfg) dirs ltf pi).config.run_modules = cfg.run_modules)
    ∧ (cfg.exclude_modules = [] → (update_config prev co (some cfg) dirs ltf pi).config.exclude_modules = (preFieldState co cfg).exclude_modules)
    ∧ (cfg.exclude_modules ≠ [] → (update_config prev co (some cfg) dirs ltf pi).config.exclude_modules = cfg.exclude_modules)
    ∧ (cfg.config_files = [] → ∀ p, Event.loadConfigFile p false ∉ middleEvents co cfg)
    ∧ (cfg.cl_config = [] → ∀ l, Event.loadClConfig l ∉ middleEvents co cfg)
    ∧ ((update_config prev co (some cfg) dirs ltf pi).config.custom_css_files = (preFieldState co cfg).custom_css_files ++ cfg.custom_css_files)
    ∧ (cfg.module_order = [] → (update_config prev co (some cfg) dirs ltf pi).config.module_order = (preFieldState co cfg).module_order)
    ∧ (cfg.module_order ≠ [] → (update_config prev co (some cfg) dirs ltf pi).config.module_order = cfg.module_order)
    ∧ ((update_config prev co (some cfg) dirs ltf pi).config.fn_clean_exts = cfg.extra_fn_clean_exts ++ (preFieldState co cfg).fn_clean_exts)
    ∧ ((update_config prev co (some cfg) dirs ltf pi).config.fn_clean_trim = cfg.extra_fn_clean_trim ++ (preFieldState co cfg).fn_clean_trim)
    ∧ (cfg.preserve_module_raw_data = none → (update_config prev co (some cfg) dirs ltf pi).config.preserve_module_raw_data = (preFieldState co cfg).preserve_module_raw_data)
    ∧ (∀ b, cfg.preserve_module_raw_data = some b → (update_config prev co (some cfg) dirs ltf pi).config.preserve_module_raw_data = b)
    ∧ (cfg.data_dump_file_write_raw = none → (update_config prev co (some cfg) dirs ltf pi).config.data_dump_file_write_raw = (preFieldState co cfg).data_dump_file_write_raw)
    ∧ (∀ b, cfg.data_dump_file_write_raw = some b → (update_config prev co (some cfg) dirs ltf pi).config.data_dump_file_write_raw = b)
    ∧ (cfg.ai_summary_full = none → cfg.ai_summary = none → (update_config prev co (some cfg) dirs ltf pi).config.ai_summary = (preFieldState co cfg).ai_summary)
    ∧ (cfg.ai_summary_full = none → ∀ b, cfg.ai_summary = some b → (update_config prev co (some cfg) dirs ltf pi).config.ai_summary = b)
    ∧ (cfg.ai_summary_full = none → (update_config prev co (some cfg) dirs ltf pi).config.ai_summary_full = (preFieldState co cfg).ai_summary_full)
    ∧ (∀ b, cfg.ai_summary_full = some b → (update_config prev co (some cfg) dirs ltf pi).config.ai_summary_full = b)
    ∧ (cfg.ai_provider = none → (update_config prev co (some cfg) dirs ltf pi).config.ai_provider = (preFieldState co cfg).ai_provider)
    ∧ (∀ v, cfg.ai_provider = some v → (update_config prev co (some cfg) dirs ltf pi).config.ai_provider = v)
    ∧ (cfg.ai_model = none → (update_config prev co (some cfg) dirs ltf pi).config.ai_model = (preFieldState co cfg).ai_model)
    ∧ (∀ v, cfg.ai_model = some v → (update_config prev co (some cfg) dirs ltf pi).config.ai_model = v)
    ∧ (cfg.ai_custom_endpoint = none → (update_config prev co (some cfg) dirs ltf pi).config.ai_custom_endpoint = (preFieldState co cfg).ai_custom_endpoint)
    ∧ (∀ v, cfg.ai_custom_endpoint = some v → (update_config prev co (some cfg) dirs ltf pi).config.ai_custom_endpoint = v)
    ∧ (cfg.ai_custom_context_window = none → (update_config prev co (some cfg) dirs ltf pi).config.ai_custom_context_window = (preFieldState co cfg).ai_custom_context_window)
    ∧ (∀ v, cfg.ai_custom_context_window = some v → (update_config prev co (some cfg) dirs ltf pi).config.ai_custom_context_window = v)
    ∧ (cfg.ai_prompt_short = none → (update_config prev co (some cfg) dirs ltf pi).config.ai_prompt_short = (preFieldState co cfg).ai_prompt_short)
    ∧ (∀ t, cfg.ai_prompt_short = some t → (update_config prev co (some cfg) dirs ltf pi).config.ai_prompt_short = some t)
    ∧ (cfg.ai_prompt_full = none → (update_config prev co (some cfg) dirs ltf pi).config.ai_prompt_full = (preFieldState co cfg).ai_prompt_full)
    ∧ (∀ t, cfg.ai_prompt_full = some t → (update_config prev co (some cfg) dirs ltf pi).config.ai_prompt_full = some t)
    ∧ (cfg.no_ai = none → (update_config prev co (some cfg) dirs ltf pi).config.no_ai = (preFieldState co cfg).no_ai)
    ∧ (∀ b, cfg.no_ai = some b → (update_config prev co (some cfg) dirs ltf pi).config.no_ai = b)
    ∧ (cfg.unknown_options = none → (update_config prev co (some cfg) dirs ltf pi).config.kwargs = (preFieldState co cfg).kwargs)
    ∧ (cfg.unknown_options = some [] → (update_config prev co (some cfg) dirs ltf pi).config.kwargs = (preFieldState co cfg).kwargs)
    ∧ (∀ d, cfg.unknown_options = some d → d ≠ [] → (update_config prev co (some cfg) dirs ltf pi).error = none → (update_config prev co (some cfg) dirs ltf pi).config.kwargs = d)
    ∧ (∀ x, update_config prev co (some { cfg with check_config := x }) dirs ltf pi = update_config prev co (some cfg) dirs ltf pi) :=
  ⟨fun h => by simp [update_config, preDerivState, applyKeyFields, h],
   fun b h herr => by
    have hlt : ¬ (1 < (if 0 < dirs.length then dirs else (preFieldState co cfg).analysis_dir).length) :=
      fun hl => update_config_error_none_not_cond prev co cfg dirs ltf pi herr ⟨by simp [h], hl⟩
    simp [update_config, preDerivState, applyKeyFields, h, hlt],
   fun hd h => by simp [update_config, preDerivState, applyKeyFields, hd, h],
   fun hd b h => by simp [update_config, preDerivState, applyKeyFields, hd, h],
   fun h => by simp [update_config, preDerivState, applyKeyFields, h],
   fun d h => by simp [update_config, preDerivState, applyKeyFields, h],
   fun h => by simp [update_config, preDerivState, applyKeyFields, h],
   fun b h => by simp [update_config, preDerivState, applyKeyFields, h],
   fun h => by simp [update_config, preDerivState, applyKeyFields, h],
   fun t h => by simp [update_config, preDerivState, applyKeyFields, h],
   fun h => by simp [update_config, preDerivState, applyKeyFields, h],
   fun t h => by simp [update_config, preDerivState, applyKeyFields, h],
   fun hmp h => by simp [update_config, preDerivState, applyKeyFields, hmp, h],
   fun hmp t h => by simp [update_config, preDerivState, applyKeyFields, hmp, h],
   fun h => by simp [update_config, preDerivState, applyKeyFields, h],
   fun b h => by simp [update_config, preDerivState, applyKeyFields, h],
   fun h => by simp [update_config, preDerivState, applyKeyFields, h],
   fun p h => by simp [update_config, preDerivState, applyKeyFields, h],
   fun h => by simp [update_config, preDerivState, applyKeyFields, h],
   fun v h => by simp [update_config, preDerivState, applyKeyFields, h],
   fun h => by simp [update_config, preDerivState, applyKeyFields, strTruthy, h],
   fun h => by simp [update_config, preDerivState, applyKeyFields, strTruthy, h],
   fun p h hp => by simp [update_config, preDerivState, applyKeyFields, strTruthy, h, hp],
   fun h => by simp [update_config, preDerivState, applyKeyFields, strTruthy, h],
   fun h => by simp [update_config, preDerivState, applyKeyFields, strTruthy, h],
   fun p h hp => by simp [update_config, preDerivState, applyKeyFields, strTruthy, h, hp],
   by simp [update_config, preDerivState, applyKeyFields],
   fun h => by simp [update_config, preDerivState, applyKeyFields, strTruthy, h],
   fun h => by simp [update_config, preDerivState, applyKeyFields, strTruthy, h],
   fun t h hne => by simp [update_config, preDerivState, applyKeyFields, strTruthy, h, hne],
   fun h => by simp [update_config, preDerivState, applyKeyFields, h],
   fun b h => by simp [update_config, preDerivState, applyKeyFields, h],
   fun h => by simp [update_config, preDerivState, applyKeyFields, h],
   fun v h => by simp [update_config, preDerivState, applyKeyFields, h],
   fun h => by simp [update_config, preDerivState, applyKeyFields, h],
   fun b h => by simp [update_config, preDerivState, applyKeyFields, h],
   fun h => by simp [update_config, preDerivState, applyKeyFields, h],
   fun b h => by simp [update_config, preDerivState, applyKeyFields, h],
   fun h => by simp [update_config, preDerivState, applyKeyFields, h],
   fun b h => by simp [update_config, preDerivState, applyKeyFields, h],
   fun h => by simp [update_config, preDerivState, applyKeyFields, h],
   fun b h => by simp [update_config, preDerivState, applyKeyFields, h],
   fun h => by simp [update_config, preDerivState, applyKeyFields, h],
   fun b h => by simp [update_config, preDerivState, applyKeyFields, h],
   fun hT h => by
    by_cases hmp : cfg.make_pdf.getD false = true
    · exact absurd (by simp [update_config, preDerivState, applyKeyFields, hmp]) hT
    · rw [Bool.not_eq_true] at hmp
      simp [update_config, preDerivState, applyKeyFields, hmp] at hT
      simp [update_config, preDerivState, applyKeyFields, hmp, hT, h],
   fun hT b h => by
    by_cases hmp : cfg.make_pdf.getD false = true
    · exact absurd (by simp [update_config, preDerivState, applyKeyFields, hmp]) hT
    · rw [Bool.not_eq_true] at hmp
      simp [update_config, preDerivState, applyKeyFields, hmp] at hT
      simp [update_config, preDerivState, applyKeyFields, hmp, hT, h],
   fun h => by simp [update_config, preDerivState, applyKeyFields, h],
   fun b h => by simp [update_config, preDerivState, applyKeyFields, h],
   fun h => by simp [update_config, preDerivState, applyKeyFields, h],
   fun b h => by simp [update_config, preDerivState, applyKeyFields, h],
   fun h => by simp [update_config, preDerivState, applyKeyFields, h],
   fun b h => by simp [update_config, preDerivState, applyKeyFields, h],
   fun h => by simp [update_config, preDerivState, applyKeyFields, h],
   fun h => by simp [update_config, preDerivState, applyKeyFields, h],
   fun h => by simp [update_config, preDerivState, applyKeyFields, h],
   fun h => by simp [update_config, preDerivState, applyKeyFields, h],
   fun b h => by simp [update_config, preDerivState, applyKeyFields, h],
   fun h => by simp [applyVerbosity, h],
   fun b h => by simp [applyVerbosity, h],
   fun h => by simp [applyVerbosity, h],
   fun b h => by simp [applyVerbosity, h],
   fun h => by simp [applyVerbosity, h],
   fun b h => by simp [applyVerbosity, h],
   fun hm h => by simp [update_config, preDerivState, applyKeyFields, hm, h],
   fun hm b h => by simp [update_config, preDerivState, applyKeyFields, hm, h],
   fun h => by simp [update_config, preDerivState, applyKeyFields, h],
   fun b h => by simp [update_config, preDerivState, applyKeyFields, h],
   fun h => by simp [update_config, preDerivState, applyKeyFields, h],
   fun b h => by simp [update_config, preDerivState, applyKeyFields, h],
   fun h => by simp [update_config, preDerivState, applyKeyFields, h],
   fun herr => by
    have hnot := update_config_error_none_not_cond prev co cfg dirs ltf pi herr
    by_cases hi : cfg.ignore.length > 0
    · simp [update_config, preDerivState, applyKeyFields, hnot, hi]
    · simp at hi
      simp [update_config, preDerivState, applyKeyFields, hnot, hi],
   fun h => by simp [update_config, preDerivState, applyKeyFields, h],
   fun herr => by
    have hnot := update_config_error_none_not_cond prev co cfg dirs ltf pi herr
    by_cases hi : cfg.ignore_samples.length > 0
    · simp [update_config, preDerivState, applyKeyFields, hnot, hi]
    · simp at hi
      simp [update_config, preDerivState, applyKeyFields, hnot, hi],
   fun h => by simp [update_config, preDerivState, applyKeyFields, h],
   fun herr => by
    have hnot := update_config_error_none_not_cond prev co cfg dirs ltf pi herr
    by_cases hi : cfg.only_samples.length > 0
    · simp [update_config, preDerivState, applyKeyFields, hnot, hi]
    · simp at hi
      simp [update_config, preDerivState, applyKeyFields, hnot, hi],
   fun h => by simp [update_config, preDerivState, applyKeyFields, h],
   fun h => by simp [update_config, preDerivState, applyKeyFields, List.length_pos.mpr h],
   fun h => by simp [update_config, preDerivState, applyKeyFields, h],
   fun h => by simp [update_config, preDerivState, applyKeyFields, List.length_pos.mpr h],
   fun h p => by simp [middleEvents, loadPhase, keyFieldEvents, h],
   fun h l => by simp [middleEvents, loadPhase, keyFieldEvents, h],
   by
    by_cases hc : cfg.custom_css_files.length > 0
    · simp [update_config, preDerivState, applyKeyFields, hc]
    · simp at hc
      simp [update_config, preDerivState, applyKeyFields, hc],
   fun h => by simp [update_config, preDerivState, applyKeyFields, h],
   fun h => by simp [update_config, preDerivState, applyKeyFields, List.length_pos.mpr h],
   by
    by_cases hc : cfg.extra_fn_clean_exts.length > 0
    · simp [update_config, preDerivState, applyKeyFields, hc]
    · simp at hc
      simp [update_config, preDerivState, applyKeyFields, hc],
   by
    by_cases hc : cfg.extra_fn_clean_trim.length > 0
    · simp [update_config, preDerivState, applyKeyFields, hc]
    · simp at hc
      simp [update_config, preDerivState, applyKeyFields, hc],
   fun h => by simp [update_config, preDerivState, applyKeyFields, h],
   fun b h => by simp [update_config, preDerivState, applyKeyFields, h],
   fun h => by simp [update_config, preDerivState, applyKeyFields, h],
   fun b h => by simp [update_config, preDerivState, applyKeyFields, h],
   fun hf h => by simp [update_config, preDerivState, applyKeyFields, hf, h],
   fun hf b h => by simp [update_config, preDerivState, applyKeyFields, hf, h],
   fun h => by simp [update_config, preDerivState, applyKeyFields, h],
   fun b h => by simp [update_config, preDerivState, applyKeyFields, h],
   fun h => by simp [update_config, preDerivState, applyKeyFields, h],
   fun v h => by simp [update_config, preDerivState, applyKeyFields, h],
   fun h => by simp [update_config, preDerivState, applyKeyFields, h],
   fun v h => by simp [update_config, preDerivState, applyKeyFields, h],
   fun h => by simp [update_config, preDerivState, applyKeyFields, h],
   fun v h => by simp [update_config, preDerivState, applyKeyFields, h],
   fun h => by simp [update_config, preDerivState, applyKeyFields, h],
   fun v h => by simp [update_config, preDerivState, applyKeyFields, h],
   fun h => by simp [update_config, preDerivState, applyKeyFields, h],
   fun t h => by simp [update_config, preDerivState, applyKeyFields, h],
   fun h => by simp [update_config, preDerivState, applyKeyFields, h],
   fun t h => by simp [update_config, preDerivState, applyKeyFields, h],
   fun h => by simp [update_config, preDerivState, applyKeyFields, h],
   fun b h => by simp [update_config, preDerivState, applyKeyFields, h],
   fun h => by simp [update_config, preDerivState, applyKeyFields, h],
   fun h => by simp [update_config, preDerivState, applyKeyFields, h],
   fun d h hd herr => by
    have hnot := update_config_error_none_not_cond prev co cfg dirs ltf pi herr
    simp [update_config, preDerivState, applyKeyFields, hnot, h, List.length_pos.mpr hd],
   fun x => rfl⟩

/-- Witness for the amended C1: explicitly-falsy `make_pdf` and `filename`
are kept at the store value, while an explicitly-empty `title` does apply. -/
theorem field_merge_guard_semantics_witness :
    (update_config {} coStore (some { make_pdf := some false, filename := some "" }) [] false false).config.make_pdf
      = (preFieldState coStore { make_pdf := some false, filename := some "" }).make_pdf
    ∧ (update_config {} coStore (some { make_pdf := some false, filename := some "" }) [] false false).config.filename
      = (preFieldState coStore { make_pdf := some false, filename := some "" }).filename
    ∧ (update_config {} testCollab (some { title := some "" }) [] false false).config.title = some "" :=
  ⟨(field_merge_guard_semantics {} coStore { make_pdf := some false, filename := some "" } [] false false).2.2.2.2.2.2.2.2.2.2.2.2.2.2.2.2.2.2.2.2.2.2.2.2.2.2.2.2.2.2.2.2.2.2.2.2.2.2.2.2.2.2.2.2.2.2.2.2.2.2.2.2.2.1 rfl,
   (field_merge_guard_semantics {} coStore { make_pdf := some false, filename := some "" } [] false false).2.2.2.2.2.2.2.2.2.2.2.2.2.2.2.2.2.2.2.2.2.2.2.2.2.2.2.2.1 rfl,
   (field_merge_guard_semantics {} testCollab { title := some "" } [] false false).2.2.2.2.2.2.2.2.2.1 "" rfl⟩

/-- C7: a record with a non-empty `ignore` list extends — never replaces —
each of the store's three ignore-pattern lists (lines 247-251): the
pre-existing entries are retained in order and the record's entries are
appended after them. -/
theorem ignore_patterns_extend (prev : State) (co : Collaborators)
    (cfg : ClConfig) (dirs : List String) (ltf pi : Bool)
    (hne : cfg.ignore ≠ [])
    (herr : (update_config prev co (some cfg) dirs ltf pi).error = none) :
    (update_config prev co (some cfg) dirs ltf pi).config.fn_ignore_files
      = (preFieldState co cfg).fn_ignore_files ++ cfg.ignore
    ∧ (update_config prev co (some cfg) dirs ltf pi).config.fn_ignore_dirs
      = (preFieldState co cfg).fn_ignore_dirs ++ cfg.ignore
    ∧ (update_config prev co (some cfg) dirs ltf pi).config.fn_ignore_paths
      = (preFieldState co cfg).fn_ignore_paths ++ cfg.ignore := by
  have hlen : 0 < cfg.ignore.length := List.length_pos.mpr hne
  have hnot : ¬ (cfg.file_list.isSome = true ∧
      1 < (if 0 < dirs.length then dirs else (preFieldState co cfg).analysis_dir).length) := by
    intro hc
    simp [update_config, preDerivState, applyKeyFields, hc.1, hc.2] at herr
  simp [update_config, preDerivState, applyKeyFields, hnot, hlen]

/-- Witness for C7 over a store whose ignore lists already hold "*.bak". -/
theorem ignore_patterns_extend_witness :
    (update_config {} coBak (some { ignore := ["*.tmp"] }) [] false false).config.fn_ignore_files
      = (preFieldState coBak { ignore := ["*.tmp"] }).fn_ignore_files ++ ["*.tmp"]
    ∧ (update_config {} coBak (some { ignore := ["*.tmp"] }) [] false false).config.fn_ignore_dirs
      = (preFieldState coBak { ignore := ["*.tmp"] }).fn_ignore_dirs ++ ["*.tmp"]
    ∧ (update_config {} coBak (some { ignore := ["*.tmp"] }) [] false false).config.fn_ignore_paths
      = (preFieldState coBak { ignore := ["*.tmp"] }).fn_ignore_paths ++ ["*.tmp"] :=
  ignore_patterns_extend {} coBak { ignore := ["*.tmp"] } [] false false
    (by decide) (by decide)

/-- C8: when the pass ends with `development = true` and the export-format
list right before the derivation (line 236) lacks "png", the resolved list
contains "png" exactly once; and since every pass resets the store, running
the same pass again still yields exactly one "png" — no duplicates. -/
theorem development_forces_png_once (prev : State) (co : Collaborators)
    (cfg : ClConfig) (dirs : List String) (ltf pi : Bool)
    (hdev : (update_config prev co (some cfg) dirs ltf pi).config.development = true)
    (hpre : "png" ∉ (preDerivState co cfg).export_plot_formats) :
    (update_config prev co (some cfg) dirs ltf pi).config.export_plot_formats.count "png" = 1
    ∧ (update_config (update_config prev co (some cfg) dirs ltf pi).toState co (some cfg) dirs ltf pi).config.export_plot_formats.count "png" = 1 := by
  have h0 : (preDerivState co cfg).export_plot_formats.count "png" = 0 :=
    List.count_eq_zero.mpr hpre
  simp [update_config] at hdev
  have hmain : (update_config prev co (some cfg) dirs ltf pi).config.export_plot_formats.count "png" = 1 := by
    simp [update_config, hdev, hpre, h0]
  have hrep : (update_config (update_config prev co (some cfg) dirs ltf pi).toState co (some cfg) dirs ltf pi).config
      = (update_config prev co (some cfg) dirs ltf pi).config := by
    simp only [update_config]
    exact finishPass_config_indep _ _ _ _ _
  exact ⟨hmain, by rw [hrep]; exact hmain⟩

/-- Witness for C8 with `development := some true` over empty defaults. -/
theorem development_forces_png_once_witness :
    (update_config {} testCollab (some { development := some true }) [] false false).config.export_plot_formats.count "png" = 1
    ∧ (update_config (update_config {} testCollab (some { development := some true }) [] false false).toState testCollab (some { development := some true }) [] false false).config.export_plot_formats.count "png" = 1 :=
  development_forces_png_once {} testCollab { development := some true } [] false false
    (by decide) (by decide)

/-- C9: in a completed pass the event trace is exactly: logger init (and
optional intro banner), then the "before_config" hook, then the config-file
discovery and loading calls (none of which is a hook), and finally the
"config_loaded" and "execution_start" hooks, in that order — no other
interleaving is possible. -/
theorem lifecycle_event_order (prev : State) (co : Collaborators)
    (cfg : ClConfig) (dirs : List String) (ltf pi : Bool)
    (herr : (update_config prev co (some cfg) dirs ltf pi).error = none) :
    ((update_config prev co (some cfg) dirs ltf pi).events
      = [Event.initLog ltf] ++ (if pi then [Event.printIntro] else []) ++ [Event.hook "before_config"]
        ++ middleEvents co cfg ++ [Event.hook "config_loaded", Event.hook "execution_start"])
    ∧ (∀ e ∈ middleEvents co cfg, e.isHook = false) := by
  refine ⟨?_, middleEvents_no_hook co cfg⟩
  have hnot : ¬ (cfg.file_list.isSome = true ∧
      1 < (if 0 < dirs.length then dirs else (preFieldState co cfg).analysis_dir).length) := by
    intro hc
    simp [update_config, preDerivState, applyKeyFields, hc.1, hc.2] at herr
  simp [update_config, preEvents, preDerivState, applyKeyFields, hnot]

/-- Witness for C9 on an empty record. -/
theorem lifecycle_event_order_witness :
    ((update_config {} testCollab (some {}) [] false false).events
      = [Event.initLog false] ++ (if false then [Event.printIntro] else []) ++ [Event.hook "before_config"]
        ++ middleEvents testCollab {} ++ [Event.hook "config_loaded", Event.hook "execution_start"])
    ∧ (∀ e ∈ middleEvents testCollab {}, e.isHook = false) :=
  lifecycle_event_order {} testCollab {} [] false false (by decide)


end MultiQC
